import Mathlib

/-!
# TBX command stream receiver: ring buffer, submission and residency

A shallow embedding of `runtime/command_stream/tbx_command_stream_receiver_hw.inl`.

* Pointers and addresses are natural numbers, `0` is `nullptr`.
* The receiver's collaborators whose code is outside the embedded file (the
  page tables `ggtt` / `ppgtt`, the address mapper `gttRemap`, `alignedMalloc`,
  the hardware tables of the family) are fields of `Env`.  The stateful ones
  thread an abstract state `W`.
* Every call into the AUB layer or the TBX stream is one `Record` of
  `tbxStream`, appended in program order, with the call's arguments.
* Host memory is a map from address to `HostByte`; the bytes of a hardware
  command are kept symbolic (`HostByte.ofCmd c i` is byte `i` of command `c`),
  as the encodings live in `hw_cmds.h`.
* Machine integers: `tailRCS` is a `uint32_t`, so the cast of line 271 and the
  subtraction of line 276 are taken modulo `2 ^ 32`; the `size_t` subtractions
  of lines 197 and 236 are taken modulo `2 ^ 64`.  Sums of an address and an
  offset stay far below `2 ^ 64` and are plain sums.
* The `OsContext` argument of `flush` and `processResidency` is never read and
  is left out.
-/

namespace OCLRT

/-- Index into `engineInfoTable` (the enumeration itself is declared outside the file). -/
abbrev EngineType := Nat

/-- The per-engine record `EngineInfo` of the receiver. -/
structure EngineInfo where
  pLRCA : Nat
  ggttLRCA : Nat
  pGlobalHWStatusPage : Nat
  ggttHWSP : Nat
  pRCS : Nat
  ggttRCS : Nat
  sizeRCS : Nat
  tailRCS : Nat
  deriving DecidableEq, Repr

/-- The fields of `AubMemDump::LrcaHelper` that the receiver reads (`getCsTraits`). -/
structure LrcaHelper where
  mmioBase : Nat
  sizeLRCA : Nat
  alignLRCA : Nat
  aubHintLRCA : Nat
  deriving DecidableEq, Repr

/-- A call of an `LrcaHelper` member that writes into a logical context area. -/
inductive LrcaOp where
  | initializeContext
  | setRingHead (ringHead : Nat)
  | setRingTail (ringTail : Nat)
  | setRingBase (ringBase : Nat)
  | setRingCtrl (ringCtrl : Nat)
  deriving DecidableEq, Repr

/-- The hardware commands that `flush` stores into the ring. -/
inductive RingCmd where
  | MI_LOAD_REGISTER_IMM (registerOffset dataDword : Nat)
  | MI_BATCH_BUFFER_START (batchBufferStartAddress addressSpaceIndicator : Nat)
  | MI_NOOP
  deriving DecidableEq, Repr

/-- One byte of host memory: a known value, or byte `i` of a stored command. -/
inductive HostByte where
  | value (v : Nat)
  | ofCmd (c : RingCmd) (i : Nat)
  deriving DecidableEq, Repr

/-- A store into host memory made by `flush`: `memset(p, v, n)` or the
assignment of an `n`-byte command through a pointer `p`. -/
inductive HostStore where
  | memset (p v n : Nat)
  | command (p : Nat) (c : RingCmd) (n : Nat)
  deriving DecidableEq, Repr

/-- First address written by a store. -/
def HostStore.addr : HostStore → Nat
  | .memset p _ _ => p
  | .command p _ _ => p

/-- Number of bytes written by a store. -/
def HostStore.len : HostStore → Nat
  | .memset _ _ n => n
  | .command _ _ n => n

/-- Whether the store writes an `MI_LOAD_REGISTER_IMM`. -/
def HostStore.isLRI : HostStore → Bool
  | .command _ (.MI_LOAD_REGISTER_IMM _ _) _ => true
  | _ => false

/-- The `memory` argument of `AUB::addMemoryWrite`: the host pointer, with the
bytes behind it at the time of the call where the embedding knows them. -/
inductive Payload where
  | external (p : Nat)
  | bytes (p : Nat) (data : List HostByte)
  | lrca (p : Nat) (image : List LrcaOp)
  | tailRCS (engineType : Nat) (value : Nat)
  deriving DecidableEq, Repr

/-- The value filled in by `getGTTData`. -/
structure AubGTTData where
  present : Bool
  localMemory : Bool
  deriving DecidableEq, Repr

/-- `CmdServicesMemTraceRegisterPoll::TimeoutActionValues`. -/
inductive TimeoutActionValues where
  | Abort
  | Ignore
  deriving DecidableEq, Repr

/-- One call into the AUB layer / TBX stream, with its arguments. -/
inductive Record where
  | writeMMIO (offset value : Nat)
  | reserveAddressGGTT (addr size physStart : Nat) (data : AubGTTData)
  | reserveAddressPPGTT (addr size physStart additionalBits : Nat) (localMemoryEnabled : Bool)
  | addMemoryWrite (addr : Nat) (memory : Payload) (blockSize addressSpace hint : Nat)
  | reserveAddressGGTTAndWriteMmeory (gpuAddress cpuAddress physAddress size offset additionalBits : Nat)
      (localMemoryEnabled : Bool)
  | registerPoll (registerOffset mask value : Nat) (pollNotEqual : Bool)
      (timeoutAction : TimeoutActionValues)
  | readMemory (physAddress cpuAddress size : Nat)
  deriving DecidableEq, Repr

/-- The arguments with which `pageWalk` invokes its `PageWalker`. -/
structure PageRun where
  physAddress : Nat
  size : Nat
  offset : Nat
  entryBits : Nat
  deriving DecidableEq, Repr

/-- What the receiver reads and writes of a `GraphicsAllocation`. -/
structure GraphicsAllocation where
  cpuPtr : Nat
  gpuAddress : Nat
  size : Nat
  allocationType : Nat
  residencyTaskCount : Nat → Nat

/-- What `flush` reads of a `BatchBuffer`. -/
structure BatchBuffer where
  commandBufferAllocation : GraphicsAllocation
  startOffset : Nat
  usedSize : Nat

/-- The `sData` view of `AUB::MiContextDescriptorReg`; the fields that `flush`
does not name stay zero. -/
structure MiContextDescriptorReg where
  Valid : Nat
  ForcePageDirRestore : Nat
  ForceRestore : Nat
  Legacy : Nat
  FaultSupport : Nat
  PrivilegeAccessOrPPGTT : Nat
  ADor64bitSupport : Nat
  LogicalRingCtxAddress : Nat
  ContextID : Nat
  deriving DecidableEq, Repr

/-- Everything the receiver takes from outside the embedded file.

Constants and tables of the hardware family and of the base class come first;
the last five fields are the stateful collaborators, each returning its result
together with the collaborators' new state. -/
structure Env (W : Type) where
  /-- `sizeof(MI_LOAD_REGISTER_IMM)` -/
  sizeofLRI : Nat
  /-- `sizeof(MI_BATCH_BUFFER_START)` -/
  sizeofBBS : Nat
  /-- `sizeof(MI_NOOP)` -/
  sizeofNOOP : Nat
  ADDRESS_SPACE_INDICATOR_PPGTT : Nat
  /-- `AUB::Traits::addressingBits` -/
  addressingBits : Nat
  /-- `AUBFamilyMapper<GfxFamily>::csTraits` -/
  csTraits : EngineType → LrcaHelper
  /-- `AUBFamilyMapper<GfxFamily>::perEngineMMIO` -/
  perEngineMMIO : EngineType → List (Nat × Nat)
  /-- Register writes of `initGlobalMMIO()` -/
  globalMMIO : List (Nat × Nat)
  /-- Register writes of `initAdditionalMMIO()` -/
  additionalMMIO : List (Nat × Nat)
  getGTTBits : Nat
  getAddressSpace : Nat → Nat
  TraceNotype : Nat
  TraceBatchBufferPrimary : Nat
  TraceCommandBuffer : Nat
  presentBit : Nat
  writableBit : Nat
  userSupervisorBit : Nat
  /-- `MemoryBanks::getBank` -/
  getBank : Nat → Nat
  getMemoryBank : GraphicsAllocation → Nat
  /-- `AUB::ptrToPPGTT` -/
  ptrToPPGTT : Nat → Nat
  /-- The `ulData[i]` view of a context descriptor. -/
  ulData : MiContextDescriptorReg → Nat → Nat
  ALLOCATION_TYPE_NON_AUB_WRITABLE : Nat
  /-- `alignedMalloc(size, alignment)` -/
  alignedMalloc : W → Nat → Nat → Nat × W
  /-- What a block handed out by `alignedMalloc` holds: the byte at an address
  of the block, for the allocator state the block is taken from.  The
  allocator is declared outside the embedded file. -/
  allocatedByte : W → Nat → HostByte
  /-- `gttRemap.map(ptr, size)` -/
  gttRemapMap : W → Nat → Nat → Nat × W
  /-- `ggtt->map(vm, size, entryBits, memoryBank)` -/
  ggttMap : W → Nat → Nat → Nat → Nat → Nat × W
  /-- `ppgtt->map(vm, size, entryBits, memoryBank)` -/
  ppgttMap : W → Nat → Nat → Nat → Nat → Nat × W
  /-- `ppgtt->pageWalk(vm, size, offset, entryBits, walker, memoryBank)`: the
  runs handed to the walker, in call order. -/
  ppgttPageWalk : W → Nat → Nat → Nat → Nat → Nat → List PageRun × W

/-- The state of a `TbxCommandStreamReceiverHw`.

`hostMem` is the host memory the receiver allocates and stores into, apart from
the contents of the context areas: `lrcaMem p` is the helper calls applied to
the context area at `p`, `hostStores` the stores made so far
in program order, `world` the state of the collaborators of `Env`. -/
structure TbxCommandStreamReceiverHw (W : Type) where
  engineInfoTable : EngineType → EngineInfo
  tbxStream : List Record
  hostMem : Nat → HostByte
  lrcaMem : Nat → List LrcaOp
  hostStores : List HostStore
  world : W
  taskCount : Nat
  deviceIndex : Nat
  localMemoryEnabled : Bool

variable {W : Type}

/-- The constructor (lines 25-49): every engine record is cleared. -/
def construct (world : W) (hostMem : Nat → HostByte) (lrcaMem : Nat → List LrcaOp)
    (taskCount deviceIndex : Nat) (localMemoryEnabled : Bool) : TbxCommandStreamReceiverHw W :=
  { engineInfoTable := fun _ =>
      { pLRCA := 0, ggttLRCA := 0, pGlobalHWStatusPage := 0, ggttHWSP := 0,
        pRCS := 0, ggttRCS := 0, sizeRCS := 0, tailRCS := 0 }
    tbxStream := []
    hostMem := hostMem
    lrcaMem := lrcaMem
    hostStores := []
    world := world
    taskCount := taskCount
    deviceIndex := deviceIndex
    localMemoryEnabled := localMemoryEnabled }

/-- `memset(p, v, n)` on host memory. -/
def memset (mem : Nat → HostByte) (p v n : Nat) : Nat → HostByte :=
  fun a => if p ≤ a ∧ a < p + n then HostByte.value v else mem a

/-- `*(Cmd *)p = c` for a command of `n` bytes. -/
def storeCmd (mem : Nat → HostByte) (p : Nat) (c : RingCmd) (n : Nat) : Nat → HostByte :=
  fun a => if p ≤ a ∧ a < p + n then HostByte.ofCmd c (a - p) else mem a

/-- The `n` bytes of host memory starting at `p`. -/
def readBytes (mem : Nat → HostByte) (p n : Nat) : List HostByte :=
  (List.range n).map (fun i => mem (p + i))

/-- A list of register/value pairs as `writeMMIO` calls. -/
def writeMMIOs (l : List (Nat × Nat)) : List Record :=
  l.map (fun mmioPair => Record.writeMMIO mmioPair.1 mmioPair.2)

/-- Host memory after `alignedMalloc` has handed out the block `[p, p + n)` in
allocator state `w`: the block holds what the allocator delivers, every other
byte is as before. -/
def allocatedBlock (env : Env W) (w : W) (mem : Nat → HostByte) (p n : Nat) : Nat → HostByte :=
  fun a => if p ≤ a ∧ a < p + n then env.allocatedByte w a else mem a

/-- `getPPGTTAdditionalBits` (lines 401-404). -/
def getPPGTTAdditionalBits (env : Env W) : Nat :=
  2 ^ env.presentBit ||| 2 ^ env.writableBit ||| 2 ^ env.userSupervisorBit

/-- `getGTTData` (lines 406-410). -/
def getGTTData (_memory : Nat) : AubGTTData :=
  { present := true, localMemory := false }

/-- `getMemoryBankForGtt` (lines 412-415). -/
def getMemoryBankForGtt (env : Env W) (s : TbxCommandStreamReceiverHw W) : Nat :=
  env.getBank s.deviceIndex

/-- `initEngineMMIO` (lines 77-85). -/
def initEngineMMIO (env : Env W) (s : TbxCommandStreamReceiverHw W) (engineType : EngineType) :
    TbxCommandStreamReceiverHw W :=
  { s with tbxStream := s.tbxStream ++ writeMMIOs ( Env.perEngineMMIO env engineType) }

/-- `initializeEngine` (lines 87-162). -/
def initializeEngine (env : Env W) (s : TbxCommandStreamReceiverHw W) (engineType : EngineType) :
    TbxCommandStreamReceiverHw W :=
  let mmioBase := (env.csTraits engineType).mmioBase
  let engineInfo := s.engineInfoTable engineType
  -- initGlobalMMIO(); initEngineMMIO(engineType); initAdditionalMMIO();
  let s0 : TbxCommandStreamReceiverHw W :=
    { s with tbxStream := s.tbxStream ++ writeMMIOs ( Env.globalMMIO env) }
  let s1 := initEngineMMIO env s0 engineType
  let stream1 := s1.tbxStream ++ writeMMIOs ( Env.additionalMMIO env)
  -- Global HW Status Page
  let sizeHWSP := 0x1000
  let alignHWSP := 0x1000
  let mallocHWSP := env.alignedMalloc s.world sizeHWSP alignHWSP
  let pGlobalHWStatusPage := mallocHWSP.1
  let hostMem1 := allocatedBlock env s.world s.hostMem pGlobalHWStatusPage sizeHWSP
  let remapHWSP := env.gttRemapMap mallocHWSP.2 pGlobalHWStatusPage sizeHWSP
  let ggttHWSP := remapHWSP.1
  let mapHWSP := env.ggttMap remapHWSP.2 ggttHWSP sizeHWSP env.getGTTBits (getMemoryBankForGtt env s)
  let physHWSP := mapHWSP.1
  let stream2 := stream1 ++
    [ Record.reserveAddressGGTT ggttHWSP sizeHWSP physHWSP (getGTTData physHWSP),
      Record.writeMMIO (mmioBase + 0x2080) ggttHWSP]
  -- Allocate the LRCA
  let csTraits := env.csTraits engineType
  let sizeLRCA := csTraits.sizeLRCA
  let alignLRCA := csTraits.alignLRCA
  let mallocLRCA := env.alignedMalloc mapHWSP.2 sizeLRCA alignLRCA
  let pLRCABase := mallocLRCA.1
  let hostMem2 := allocatedBlock env mapHWSP.2 hostMem1 pLRCABase sizeLRCA
  -- Initialize the LRCA to a known state
  let image0 := s.lrcaMem pLRCABase ++ [LrcaOp.initializeContext]
  -- Reserve the RCS ring buffer
  let sizeRCS := 0x4 * 0x1000
  let alignRCS := 0x1000
  let mallocRCS := env.alignedMalloc mallocLRCA.2 sizeRCS alignRCS
  let pRCS := mallocRCS.1
  let hostMem3 := allocatedBlock env mallocLRCA.2 hostMem2 pRCS sizeRCS
  let remapRCS := env.gttRemapMap mallocRCS.2 pRCS sizeRCS
  let ggttRCS := remapRCS.1
  let mapRCS := env.ggttMap remapRCS.2 ggttRCS sizeRCS env.getGTTBits (getMemoryBankForGtt env s)
  let physRCS := mapRCS.1
  let stream3 := stream2 ++ [ Record.reserveAddressGGTT ggttRCS sizeRCS physRCS (getGTTData physRCS)]
  -- Initialize the ring MMIO registers
  let ringHead := 0x000
  let ringTail := 0x000
  let ringBase := ggttRCS
  let ringCtrl := ((sizeRCS - 0x1000) ||| 1) % 2 ^ 32
  let image1 := image0 ++
    [LrcaOp.setRingHead ringHead, LrcaOp.setRingTail ringTail,
     LrcaOp.setRingBase ringBase, LrcaOp.setRingCtrl ringCtrl]
  -- Write our LRCA
  let remapLRCA := env.gttRemapMap mapRCS.2 pLRCABase sizeLRCA
  let ggttLRCA := remapLRCA.1
  let mapLRCA := env.ggttMap remapLRCA.2 ggttLRCA sizeLRCA env.getGTTBits (getMemoryBankForGtt env s)
  let lrcAddressPhys := mapLRCA.1
  let stream4 := stream3 ++
    [ Record.reserveAddressGGTT ggttLRCA sizeLRCA lrcAddressPhys (getGTTData lrcAddressPhys),
      Record.addMemoryWrite lrcAddressPhys (Payload.lrca pLRCABase image1) sizeLRCA
        (env.getAddressSpace csTraits.aubHintLRCA) csTraits.aubHintLRCA]
  { s with
    tbxStream := stream4
    hostMem := hostMem3
    lrcaMem := Function.update s.lrcaMem pLRCABase image1
    world := mapLRCA.2
    engineInfoTable := Function.update s.engineInfoTable engineType
      { pLRCA := pLRCABase
        ggttLRCA := ggttLRCA
        pGlobalHWStatusPage := pGlobalHWStatusPage
        ggttHWSP := ggttHWSP
        pRCS := pRCS
        ggttRCS := ggttRCS
        sizeRCS := sizeRCS
        tailRCS := engineInfo.tailRCS } }

/-- `submitLRCA` (lines 323-330). -/
def submitLRCA (env : Env W) (s : TbxCommandStreamReceiverHw W) (engineType : EngineType)
    (contextDescriptor : MiContextDescriptorReg) : TbxCommandStreamReceiverHw W :=
  let mmioBase := (env.csTraits engineType).mmioBase
  { s with tbxStream := s.tbxStream ++
      [ Record.writeMMIO (mmioBase + 0x2230) 0,
        Record.writeMMIO (mmioBase + 0x2230) 0,
        Record.writeMMIO (mmioBase + 0x2230) (env.ulData contextDescriptor 1),
        Record.writeMMIO (mmioBase + 0x2230) (env.ulData contextDescriptor 0)] }

/-- `pollForCompletion` (lines 332-344). -/
def pollForCompletion (env : Env W) (s : TbxCommandStreamReceiverHw W) (engineType : EngineType) :
    TbxCommandStreamReceiverHw W :=
  let mmioBase := (env.csTraits engineType).mmioBase
  let pollNotEqual := false
  { s with tbxStream := s.tbxStream ++
      [ Record.registerPoll (mmioBase + 0x2234) 0x100 0x100 pollNotEqual TimeoutActionValues.Abort] }

/-- `writeMemory` (lines 346-364): the returned flag and the receiver afterwards. -/
def writeMemory (env : Env W) (s : TbxCommandStreamReceiverHw W) (gfxAllocation : GraphicsAllocation) :
    Bool × TbxCommandStreamReceiverHw W :=
  let cpuAddress := gfxAllocation.cpuPtr
  let gpuAddress := gfxAllocation.gpuAddress
  let size := gfxAllocation.size
  if size = 0 then
    (false, s)
  else
    let walk := env.ppgttPageWalk s.world gpuAddress size 0 (getPPGTTAdditionalBits env)
      (env.getMemoryBank gfxAllocation)
    let walker : PageRun → Record := fun run =>
      Record.reserveAddressGGTTAndWriteMmeory gpuAddress cpuAddress run.physAddress run.size run.offset
        (getPPGTTAdditionalBits env) s.localMemoryEnabled
    (true, { s with world := walk.2, tbxStream := s.tbxStream ++ walk.1.map walker })

/-- `processResidency` (lines 366-374): the receiver afterwards and the
allocations of the container as the loop leaves them. -/
def processResidency (env : Env W) (s : TbxCommandStreamReceiverHw W) :
    List GraphicsAllocation → TbxCommandStreamReceiverHw W × List GraphicsAllocation
  | [] => (s, [])
  | gfxAllocation :: rest =>
    let written := writeMemory env s gfxAllocation
    let stamped : GraphicsAllocation :=
      { gfxAllocation with
        residencyTaskCount :=
          Function.update gfxAllocation.residencyTaskCount s.deviceIndex (s.taskCount + 1) }
    let r := processResidency env written.2 rest
    (r.1, stamped :: r.2)

/-- Lines 188-191 of `flush`: initialise the engine on first use. -/
def flushEnsureInitialized (env : Env W) (s : TbxCommandStreamReceiverHw W) (engineType : EngineType) :
    TbxCommandStreamReceiverHw W :=
  if (s.engineInfoTable engineType).pLRCA = 0 then initializeEngine env s engineType else s

/-- `pBatchBuffer` of `flush` (line 194). -/
def flushBatchBufferPtr (batchBuffer : BatchBuffer) : Nat :=
  batchBuffer.commandBufferAllocation.cpuPtr + batchBuffer.startOffset

/-- Lines 193-215 of `flush`: map and write the batch buffer. -/
def flushWriteBatchBuffer (env : Env W) (s : TbxCommandStreamReceiverHw W) (batchBuffer : BatchBuffer) :
    TbxCommandStreamReceiverHw W :=
  let pBatchBuffer := flushBatchBufferPtr batchBuffer
  let currentOffset := batchBuffer.usedSize
  let sizeBatchBuffer := (currentOffset + 2 ^ 64 - batchBuffer.startOffset) % 2 ^ 64
  let mapBB := env.ppgttMap s.world pBatchBuffer sizeBatchBuffer (getPPGTTAdditionalBits env)
    (env.getMemoryBank batchBuffer.commandBufferAllocation)
  let physBatchBuffer := mapBB.1
  { s with
    world := mapBB.2
    tbxStream := s.tbxStream ++
      [ Record.reserveAddressPPGTT pBatchBuffer sizeBatchBuffer physBatchBuffer
          (getPPGTTAdditionalBits env) s.localMemoryEnabled,
        Record.addMemoryWrite physBatchBuffer (Payload.external pBatchBuffer) sizeBatchBuffer
          (env.getAddressSpace env.TraceBatchBufferPrimary) env.TraceBatchBufferPrimary] }

/-- The receiver as `flush` has it on reaching line 220: engine initialised,
batch buffer written, residency processed. -/
def flushBeforeRing (env : Env W) (s : TbxCommandStreamReceiverHw W) (batchBuffer : BatchBuffer)
    (engineType : EngineType) (allocationsForResidency : List GraphicsAllocation) :
    TbxCommandStreamReceiverHw W :=
  (processResidency env
    (flushWriteBatchBuffer env (flushEnsureInitialized env s engineType) batchBuffer)
    allocationsForResidency).1

/-- The locals of `flush` that survive the branch of lines 234-257. -/
structure RingCursor (W : Type) where
  csr : TbxCommandStreamReceiverHw W
  previousTail : Nat
  pTail : Nat

/-- Lines 221-257 of `flush`: pad and wrap, or add the first-submission
register load, or neither. -/
def flushRingBranch (env : Env W) (s : TbxCommandStreamReceiverHw W) (engineType : EngineType) :
    RingCursor W :=
  let mmioBase := (env.csTraits engineType).mmioBase
  let engineInfo := s.engineInfoTable engineType
  let previousTail := engineInfo.tailRCS
  let pTail := engineInfo.pRCS + engineInfo.tailRCS
  let ggttTail := engineInfo.ggttRCS + engineInfo.tailRCS
  let sizeNeeded := env.sizeofBBS + env.sizeofNOOP + env.sizeofLRI
  if engineInfo.tailRCS + sizeNeeded ≥ engineInfo.sizeRCS then
    -- Pad the remaining ring with NOOPs
    let sizeToWrap := (engineInfo.sizeRCS + 2 ^ 64 - engineInfo.tailRCS) % 2 ^ 64
    let hostMem1 := memset s.hostMem pTail 0 sizeToWrap
    -- write remaining ring
    let mapPad := env.ggttMap s.world ggttTail sizeToWrap env.getGTTBits (getMemoryBankForGtt env s)
    let physDumpStart := mapPad.1
    { csr :=
        { s with
          hostMem := hostMem1
          hostStores := s.hostStores ++ [HostStore.memset pTail 0 sizeToWrap]
          world := mapPad.2
          tbxStream := s.tbxStream ++
            [ Record.addMemoryWrite physDumpStart
                (Payload.bytes pTail (readBytes hostMem1 pTail sizeToWrap)) sizeToWrap
                (env.getAddressSpace env.TraceCommandBuffer) env.TraceCommandBuffer]
          engineInfoTable := Function.update s.engineInfoTable engineType
            { engineInfo with tailRCS := 0 } }
      previousTail := 0
      pTail := engineInfo.pRCS }
  else if engineInfo.tailRCS = 0 then
    -- Add a LRI if this is our first submission
    let lri := RingCmd.MI_LOAD_REGISTER_IMM (mmioBase + 0x2244) 0x00010000
    { csr :=
        { s with
          hostMem := storeCmd s.hostMem pTail lri env.sizeofLRI
          hostStores := s.hostStores ++ [HostStore.command pTail lri env.sizeofLRI] }
      previousTail := previousTail
      pTail := pTail + env.sizeofLRI }
  else
    { csr := s, previousTail := previousTail, pTail := pTail }

/-- Lines 259-297 of `flush`: store the batch buffer start and the no-op,
compute the new tail, dump the new commands and the tail field. -/
def flushRingAppend (env : Env W) (cur : RingCursor W) (engineType : EngineType) (pBatchBuffer : Nat) :
    TbxCommandStreamReceiverHw W :=
  let s := cur.csr
  let engineInfo := s.engineInfoTable engineType
  -- Add our BBS
  let bbs := RingCmd.MI_BATCH_BUFFER_START (env.ptrToPPGTT pBatchBuffer)
    env.ADDRESS_SPACE_INDICATOR_PPGTT
  let hostMem1 := storeCmd s.hostMem cur.pTail bbs env.sizeofBBS
  let pTail1 := cur.pTail + env.sizeofBBS
  -- Add a NOOP as our tail needs to be aligned to a QWORD
  let hostMem2 := storeCmd hostMem1 pTail1 RingCmd.MI_NOOP env.sizeofNOOP
  let pTail2 := pTail1 + env.sizeofNOOP
  -- Compute our new ring tail.
  let tailRCS := (pTail2 - engineInfo.pRCS) % 2 ^ 32
  -- Only dump the new commands
  let ggttDumpStart := engineInfo.ggttRCS + cur.previousTail
  let dumpStart := engineInfo.pRCS + cur.previousTail
  let dumpLength := (tailRCS + 2 ^ 32 - cur.previousTail) % 2 ^ 32
  -- write RCS
  let mapDump := env.ggttMap s.world ggttDumpStart dumpLength env.getGTTBits (getMemoryBankForGtt env s)
  let physDumpStart := mapDump.1
  -- update the RCS mmio tail in the LRCA
  let mapLRCA := env.ggttMap mapDump.2 engineInfo.ggttLRCA 4 env.getGTTBits (getMemoryBankForGtt env s)
  let physLRCA := mapLRCA.1
  { s with
    hostMem := hostMem2
    hostStores := s.hostStores ++
      [HostStore.command cur.pTail bbs env.sizeofBBS,
       HostStore.command pTail1 RingCmd.MI_NOOP env.sizeofNOOP]
    world := mapLRCA.2
    tbxStream := s.tbxStream ++
      [ Record.addMemoryWrite physDumpStart
          (Payload.bytes dumpStart (readBytes hostMem2 dumpStart dumpLength)) dumpLength
          (env.getAddressSpace env.TraceCommandBuffer) env.TraceCommandBuffer,
        Record.addMemoryWrite (physLRCA + 0x101c) (Payload.tailRCS engineType tailRCS) 4
          (env.getAddressSpace env.TraceNotype) env.TraceNotype]
    engineInfoTable := Function.update s.engineInfoTable engineType
      { engineInfo with tailRCS := tailRCS } }

/-- Lines 220-298 of `flush`: add a batch buffer start to the ring. -/
def flushRing (env : Env W) (s : TbxCommandStreamReceiverHw W) (engineType : EngineType)
    (pBatchBuffer : Nat) : TbxCommandStreamReceiverHw W :=
  flushRingAppend env (flushRingBranch env s engineType) engineType pBatchBuffer

/-- The context descriptor built in lines 302-314 of `flush`. -/
def flushContextDescriptor (env : Env W) (engineInfo : EngineInfo) : MiContextDescriptorReg :=
  { Valid := 1
    ForcePageDirRestore := 0
    ForceRestore := 0
    Legacy := 1
    FaultSupport := 0
    PrivilegeAccessOrPPGTT := 1
    ADor64bitSupport := if env.addressingBits > 32 then 1 else 0
    LogicalRingCtxAddress := engineInfo.ggttLRCA / 4096
    ContextID := 0 }

/-- What `flush` returns and leaves behind. -/
structure FlushResult (W : Type) where
  flushStamp : Nat
  csr : TbxCommandStreamReceiverHw W
  allocationsForResidency : List GraphicsAllocation

/-- `flush` (lines 183-321). -/
def flush (env : Env W) (s : TbxCommandStreamReceiverHw W) (batchBuffer : BatchBuffer)
    (engineType : EngineType) (allocationsForResidency : List GraphicsAllocation) : FlushResult W :=
  let s1 := flushEnsureInitialized env s engineType
  -- Write our batch buffer
  let pBatchBuffer := flushBatchBufferPtr batchBuffer
  let s2 := flushWriteBatchBuffer env s1 batchBuffer
  -- Write allocations for residency
  let residency := processResidency env s2 allocationsForResidency
  -- Add a batch buffer start to the RCS
  let s4 := flushRing env residency.1 engineType pBatchBuffer
  -- Submit our execlist by submitting to the execlist submit ports
  let contextDescriptor := flushContextDescriptor env (s4.engineInfoTable engineType)
  let s5 := submitLRCA env s4 engineType contextDescriptor
  let s6 := pollForCompletion env s5 engineType
  { flushStamp := 0, csr := s6, allocationsForResidency := residency.2 }

/-- The arguments of one `flush` call on a given engine. -/
structure FlushCall where
  batchBuffer : BatchBuffer
  allocationsForResidency : List GraphicsAllocation

/-- A sequence of `flush` calls on one engine, each starting from the receiver
the previous one left. -/
def flushes (env : Env W) (s : TbxCommandStreamReceiverHw W) (engineType : EngineType) :
    List FlushCall → TbxCommandStreamReceiverHw W
  | [] => s
  | call :: rest =>
    flushes env (flush env s call.batchBuffer engineType call.allocationsForResidency).csr
      engineType rest

/-- The `n` bytes of the encoding of command `c`. -/
def cmdBytes (c : RingCmd) (n : Nat) : List HostByte :=
  (List.range n).map (fun i => HostByte.ofCmd c i)

/-- The state every engine record is in between two `flush` calls: the ring
size is the one `initializeEngine` sets as soon as the engine has a context
area, and the tail lies inside the ring. -/
def RingReady (s : TbxCommandStreamReceiverHw W) (engineType : EngineType) : Prop :=
  ((s.engineInfoTable engineType).pLRCA ≠ 0 → (s.engineInfoTable engineType).sizeRCS = 0x4000) ∧
    (s.engineInfoTable engineType).tailRCS < 0x4000

instance (s : TbxCommandStreamReceiverHw W) (engineType : EngineType) :
    Decidable (RingReady s engineType) := by
  unfold RingReady
  infer_instance

/-! ## A concrete environment

Used to evaluate the receiver on explicit inputs: 12/12/4-byte commands,
identity page tables over 4 KiB pages and a bump allocator for host memory. -/

/-- The page walk of the concrete environment: one run for each page that
`[vm, vm + size)` touches, translated by the identity. -/
def refPageWalk : Nat → Nat → Nat → Nat → Nat → List PageRun
  | 0, _, _, _, _ => []
  | fuel + 1, vm, size, offset, entryBits =>
    if size = 0 then []
    else
      let runSize := min size (4096 - vm % 4096)
      { physAddress := vm, size := runSize, offset := offset, entryBits := entryBits } ::
        refPageWalk fuel (vm + runSize) (size - runSize) (offset + runSize) entryBits

/-- The concrete environment; its state is the next free host address, and the
blocks its allocator hands out are filled with `0xCD`. -/
def refEnv : Env Nat :=
  { sizeofLRI := 12
    sizeofBBS := 12
    sizeofNOOP := 4
    ADDRESS_SPACE_INDICATOR_PPGTT := 1
    addressingBits := 48
    csTraits := fun _ => { mmioBase := 0x2000, sizeLRCA := 0x11000, alignLRCA := 0x1000, aubHintLRCA := 25 }
    perEngineMMIO := fun _ => []
    globalMMIO := []
    additionalMMIO := []
    getGTTBits := 1
    getAddressSpace := fun _ => 0
    TraceNotype := 0
    TraceBatchBufferPrimary := 41
    TraceCommandBuffer := 1
    presentBit := 0
    writableBit := 1
    userSupervisorBit := 2
    getBank := fun _ => 0
    getMemoryBank := fun _ => 0
    ptrToPPGTT := fun p => p
    ulData := fun d i =>
      if i = 0 then
        d.Valid + 2 * d.ForcePageDirRestore + 4 * d.ForceRestore + 8 * d.Legacy +
          16 * d.ADor64bitSupport + 64 * d.FaultSupport + 256 * d.PrivilegeAccessOrPPGTT +
          4096 * d.LogicalRingCtxAddress
      else d.ContextID
    ALLOCATION_TYPE_NON_AUB_WRITABLE := 0x40000000
    alignedMalloc := fun w size alignment =>
      ((w + alignment - 1) / alignment * alignment, (w + alignment - 1) / alignment * alignment + size)
    allocatedByte := fun _ _ => HostByte.value 0xCD
    gttRemapMap := fun w ptr _ => (ptr, w)
    ggttMap := fun w vm _ _ _ => (vm, w)
    ppgttMap := fun w vm _ _ _ => (vm, w)
    ppgttPageWalk := fun w vm size offset entryBits _ => (refPageWalk size vm size offset entryBits, w) }

/-- A freshly constructed receiver over the concrete environment. -/
def refCsr : TbxCommandStreamReceiverHw Nat :=
  construct 0x100000 (fun _ => HostByte.value 0xCD) (fun _ => []) 0 0 false

/-- The receiver `refCsr` with the tail of every engine pre-advanced to `t`. -/
def refCsrAt (t : Nat) : TbxCommandStreamReceiverHw Nat :=
  { refCsr with
    engineInfoTable := fun e => { refCsr.engineInfoTable e with tailRCS := t } }

/-- A 4-byte allocation of the given type. -/
def refAllocation (allocationType : Nat) : GraphicsAllocation :=
  { cpuPtr := 0x7000, gpuAddress := 0x7000, size := 4, allocationType := allocationType,
    residencyTaskCount := fun _ => 0 }

/-- A 4096-byte command buffer of which the first 128 bytes are used. -/
def refBatchBuffer : BatchBuffer :=
  { commandBufferAllocation :=
      { cpuPtr := 0x200000, gpuAddress := 0x200000, size := 4096, allocationType := 0,
        residencyTaskCount := fun _ => 0 }
    startOffset := 0
    usedSize := 128 }

/-- One `flush` call with `refBatchBuffer` and an empty residency container. -/
def refCall : FlushCall :=
  { batchBuffer := refBatchBuffer, allocationsForResidency := [] }

/-- The zero-size allocation `GraphicsAllocation((void *)0x1234, 0)`. -/
def refEmptyAllocation : GraphicsAllocation :=
  { cpuPtr := 0x1234, gpuAddress := 0x1234, size := 0, allocationType := 0,
    residencyTaskCount := fun _ => 0 }

/-- Modelled from the spec: what `pageWalk(vm, size, offset, ..)` of the Page
Table Engine hands to its walker (spec 4.1 and 8; the page table code is not
part of the embedded file).  The runs come in ascending virtual-address order,
are contiguous and non-overlapping (each starts at the offset where the one
before ended, the first at `offset`), are non-empty, and together cover exactly
`size` bytes.  A run is a maximal physically-contiguous piece of the range:
translation is per page, so a run that does not end the range ends on a page
boundary of the virtual address space. -/
def IsPageWalk (pageSize : Nat) : Nat → Nat → Nat → List PageRun → Prop
  | _, size, _, [] => size = 0
  | vm, size, offset, run :: rest =>
    run.offset = offset ∧ 0 < run.size ∧ run.size ≤ size ∧
      (run.size < size → (vm + run.size) % pageSize = 0) ∧
      IsPageWalk pageSize (vm + run.size) (size - run.size) (offset + run.size) rest

instance IsPageWalk.decidable (pageSize : Nat) :
    ∀ (runs : List PageRun) (vm size offset : Nat),
      Decidable (IsPageWalk pageSize vm size offset runs)
  | [], _, size, _ => by
    unfold IsPageWalk
    infer_instance
  | run :: rest, vm, size, offset => by
    unfold IsPageWalk
    have := IsPageWalk.decidable pageSize rest (vm + run.size) (size - run.size)
      (offset + run.size)
    infer_instance

/-- Whether a record is a `registerPoll`. -/
def Record.isRegisterPoll : Record → Bool
  | .registerPoll _ _ _ _ _ => true
  | _ => false

/-- A sequence of `flush` calls, each on the engine given with it, each
starting from the receiver the previous one left. -/
def flushSequence (env : Env W) (s : TbxCommandStreamReceiverHw W) :
    List (EngineType × FlushCall) → TbxCommandStreamReceiverHw W
  | [] => s
  | call :: rest =>
    flushSequence env
      (flush env s call.2.batchBuffer call.1 call.2.allocationsForResidency).csr rest

/-- The concrete environment with a bump allocator that never returns `nullptr`. -/
def refEnvNonNull : Env Nat :=
  { refEnv with alignedMalloc := fun w size _ => (w + 1, w + 1 + size) }

/-- A page-aligned allocation of 4096 bytes. -/
def refPageAllocation : GraphicsAllocation :=
  { cpuPtr := 0x9000, gpuAddress := 0x9000, size := 4096, allocationType := 0,
    residencyTaskCount := fun _ => 0 }

/-- The concrete receiver after 1022 flushes on engine 0: the tail has reached
`28 + 16 * 1021 = 16364`, 20 bytes before the end of the ring. -/
def refCsrNearEnd : TbxCommandStreamReceiverHw Nat :=
  flushes refEnv refCsr 0 (refCall :: List.replicate 1021 refCall)

/-- Two engine records that hold the same pointers, global-table addresses and
ring size; they may differ in the tail. -/
def EngineInfo.sameAddresses (a b : EngineInfo) : Prop :=
  a.pLRCA = b.pLRCA ∧ a.ggttLRCA = b.ggttLRCA ∧ a.pGlobalHWStatusPage = b.pGlobalHWStatusPage ∧
    a.ggttHWSP = b.ggttHWSP ∧ a.pRCS = b.pRCS ∧ a.ggttRCS = b.ggttRCS ∧ a.sizeRCS = b.sizeRCS

instance (a b : EngineInfo) : Decidable (EngineInfo.sameAddresses a b) := by
  unfold EngineInfo.sameAddresses
  infer_instance

/-! ## Read-back (live transport) -/

/-- What the simulator behind the TBX stream returns to `readMemory`: the byte
at a physical address, given the records sent so far, the read included. -/
abbrev TbxDevice := List Record → Nat → Nat

/-- `tbxStream.readMemory(physAddress, memory, size)`: the call is recorded and
the `size` bytes of host memory at `memory` are overwritten with what the
simulator returns for `physAddress` onwards. -/
def tbxReadMemory (device : TbxDevice) (s : TbxCommandStreamReceiverHw W)
    (physAddress memory size : Nat) : TbxCommandStreamReceiverHw W :=
  { s with
    tbxStream := s.tbxStream ++ [ Record.readMemory physAddress memory size]
    hostMem := fun a =>
      if memory ≤ a ∧ a < memory + size then
        HostByte.value
          (device (s.tbxStream ++ [ Record.readMemory physAddress memory size])
            (physAddress + (a - memory)))
      else s.hostMem a }

/-- `makeCoherent` (lines 376-389). -/
def makeCoherent (env : Env W) (device : TbxDevice) (s : TbxCommandStreamReceiverHw W)
    (gfxAllocation : GraphicsAllocation) : TbxCommandStreamReceiverHw W :=
  let cpuAddress := gfxAllocation.cpuPtr
  let gpuAddress := gfxAllocation.gpuAddress
  let length := gfxAllocation.size
  if length ≠ 0 then
    let walk := env.ppgttPageWalk s.world gpuAddress length 0 0 (env.getMemoryBank gfxAllocation)
    walk.1.foldl
      (fun acc run => tbxReadMemory device acc run.physAddress (cpuAddress + run.offset) run.size)
      { s with world := walk.2 }
  else s

/-- How a call of `waitBeforeMakingNonResidentWhenRequired` ends: in
`UNRECOVERABLE_IF`, by returning, or not within the given number of loop tests. -/
inductive WaitResult (W : Type) where
  | unrecoverable
  | returned (csr : TbxCommandStreamReceiverHw W)
  | outOfFuel

/-- The loop of lines 396-398, with at most `fuel` tests of its condition.
`tagValue mem` is `*getTagAddress()` read from host memory `mem`. -/
def waitLoop (env : Env W) (device : TbxDevice) (tagValue : (Nat → HostByte) → Nat)
    (latestFlushedTaskCount : Nat) (allocation : GraphicsAllocation) :
    Nat → TbxCommandStreamReceiverHw W → Option (TbxCommandStreamReceiverHw W)
  | 0, _ => none
  | fuel + 1, s =>
    if tagValue s.hostMem < latestFlushedTaskCount then
      waitLoop env device tagValue latestFlushedTaskCount allocation fuel
        (makeCoherent env device s allocation)
    else some s

/-- `waitBeforeMakingNonResidentWhenRequired` (lines 391-399).  The tag
allocation (`getTagAllocation()`, `none` for `nullptr`), the tag address and
`latestFlushedTaskCount` are members of the base class and are arguments here. -/
def waitBeforeMakingNonResidentWhenRequired (env : Env W) (device : TbxDevice)
    (tagValue : (Nat → HostByte) → Nat) (tagAllocation : Option GraphicsAllocation)
    (latestFlushedTaskCount : Nat) (fuel : Nat) (s : TbxCommandStreamReceiverHw W) :
    WaitResult W :=
  match tagAllocation with
  | none => WaitResult.unrecoverable
  | some allocation =>
    match waitLoop env device tagValue latestFlushedTaskCount allocation fuel s with
    | some r => WaitResult.returned r
    | none => WaitResult.outOfFuel

/-- The engine record the constructor writes. -/
def EngineInfo.cleared : EngineInfo :=
  { pLRCA := 0, ggttLRCA := 0, pGlobalHWStatusPage := 0, ggttHWSP := 0,
    pRCS := 0, ggttRCS := 0, sizeRCS := 0, tailRCS := 0 }

/-- A simulator that answers every read with the number of reads made so far. -/
def refDevice : TbxDevice :=
  fun records _ => (records.filter (fun r => match r with
    | .readMemory _ _ _ => true
    | _ => false)).length

/-- The tag of the concrete receiver: the byte at host address `0x7000`. -/
def refTagValue (mem : Nat → HostByte) : Nat :=
  match mem 0x7000 with
  | .value v => v
  | .ofCmd _ _ => 0

/-- The concrete receiver over zeroed host memory. -/
def refCsrZeroed : TbxCommandStreamReceiverHw Nat :=
  { refCsr with hostMem := fun _ => HostByte.value 0 }

/-- Modelled from the spec: the coverage property of a page walk (spec 8, "Page
walk coverage"; the page table code is not part of the embedded file).  The
runs of the walk of a range of `size` bytes from `offset` are contiguous in
virtual-address order and non-overlapping (each starts at the offset where the
one before ended, the first at `offset`), are non-empty, and together cover
exactly `size` bytes.  Nothing is said about where a run ends. -/
def IsContiguousCover : Nat → Nat → List PageRun → Prop
  | size, _, [] => size = 0
  | size, offset, run :: rest =>
    run.offset = offset ∧ 0 < run.size ∧ run.size ≤ size ∧
      IsContiguousCover (size - run.size) (offset + run.size) rest

instance IsContiguousCover.decidable :
    ∀ (runs : List PageRun) (size offset : Nat), Decidable (IsContiguousCover size offset runs)
  | [], size, _ => by
    unfold IsContiguousCover
    infer_instance
  | run :: rest, size, offset => by
    unfold IsContiguousCover
    have := IsContiguousCover.decidable rest (size - run.size) (offset + run.size)
    infer_instance

theorem writeMemory_frame (env : Env W) (s : TbxCommandStreamReceiverHw W) (g : GraphicsAllocation) :
    (writeMemory env s g).2.engineInfoTable = s.engineInfoTable ∧
    (writeMemory env s g).2.hostStores = s.hostStores ∧
    (writeMemory env s g).2.hostMem = s.hostMem ∧
    (writeMemory env s g).2.lrcaMem = s.lrcaMem ∧
    (writeMemory env s g).2.deviceIndex = s.deviceIndex ∧
    (writeMemory env s g).2.taskCount = s.taskCount ∧
    (writeMemory env s g).2.localMemoryEnabled = s.localMemoryEnabled := by
  unfold writeMemory
  by_cases h : g.size = 0 <;> simp [h]

theorem processResidency_frame (env : Env W) (l : List GraphicsAllocation) :
    ∀ s : TbxCommandStreamReceiverHw W,
      (processResidency env s l).1.engineInfoTable = s.engineInfoTable ∧
      (processResidency env s l).1.hostStores = s.hostStores ∧
      (processResidency env s l).1.hostMem = s.hostMem ∧
      (processResidency env s l).1.lrcaMem = s.lrcaMem ∧
      (processResidency env s l).1.deviceIndex = s.deviceIndex ∧
      (processResidency env s l).1.taskCount = s.taskCount ∧
      (processResidency env s l).1.localMemoryEnabled = s.localMemoryEnabled := by
  induction l with
  | nil => intro s; simp [processResidency]
  | cons g rest ih =>
    intro s
    obtain ⟨h1, h2, h3, h4, h5, h6, h7⟩ := ih (writeMemory env s g).2
    obtain ⟨w1, w2, w3, w4, w5, w6, w7⟩ := writeMemory_frame env s g
    simp only [processResidency]
    exact ⟨h1.trans w1, h2.trans w2, h3.trans w3, h4.trans w4, h5.trans w5, h6.trans w6,
      h7.trans w7⟩

theorem flushEnsureInitialized_frame (env : Env W) (s : TbxCommandStreamReceiverHw W) (e : EngineType) :
    (flushEnsureInitialized env s e).hostStores = s.hostStores ∧
    ((s.engineInfoTable e).pLRCA ≠ 0 → (flushEnsureInitialized env s e).hostMem = s.hostMem) ∧
    (flushEnsureInitialized env s e).deviceIndex = s.deviceIndex ∧
    (flushEnsureInitialized env s e).taskCount = s.taskCount ∧
    (flushEnsureInitialized env s e).localMemoryEnabled = s.localMemoryEnabled := by
  unfold flushEnsureInitialized
  by_cases h : (s.engineInfoTable e).pLRCA = 0 <;> simp [h, initializeEngine]

theorem flushEnsureInitialized_tail (env : Env W) (s : TbxCommandStreamReceiverHw W) (e : EngineType) :
    ((flushEnsureInitialized env s e).engineInfoTable e).tailRCS = (s.engineInfoTable e).tailRCS := by
  unfold flushEnsureInitialized
  by_cases h : (s.engineInfoTable e).pLRCA = 0 <;> simp [h, initializeEngine]

theorem flushEnsureInitialized_size (env : Env W) (s : TbxCommandStreamReceiverHw W) (e : EngineType)
    (h : (s.engineInfoTable e).pLRCA ≠ 0 → (s.engineInfoTable e).sizeRCS = 0x4000) :
    ((flushEnsureInitialized env s e).engineInfoTable e).sizeRCS = 0x4000 := by
  unfold flushEnsureInitialized
  by_cases h0 : (s.engineInfoTable e).pLRCA = 0
  · simp [h0, initializeEngine]
  · simp [h0, h h0]

theorem flushBeforeRing_frame (env : Env W) (s : TbxCommandStreamReceiverHw W) (bb : BatchBuffer)
    (e : EngineType) (l : List GraphicsAllocation) :
    (flushBeforeRing env s bb e l).engineInfoTable = (flushEnsureInitialized env s e).engineInfoTable ∧
    (flushBeforeRing env s bb e l).hostStores = s.hostStores ∧
    (flushBeforeRing env s bb e l).hostMem = (flushEnsureInitialized env s e).hostMem ∧
    (flushBeforeRing env s bb e l).deviceIndex = s.deviceIndex ∧
    (flushBeforeRing env s bb e l).taskCount = s.taskCount := by
  obtain ⟨h1, h2, h3, _, h5, h6, _⟩ :=
    processResidency_frame env l (flushWriteBatchBuffer env (flushEnsureInitialized env s e) bb)
  obtain ⟨i1, i2, i3, i4, _⟩ := flushEnsureInitialized_frame env s e
  unfold flushBeforeRing
  refine ⟨h1, h2.trans ?_, h3.trans ?_, h5.trans ?_, h6.trans ?_⟩
  · simpa [flushWriteBatchBuffer] using i1
  · simp [flushWriteBatchBuffer]
  · simpa [flushWriteBatchBuffer] using i3
  · simpa [flushWriteBatchBuffer] using i4

theorem flushBeforeRing_tail (env : Env W) (s : TbxCommandStreamReceiverHw W) (bb : BatchBuffer)
    (e : EngineType) (l : List GraphicsAllocation) :
    ((flushBeforeRing env s bb e l).engineInfoTable e).tailRCS = (s.engineInfoTable e).tailRCS := by
  rw [(flushBeforeRing_frame env s bb e l).1]
  exact flushEnsureInitialized_tail env s e

theorem flushBeforeRing_size (env : Env W) (s : TbxCommandStreamReceiverHw W) (bb : BatchBuffer)
    (e : EngineType) (l : List GraphicsAllocation)
    (h : (s.engineInfoTable e).pLRCA ≠ 0 → (s.engineInfoTable e).sizeRCS = 0x4000) :
    ((flushBeforeRing env s bb e l).engineInfoTable e).sizeRCS = 0x4000 := by
  rw [(flushBeforeRing_frame env s bb e l).1]
  exact flushEnsureInitialized_size env s e h

/-- The receiver that `flush` leaves is the ring stage applied to
`flushBeforeRing`, followed by submission and poll. -/
theorem flush_csr (env : Env W) (s : TbxCommandStreamReceiverHw W) (bb : BatchBuffer)
    (e : EngineType) (l : List GraphicsAllocation) :
    (flush env s bb e l).csr =
      pollForCompletion env
        (submitLRCA env (flushRing env (flushBeforeRing env s bb e l) e (flushBatchBufferPtr bb)) e
          (flushContextDescriptor env
            ((flushRing env (flushBeforeRing env s bb e l) e (flushBatchBufferPtr bb)).engineInfoTable e)))
        e := rfl

theorem readBytes_length (mem : Nat → HostByte) (p n : Nat) : (readBytes mem p n).length = n := by
  simp [readBytes]

theorem readBytes_memset (mem : Nat → HostByte) (p v n : Nat) :
    readBytes (memset mem p v n) p n = List.replicate n (HostByte.value v) := by
  unfold readBytes memset
  apply List.ext_getElem
  · simp
  · intro i h1 h2
    simp at h1
    simp [h1]

theorem readBytes_storeCmd (mem : Nat → HostByte) (p : Nat) (c : RingCmd) (n : Nat) :
    readBytes (storeCmd mem p c n) p n = cmdBytes c n := by
  unfold readBytes storeCmd cmdBytes
  apply List.ext_getElem
  · simp
  · intro i h1 h2
    simp at h1
    simp [h1]

theorem readBytes_storeCmd_before (mem : Nat → HostByte) (p q : Nat) (c : RingCmd) (n m : Nat)
    (h : q + m ≤ p) : readBytes (storeCmd mem p c n) q m = readBytes mem q m := by
  unfold readBytes storeCmd
  apply List.map_congr_left
  intro i hi
  simp at hi
  have : ¬ (p ≤ q + i ∧ q + i < p + n) := by omega
  simp [this]

theorem readBytes_append (mem : Nat → HostByte) (p a b : Nat) :
    readBytes mem p (a + b) = readBytes mem p a ++ readBytes mem (p + a) b := by
  unfold readBytes
  rw [List.range_add, List.map_append, List.map_map]
  congr 1
  apply List.map_congr_left
  intro i _
  simp [Nat.add_assoc]


/-- The tail that the ring stage computes for a pre-flush tail `t`. -/
theorem flushRing_engineInfo (env : Env W) (s0 : TbxCommandStreamReceiverHw W) (e : EngineType)
    (p : Nat) (hsz : (s0.engineInfoTable e).sizeRCS = 0x4000)
    (ht : (s0.engineInfoTable e).tailRCS < 0x4000)
    (hBN : env.sizeofBBS + env.sizeofNOOP < 0x4000) :
    (flushRing env s0 e p).engineInfoTable e =
      { s0.engineInfoTable e with
        tailRCS :=
          if (s0.engineInfoTable e).tailRCS + (env.sizeofBBS + env.sizeofNOOP + env.sizeofLRI) ≥ 0x4000
          then env.sizeofBBS + env.sizeofNOOP
          else if (s0.engineInfoTable e).tailRCS = 0
          then env.sizeofLRI + env.sizeofBBS + env.sizeofNOOP
          else (s0.engineInfoTable e).tailRCS + env.sizeofBBS + env.sizeofNOOP } := by
  unfold flushRing flushRingAppend flushRingBranch
  simp only [hsz]
  split_ifs with h1 h2
  · simp only [Function.update_same]
    congr 1
    omega
  · simp only [Function.update_same]
    congr 1
    omega
  · simp only [Function.update_same]
    congr 1
    omega

/-- Submission and poll leave the engine records and host memory as the ring
stage left them. -/
theorem flush_fields (env : Env W) (s : TbxCommandStreamReceiverHw W) (bb : BatchBuffer)
    (e : EngineType) (l : List GraphicsAllocation) :
    (flush env s bb e l).csr.engineInfoTable =
      (flushRing env (flushBeforeRing env s bb e l) e (flushBatchBufferPtr bb)).engineInfoTable ∧
    (flush env s bb e l).csr.hostStores =
      (flushRing env (flushBeforeRing env s bb e l) e (flushBatchBufferPtr bb)).hostStores ∧
    (flush env s bb e l).csr.hostMem =
      (flushRing env (flushBeforeRing env s bb e l) e (flushBatchBufferPtr bb)).hostMem :=
  ⟨rfl, rfl, rfl⟩

/-- The stores of the ring stage, branch by branch. -/
theorem flushRing_hostStores (env : Env W) (s0 : TbxCommandStreamReceiverHw W) (e : EngineType)
    (p : Nat) (hsz : (s0.engineInfoTable e).sizeRCS = 0x4000)
    (ht : (s0.engineInfoTable e).tailRCS < 0x4000) :
    (flushRing env s0 e p).hostStores =
      s0.hostStores ++
        (if (s0.engineInfoTable e).tailRCS + (env.sizeofBBS + env.sizeofNOOP + env.sizeofLRI) ≥ 0x4000
         then
          [HostStore.memset ((s0.engineInfoTable e).pRCS + (s0.engineInfoTable e).tailRCS) 0
             (0x4000 - (s0.engineInfoTable e).tailRCS),
           HostStore.command (s0.engineInfoTable e).pRCS
             (RingCmd.MI_BATCH_BUFFER_START (env.ptrToPPGTT p) env.ADDRESS_SPACE_INDICATOR_PPGTT)
             env.sizeofBBS,
           HostStore.command ((s0.engineInfoTable e).pRCS + env.sizeofBBS) RingCmd.MI_NOOP
             env.sizeofNOOP]
         else if (s0.engineInfoTable e).tailRCS = 0 then
          [HostStore.command (s0.engineInfoTable e).pRCS
             (RingCmd.MI_LOAD_REGISTER_IMM ((env.csTraits e).mmioBase + 0x2244) 0x00010000)
             env.sizeofLRI,
           HostStore.command ((s0.engineInfoTable e).pRCS + env.sizeofLRI)
             (RingCmd.MI_BATCH_BUFFER_START (env.ptrToPPGTT p) env.ADDRESS_SPACE_INDICATOR_PPGTT)
             env.sizeofBBS,
           HostStore.command ((s0.engineInfoTable e).pRCS + env.sizeofLRI + env.sizeofBBS)
             RingCmd.MI_NOOP env.sizeofNOOP]
         else
          [HostStore.command ((s0.engineInfoTable e).pRCS + (s0.engineInfoTable e).tailRCS)
             (RingCmd.MI_BATCH_BUFFER_START (env.ptrToPPGTT p) env.ADDRESS_SPACE_INDICATOR_PPGTT)
             env.sizeofBBS,
           HostStore.command
             ((s0.engineInfoTable e).pRCS + (s0.engineInfoTable e).tailRCS + env.sizeofBBS)
             RingCmd.MI_NOOP env.sizeofNOOP]) := by
  unfold flushRing flushRingAppend flushRingBranch
  simp only [hsz]
  split_ifs with h1 h2
  · have h3 : (0x4000 + 2 ^ 64 - (s0.engineInfoTable e).tailRCS) % 2 ^ 64
        = 0x4000 - (s0.engineInfoTable e).tailRCS := by omega
    simp only [h3, Function.update_same, List.append_assoc, List.cons_append, List.nil_append]
  · simp [h2]
  · simp

/-- One `flush` keeps an engine record ready for the next. -/
theorem flush_ringReady (env : Env W) (s : TbxCommandStreamReceiverHw W) (bb : BatchBuffer)
    (e : EngineType) (l : List GraphicsAllocation)
    (hBN : env.sizeofBBS + env.sizeofNOOP < 0x4000) (h : RingReady s e) :
    RingReady (flush env s bb e l).csr e ∧ ((flush env s bb e l).csr.engineInfoTable e).sizeRCS = 0x4000 := by
  have hsz := flushBeforeRing_size env s bb e l h.1
  have ht := flushBeforeRing_tail env s bb e l
  have hlt : ((flushBeforeRing env s bb e l).engineInfoTable e).tailRCS < 0x4000 := by
    rw [ht]; exact h.2
  have hE := flushRing_engineInfo env (flushBeforeRing env s bb e l) e (flushBatchBufferPtr bb)
    hsz hlt hBN
  unfold RingReady
  rw [(flush_fields env s bb e l).1, hE]
  simp only [hsz]
  refine ⟨⟨fun _ => trivial, ?_⟩, trivial⟩
  split_ifs with h1 h2 <;> omega

/-- A sequence of `flush` calls keeps an engine record ready. -/
theorem flushes_ringReady (env : Env W) (e : EngineType)
    (hBN : env.sizeofBBS + env.sizeofNOOP < 0x4000) (calls : List FlushCall) :
    ∀ s : TbxCommandStreamReceiverHw W, RingReady s e → RingReady (flushes env s e calls) e := by
  induction calls with
  | nil => intro s h; exact h
  | cons c rest ih =>
    intro s h
    exact ih _ (flush_ringReady env s c.batchBuffer e c.allocationsForResidency hBN h).1

/-- A freshly constructed receiver has every engine record ready. -/
theorem construct_ringReady (world : W) (hostMem : Nat → HostByte) (lrcaMem : Nat → List LrcaOp)
    (taskCount deviceIndex : Nat) (localMemoryEnabled : Bool) (e : EngineType) :
    RingReady (construct world hostMem lrcaMem taskCount deviceIndex localMemoryEnabled) e := by
  simp [RingReady, construct]

/-! ## Ring tail: alignment and bound -/

/-- With 12/12/4-byte commands the first `flush` of any fresh receiver leaves
the tail at 28 bytes, whatever the environment does otherwise. -/
theorem flush_fresh_tail (env : Env W) (hL : env.sizeofLRI = 12) (hB : env.sizeofBBS = 12)
    (hN : env.sizeofNOOP = 4) (world : W) (hostMem : Nat → HostByte)
    (lrcaMem : Nat → List LrcaOp) (taskCount deviceIndex : Nat) (localMemoryEnabled : Bool)
    (bb : BatchBuffer) (e : EngineType) (l : List GraphicsAllocation) :
    ((flush env (construct world hostMem lrcaMem taskCount deviceIndex localMemoryEnabled)
      bb e l).csr.engineInfoTable e).tailRCS = 28 := by
  have hr := construct_ringReady world hostMem lrcaMem taskCount deviceIndex localMemoryEnabled e
  have hsz := flushBeforeRing_size env _ bb e l hr.1
  have ht := flushBeforeRing_tail env
    (construct world hostMem lrcaMem taskCount deviceIndex localMemoryEnabled) bb e l
  have ht0 : ((flushBeforeRing env
      (construct world hostMem lrcaMem taskCount deviceIndex localMemoryEnabled) bb e
        l).engineInfoTable e).tailRCS = 0 := by
    rw [ht]; rfl
  rw [(flush_fields env _ bb e l).1,
    flushRing_engineInfo env _ e _ hsz (by rw [ht0]; decide) (by rw [hB, hN]; decide)]
  simp [ht0, hL, hB, hN]

/-- C1, evaluated on the code: starting from a freshly constructed receiver
with 12-byte `MI_LOAD_REGISTER_IMM`, 12-byte `MI_BATCH_BUFFER_START` and 4-byte
`MI_NOOP`, the first `flush` leaves `tailRCS = 28` and the second `tailRCS = 44`;
neither is a multiple of 8, so the ring tail is not QWORD aligned after a flush. -/
theorem flush_tail_not_qword_aligned :
    ((flush refEnv refCsr refBatchBuffer 0 []).csr.engineInfoTable 0).tailRCS = 28 ∧
    ((flush refEnv refCsr refBatchBuffer 0 []).csr.engineInfoTable 0).tailRCS % 8 = 4 ∧
    ((flushes refEnv refCsr 0 [refCall, refCall]).engineInfoTable 0).tailRCS = 44 ∧
    ((flushes refEnv refCsr 0 [refCall, refCall]).engineInfoTable 0).tailRCS % 8 = 4 := by
  decide

/-- C2: for every sequence of `flush` calls on one engine of a freshly
constructed receiver (`calls`, then `call`), after the last flush the ring size
is `0x4000`, `tailRCS < sizeRCS` (the assertion of line 297 does not fire), and
every store the flush made into host memory lies inside the ring
`[pRCS, pRCS + sizeRCS)`.  It holds for every family whose batch buffer start
and no-op together are shorter than the ring. -/
theorem flushes_tail_lt_sizeRCS (env : Env W)
    (hBN : env.sizeofBBS + env.sizeofNOOP < 0x4000) (world : W) (hostMem : Nat → HostByte)
    (lrcaMem : Nat → List LrcaOp) (taskCount deviceIndex : Nat) (localMemoryEnabled : Bool)
    (e : EngineType) (calls : List FlushCall) (call : FlushCall) :
    ((flush env
        (flushes env (construct world hostMem lrcaMem taskCount deviceIndex localMemoryEnabled) e calls)
        call.batchBuffer e call.allocationsForResidency).csr.engineInfoTable e).sizeRCS = 0x4000 ∧
    ((flush env
        (flushes env (construct world hostMem lrcaMem taskCount deviceIndex localMemoryEnabled) e calls)
        call.batchBuffer e call.allocationsForResidency).csr.engineInfoTable e).tailRCS <
      ((flush env
        (flushes env (construct world hostMem lrcaMem taskCount deviceIndex localMemoryEnabled) e calls)
        call.batchBuffer e call.allocationsForResidency).csr.engineInfoTable e).sizeRCS ∧
    ∃ stores : List HostStore,
      (flush env
        (flushes env (construct world hostMem lrcaMem taskCount deviceIndex localMemoryEnabled) e calls)
        call.batchBuffer e call.allocationsForResidency).csr.hostStores =
        (flushes env (construct world hostMem lrcaMem taskCount deviceIndex localMemoryEnabled) e
          calls).hostStores ++ stores ∧
      ∀ st ∈ stores,
        ((flush env
          (flushes env (construct world hostMem lrcaMem taskCount deviceIndex localMemoryEnabled) e calls)
          call.batchBuffer e call.allocationsForResidency).csr.engineInfoTable e).pRCS ≤ st.addr ∧
        st.addr + st.len ≤
          ((flush env
            (flushes env (construct world hostMem lrcaMem taskCount deviceIndex localMemoryEnabled) e
              calls)
            call.batchBuffer e call.allocationsForResidency).csr.engineInfoTable e).pRCS +
          ((flush env
            (flushes env (construct world hostMem lrcaMem taskCount deviceIndex localMemoryEnabled) e
              calls)
            call.batchBuffer e call.allocationsForResidency).csr.engineInfoTable e).sizeRCS := by
  generalize hs : flushes env (construct world hostMem lrcaMem taskCount deviceIndex
    localMemoryEnabled) e calls = s
  have hready : RingReady s e := by
    rw [← hs]
    exact flushes_ringReady env e hBN calls _
      (construct_ringReady world hostMem lrcaMem taskCount deviceIndex localMemoryEnabled e)
  obtain ⟨hr, hsize⟩ :=
    flush_ringReady env s call.batchBuffer e call.allocationsForResidency hBN hready
  have hsz := flushBeforeRing_size env s call.batchBuffer e call.allocationsForResidency hready.1
  have ht := flushBeforeRing_tail env s call.batchBuffer e call.allocationsForResidency
  have hlt : ((flushBeforeRing env s call.batchBuffer e
      call.allocationsForResidency).engineInfoTable e).tailRCS < 0x4000 := by
    rw [ht]; exact hready.2
  refine ⟨hsize, by rw [hsize]; exact hr.2, ?_⟩
  rw [(flush_fields env s call.batchBuffer e call.allocationsForResidency).2.1,
    (flush_fields env s call.batchBuffer e call.allocationsForResidency).1,
    flushRing_hostStores env _ e _ hsz hlt, flushRing_engineInfo env _ e _ hsz hlt hBN,
    (flushBeforeRing_frame env s call.batchBuffer e call.allocationsForResidency).2.1]
  refine ⟨_, rfl, ?_⟩
  simp only [hsz]
  intro st hst
  split_ifs at hst with h1 h2 <;>
    simp only [List.mem_cons, List.mem_singleton, List.not_mem_nil, or_false] at hst <;>
    rcases hst with rfl | rfl | rfl <;> simp only [HostStore.addr, HostStore.len] <;> omega

/-- C2 at two flushes of the concrete receiver followed by a third. -/
theorem flushes_tail_lt_sizeRCS_witness :
    refEnv.sizeofBBS + refEnv.sizeofNOOP < 0x4000 ∧
    ((flush refEnv (flushes refEnv refCsr 0 [refCall, refCall]) refCall.batchBuffer 0
        refCall.allocationsForResidency).csr.engineInfoTable 0).tailRCS <
      ((flush refEnv (flushes refEnv refCsr 0 [refCall, refCall]) refCall.batchBuffer 0
        refCall.allocationsForResidency).csr.engineInfoTable 0).sizeRCS :=
  ⟨by decide,
    (flushes_tail_lt_sizeRCS refEnv (by decide) 0x100000 (fun _ => HostByte.value 0xCD)
      (fun _ => []) 0 0 false 0 [refCall, refCall] refCall).2.1⟩

/-- Reading back two commands stored one after the other. -/
theorem readBytes_two_cmds (mem : Nat → HostByte) (p : Nat) (c1 c2 : RingCmd) (n1 n2 : Nat) :
    readBytes (storeCmd (storeCmd mem p c1 n1) (p + n1) c2 n2) p (n1 + n2) =
      cmdBytes c1 n1 ++ cmdBytes c2 n2 := by
  rw [readBytes_append, readBytes_storeCmd_before _ _ _ _ _ _ (le_refl _), readBytes_storeCmd,
    readBytes_storeCmd]

/-- The two memory writes that open the ring stage of a wrapping `flush`. -/
theorem flush_wrap_stream (env : Env W) (s : TbxCommandStreamReceiverHw W) (bb : BatchBuffer)
    (e : EngineType) (l : List GraphicsAllocation) (hready : RingReady s e)
    (hBN : env.sizeofBBS + env.sizeofNOOP < 0x4000)
    (hwrap : (s.engineInfoTable e).tailRCS + (env.sizeofBBS + env.sizeofNOOP + env.sizeofLRI)
      ≥ 0x4000) :
    ∃ rest : List Record,
      (flush env s bb e l).csr.tbxStream =
        (flushBeforeRing env s bb e l).tbxStream ++
          Record.addMemoryWrite
            (env.ggttMap (flushBeforeRing env s bb e l).world
              (((flushBeforeRing env s bb e l).engineInfoTable e).ggttRCS + (s.engineInfoTable e).tailRCS)
              (0x4000 - (s.engineInfoTable e).tailRCS) env.getGTTBits (env.getBank s.deviceIndex)).1
            (Payload.bytes
              (((flushBeforeRing env s bb e l).engineInfoTable e).pRCS + (s.engineInfoTable e).tailRCS)
              (List.replicate (0x4000 - (s.engineInfoTable e).tailRCS) (HostByte.value 0)))
            (0x4000 - (s.engineInfoTable e).tailRCS)
            (env.getAddressSpace env.TraceCommandBuffer) env.TraceCommandBuffer ::
          Record.addMemoryWrite
            (env.ggttMap
              (env.ggttMap (flushBeforeRing env s bb e l).world
                (((flushBeforeRing env s bb e l).engineInfoTable e).ggttRCS +
                  (s.engineInfoTable e).tailRCS)
                (0x4000 - (s.engineInfoTable e).tailRCS) env.getGTTBits
                (env.getBank s.deviceIndex)).2
              (((flushBeforeRing env s bb e l).engineInfoTable e).ggttRCS + 0)
              (env.sizeofBBS + env.sizeofNOOP) env.getGTTBits (env.getBank s.deviceIndex)).1
            (Payload.bytes (((flushBeforeRing env s bb e l).engineInfoTable e).pRCS + 0)
              (cmdBytes
                  (RingCmd.MI_BATCH_BUFFER_START (env.ptrToPPGTT (flushBatchBufferPtr bb))
                    env.ADDRESS_SPACE_INDICATOR_PPGTT)
                  env.sizeofBBS ++
                cmdBytes RingCmd.MI_NOOP env.sizeofNOOP))
            (env.sizeofBBS + env.sizeofNOOP)
            (env.getAddressSpace env.TraceCommandBuffer) env.TraceCommandBuffer ::
          rest := by
  have hsz := flushBeforeRing_size env s bb e l hready.1
  have ht := flushBeforeRing_tail env s bb e l
  have hlt := hready.2
  obtain ⟨_, hst, hmem, hdev, _⟩ := flushBeforeRing_frame env s bb e l
  rw [flush_csr]
  generalize flushBeforeRing env s bb e l = s0 at *
  have hmod : (0x4000 + 2 ^ 64 - (s.engineInfoTable e).tailRCS) % 2 ^ 64
      = 0x4000 - (s.engineInfoTable e).tailRCS := by omega
  have hw0 : (s0.engineInfoTable e).tailRCS + (env.sizeofBBS + env.sizeofNOOP + env.sizeofLRI)
      ≥ 0x4000 := by rw [ht]; exact hwrap
  simp only [pollForCompletion, submitLRCA, flushRing, flushRingAppend, flushRingBranch, hsz]
  rw [if_pos hw0]
  have hlen : (((s0.engineInfoTable e).pRCS + env.sizeofBBS + env.sizeofNOOP -
      (s0.engineInfoTable e).pRCS) % 2 ^ 32 + 2 ^ 32 - 0) % 2 ^ 32
      = env.sizeofBBS + env.sizeofNOOP := by omega
  simp only [Function.update_same, ht, hmod, getMemoryBankForGtt, hdev, hlen, readBytes_memset,
    Nat.add_zero, readBytes_two_cmds]
  simp only [List.append_assoc, List.cons_append, List.nil_append, List.singleton_append]
  exact ⟨_, rfl⟩

/-! ## Wraparound -/

/-- C3: when `flush` takes the wrap path at pre-flush tail `t` (an engine
record ready for a flush, `t + sizeNeeded ≥ sizeRCS`), it first stores
`memset(pRCS + t, 0, sizeRCS - t)`, and the bytes `[t, sizeRCS)` of the ring
are zero when it returns; right after the records of residency processing it
pushes one memory write of `sizeRCS - t` zero bytes at the translation of
`ggttRCS + t`, and then the memory write of the new entry, which is stored and
dumped from ring offset 0 (`previousTail = 0`): the batch buffer start and the
no-op, `sizeof(BBS) + sizeof(NOOP)` bytes at the translation of `ggttRCS + 0`. -/
theorem flush_wraparound (env : Env W) (s : TbxCommandStreamReceiverHw W) (bb : BatchBuffer)
    (e : EngineType) (l : List GraphicsAllocation) (hready : RingReady s e)
    (hfam : 2 * (env.sizeofBBS + env.sizeofNOOP) + env.sizeofLRI ≤ 0x4000)
    (hwrap : (s.engineInfoTable e).tailRCS + (env.sizeofBBS + env.sizeofNOOP + env.sizeofLRI)
      ≥ 0x4000) :
    (flushRingBranch env (flushBeforeRing env s bb e l) e).previousTail = 0 ∧
    (flush env s bb e l).csr.hostStores =
      s.hostStores ++
        [HostStore.memset
           (((flushBeforeRing env s bb e l).engineInfoTable e).pRCS + (s.engineInfoTable e).tailRCS) 0
           (0x4000 - (s.engineInfoTable e).tailRCS),
         HostStore.command (((flushBeforeRing env s bb e l).engineInfoTable e).pRCS + 0)
           (RingCmd.MI_BATCH_BUFFER_START (env.ptrToPPGTT (flushBatchBufferPtr bb))
             env.ADDRESS_SPACE_INDICATOR_PPGTT)
           env.sizeofBBS,
         HostStore.command
           (((flushBeforeRing env s bb e l).engineInfoTable e).pRCS + 0 + env.sizeofBBS)
           RingCmd.MI_NOOP env.sizeofNOOP] ∧
    (∀ a, ((flushBeforeRing env s bb e l).engineInfoTable e).pRCS + (s.engineInfoTable e).tailRCS ≤ a →
      a < ((flushBeforeRing env s bb e l).engineInfoTable e).pRCS + 0x4000 →
      (flush env s bb e l).csr.hostMem a = HostByte.value 0) ∧
    ∃ rest : List Record,
      (flush env s bb e l).csr.tbxStream =
        (flushBeforeRing env s bb e l).tbxStream ++
          Record.addMemoryWrite
            (env.ggttMap (flushBeforeRing env s bb e l).world
              (((flushBeforeRing env s bb e l).engineInfoTable e).ggttRCS + (s.engineInfoTable e).tailRCS)
              (0x4000 - (s.engineInfoTable e).tailRCS) env.getGTTBits (env.getBank s.deviceIndex)).1
            (Payload.bytes
              (((flushBeforeRing env s bb e l).engineInfoTable e).pRCS + (s.engineInfoTable e).tailRCS)
              (List.replicate (0x4000 - (s.engineInfoTable e).tailRCS) (HostByte.value 0)))
            (0x4000 - (s.engineInfoTable e).tailRCS)
            (env.getAddressSpace env.TraceCommandBuffer) env.TraceCommandBuffer ::
          Record.addMemoryWrite
            (env.ggttMap
              (env.ggttMap (flushBeforeRing env s bb e l).world
                (((flushBeforeRing env s bb e l).engineInfoTable e).ggttRCS +
                  (s.engineInfoTable e).tailRCS)
                (0x4000 - (s.engineInfoTable e).tailRCS) env.getGTTBits
                (env.getBank s.deviceIndex)).2
              (((flushBeforeRing env s bb e l).engineInfoTable e).ggttRCS + 0)
              (env.sizeofBBS + env.sizeofNOOP) env.getGTTBits (env.getBank s.deviceIndex)).1
            (Payload.bytes (((flushBeforeRing env s bb e l).engineInfoTable e).pRCS + 0)
              (cmdBytes
                  (RingCmd.MI_BATCH_BUFFER_START (env.ptrToPPGTT (flushBatchBufferPtr bb))
                    env.ADDRESS_SPACE_INDICATOR_PPGTT)
                  env.sizeofBBS ++
                cmdBytes RingCmd.MI_NOOP env.sizeofNOOP))
            (env.sizeofBBS + env.sizeofNOOP)
            (env.getAddressSpace env.TraceCommandBuffer) env.TraceCommandBuffer ::
          rest := by
  have hsz := flushBeforeRing_size env s bb e l hready.1
  have ht := flushBeforeRing_tail env s bb e l
  have hlt := hready.2
  obtain ⟨_, hst, _, _, _⟩ := flushBeforeRing_frame env s bb e l
  have hmod : (0x4000 + 2 ^ 64 - (s.engineInfoTable e).tailRCS) % 2 ^ 64
      = 0x4000 - (s.engineInfoTable e).tailRCS := by omega
  have hw0 : ((flushBeforeRing env s bb e l).engineInfoTable e).tailRCS +
      (env.sizeofBBS + env.sizeofNOOP + env.sizeofLRI) ≥ 0x4000 := by rw [ht]; exact hwrap
  have hlt0 : ((flushBeforeRing env s bb e l).engineInfoTable e).tailRCS < 0x4000 := by
    rw [ht]; exact hlt
  refine ⟨?_, ?_, ?_, flush_wrap_stream env s bb e l hready (by omega) hwrap⟩
  · simp [flushRingBranch, hsz, hw0]
  · rw [(flush_fields env s bb e l).2.1, flushRing_hostStores env _ e _ hsz hlt0, if_pos hw0, hst,
      ht]
    simp
  · intro a ha1 ha2
    rw [(flush_fields env s bb e l).2.2]
    simp only [flushRing, flushRingAppend, flushRingBranch, hsz]
    rw [if_pos hw0]
    simp only [storeCmd, memset, ht, hmod]
    have h1 : ¬ (((flushBeforeRing env s bb e l).engineInfoTable e).pRCS + env.sizeofBBS ≤ a ∧
        a < ((flushBeforeRing env s bb e l).engineInfoTable e).pRCS + env.sizeofBBS +
          env.sizeofNOOP) := by omega
    have h2 : ¬ (((flushBeforeRing env s bb e l).engineInfoTable e).pRCS ≤ a ∧
        a < ((flushBeforeRing env s bb e l).engineInfoTable e).pRCS + env.sizeofBBS) := by omega
    have h3 : ((flushBeforeRing env s bb e l).engineInfoTable e).pRCS +
        (s.engineInfoTable e).tailRCS ≤ a ∧
        a < ((flushBeforeRing env s bb e l).engineInfoTable e).pRCS +
          (s.engineInfoTable e).tailRCS + (0x4000 - (s.engineInfoTable e).tailRCS) := by omega
    rw [if_neg h1, if_neg h2, if_pos h3]

/-- C3 at the concrete receiver with the tail pre-advanced to `0x3ff0`. -/
theorem flush_wraparound_witness :
    RingReady (refCsrAt 0x3ff0) 0 ∧
    (flushRingBranch refEnv (flushBeforeRing refEnv (refCsrAt 0x3ff0) refBatchBuffer 0 []) 0).previousTail
      = 0 :=
  ⟨by decide,
    (flush_wraparound refEnv (refCsrAt 0x3ff0) refBatchBuffer 0 [] (by decide) (by decide)
      (by decide)).1⟩

/-! ## Tail transition -/

/-- C4: one `flush` on an engine record ready for it, for a family whose three
commands together are shorter than the ring, moves the tail as follows: from 0
to `sizeof(LRI) + sizeof(BBS) + sizeof(NOOP)`; from a non-zero tail `t` that
does not take the wrap path to `t + sizeof(BBS) + sizeof(NOOP)`; on the wrap
path to exactly `sizeof(BBS) + sizeof(NOOP)`.  In particular from
`t = sizeRCS - 16` (with `sizeNeeded ≥ 16`) the flush pushes a pad of 16 zero
bytes right after the records of residency processing and ends with the tail
equal to the size of the new entry. -/
theorem flush_tail_transition (env : Env W) (s : TbxCommandStreamReceiverHw W) (bb : BatchBuffer)
    (e : EngineType) (l : List GraphicsAllocation) (hready : RingReady s e)
    (hfam : env.sizeofLRI + env.sizeofBBS + env.sizeofNOOP < 0x4000) :
    ((s.engineInfoTable e).tailRCS = 0 →
      ((flush env s bb e l).csr.engineInfoTable e).tailRCS =
        env.sizeofLRI + env.sizeofBBS + env.sizeofNOOP) ∧
    ((s.engineInfoTable e).tailRCS ≠ 0 →
      (s.engineInfoTable e).tailRCS + (env.sizeofBBS + env.sizeofNOOP + env.sizeofLRI) < 0x4000 →
      ((flush env s bb e l).csr.engineInfoTable e).tailRCS =
        (s.engineInfoTable e).tailRCS + env.sizeofBBS + env.sizeofNOOP) ∧
    ((s.engineInfoTable e).tailRCS + (env.sizeofBBS + env.sizeofNOOP + env.sizeofLRI) ≥ 0x4000 →
      ((flush env s bb e l).csr.engineInfoTable e).tailRCS = env.sizeofBBS + env.sizeofNOOP) ∧
    ((s.engineInfoTable e).tailRCS = 0x4000 - 16 →
      16 ≤ env.sizeofBBS + env.sizeofNOOP + env.sizeofLRI →
      ((flush env s bb e l).csr.engineInfoTable e).tailRCS = env.sizeofBBS + env.sizeofNOOP ∧
      ∃ rest : List Record,
        (flush env s bb e l).csr.tbxStream =
          (flushBeforeRing env s bb e l).tbxStream ++
            Record.addMemoryWrite
              (env.ggttMap (flushBeforeRing env s bb e l).world
                (((flushBeforeRing env s bb e l).engineInfoTable e).ggttRCS + (0x4000 - 16))
                16 env.getGTTBits (env.getBank s.deviceIndex)).1
              (Payload.bytes
                (((flushBeforeRing env s bb e l).engineInfoTable e).pRCS + (0x4000 - 16))
                (List.replicate 16 (HostByte.value 0)))
              16 (env.getAddressSpace env.TraceCommandBuffer) env.TraceCommandBuffer ::
            rest) := by
  have hsz := flushBeforeRing_size env s bb e l hready.1
  have ht := flushBeforeRing_tail env s bb e l
  have hlt0 : ((flushBeforeRing env s bb e l).engineInfoTable e).tailRCS < 0x4000 := by
    rw [ht]; exact hready.2
  have hE := flushRing_engineInfo env (flushBeforeRing env s bb e l) e (flushBatchBufferPtr bb)
    hsz hlt0 (by omega)
  rw [(flush_fields env s bb e l).1, hE, ht]
  refine ⟨?_, ?_, ?_, ?_⟩
  · intro h0
    have hn : ¬ ((s.engineInfoTable e).tailRCS +
        (env.sizeofBBS + env.sizeofNOOP + env.sizeofLRI) ≥ 0x4000) := by omega
    simp only [if_neg hn, if_pos h0]
  · intro h0 hn
    have hn' : ¬ ((s.engineInfoTable e).tailRCS +
        (env.sizeofBBS + env.sizeofNOOP + env.sizeofLRI) ≥ 0x4000) := by omega
    simp only [if_neg hn', if_neg h0]
  · intro hw
    simp only [if_pos hw]
  · intro h16 hneed
    have hw : (s.engineInfoTable e).tailRCS +
        (env.sizeofBBS + env.sizeofNOOP + env.sizeofLRI) ≥ 0x4000 := by omega
    refine ⟨by simp only [if_pos hw], ?_⟩
    obtain ⟨rest, hrest⟩ := flush_wrap_stream env s bb e l hready (by omega) hw
    rw [h16] at hrest
    exact ⟨_, hrest⟩

/-- C4 at the concrete receiver with the tail pre-advanced to `sizeRCS - 16`:
the flush ends with the tail at 16, the size of the new entry. -/
theorem flush_tail_transition_witness :
    RingReady (refCsrAt (0x4000 - 16)) 0 ∧
    refEnv.sizeofLRI + refEnv.sizeofBBS + refEnv.sizeofNOOP < 0x4000 ∧
    ((flush refEnv (refCsrAt (0x4000 - 16)) refBatchBuffer 0 []).csr.engineInfoTable 0).tailRCS =
      refEnv.sizeofBBS + refEnv.sizeofNOOP :=
  ⟨by decide, by decide,
    ((flush_tail_transition refEnv (refCsrAt (0x4000 - 16)) refBatchBuffer 0 [] (by decide)
      (by decide)).2.2.2 (by decide) (by decide)).1⟩

/-! ## One-time register load -/

/-- After any `flush` the tail is non-zero, if the new entry has a non-zero size. -/
theorem flush_tail_pos (env : Env W) (s : TbxCommandStreamReceiverHw W) (bb : BatchBuffer)
    (e : EngineType) (l : List GraphicsAllocation) (hready : RingReady s e)
    (hBN : env.sizeofBBS + env.sizeofNOOP < 0x4000) (hpos : 0 < env.sizeofBBS + env.sizeofNOOP) :
    ((flush env s bb e l).csr.engineInfoTable e).tailRCS ≠ 0 := by
  have hsz := flushBeforeRing_size env s bb e l hready.1
  have ht := flushBeforeRing_tail env s bb e l
  have hlt0 : ((flushBeforeRing env s bb e l).engineInfoTable e).tailRCS < 0x4000 := by
    rw [ht]; exact hready.2
  rw [(flush_fields env s bb e l).1,
    flushRing_engineInfo env (flushBeforeRing env s bb e l) e (flushBatchBufferPtr bb) hsz hlt0 hBN]
  simp only
  split_ifs <;> omega

/-- A non-zero tail stays non-zero along a sequence of `flush` calls. -/
theorem flushes_tail_pos (env : Env W) (e : EngineType)
    (hBN : env.sizeofBBS + env.sizeofNOOP < 0x4000) (hpos : 0 < env.sizeofBBS + env.sizeofNOOP)
    (calls : List FlushCall) :
    ∀ s : TbxCommandStreamReceiverHw W, RingReady s e → (s.engineInfoTable e).tailRCS ≠ 0 →
      ((flushes env s e calls).engineInfoTable e).tailRCS ≠ 0 := by
  induction calls with
  | nil => intro s _ h; exact h
  | cons c rest ih =>
    intro s hr _
    exact ih _ (flush_ringReady env s c.batchBuffer e c.allocationsForResidency hBN hr).1
      (flush_tail_pos env s c.batchBuffer e c.allocationsForResidency hr hBN hpos)

/-- C5: in every sequence of `flush` calls on one engine of a freshly
constructed receiver (`first`, then `later`, then `next`), the first flush
stores an `MI_LOAD_REGISTER_IMM` with register offset `mmioBase + 0x2244` and
data `0x00010000` at the start of the ring, followed by the batch buffer start
and the no-op; on entry to every later flush the tail is non-zero, and no store
of a later flush is an `MI_LOAD_REGISTER_IMM`, whether that flush wraps or
follows a wrap.  It holds for every family whose three commands together are
shorter than the ring and whose entry has a non-zero size. -/
theorem flushes_register_load_once (env : Env W)
    (hfam : env.sizeofLRI + env.sizeofBBS + env.sizeofNOOP < 0x4000)
    (hpos : 0 < env.sizeofBBS + env.sizeofNOOP) (world : W) (hostMem : Nat → HostByte)
    (lrcaMem : Nat → List LrcaOp) (taskCount deviceIndex : Nat) (localMemoryEnabled : Bool)
    (e : EngineType) (first : FlushCall) (later : List FlushCall) (next : FlushCall) :
    let s1 := (flush env (construct world hostMem lrcaMem taskCount deviceIndex localMemoryEnabled)
      first.batchBuffer e first.allocationsForResidency).csr
    let s := flushes env s1 e later
    let r := (flush env s next.batchBuffer e next.allocationsForResidency).csr
    s1.hostStores =
      [HostStore.command (s1.engineInfoTable e).pRCS
         (RingCmd.MI_LOAD_REGISTER_IMM ((env.csTraits e).mmioBase + 0x2244) 0x00010000)
         env.sizeofLRI,
       HostStore.command ((s1.engineInfoTable e).pRCS + env.sizeofLRI)
         (RingCmd.MI_BATCH_BUFFER_START (env.ptrToPPGTT (flushBatchBufferPtr first.batchBuffer))
           env.ADDRESS_SPACE_INDICATOR_PPGTT)
         env.sizeofBBS,
       HostStore.command ((s1.engineInfoTable e).pRCS + env.sizeofLRI + env.sizeofBBS)
         RingCmd.MI_NOOP env.sizeofNOOP] ∧
    (∀ i, i < env.sizeofLRI →
      s1.hostMem ((s1.engineInfoTable e).pRCS + i) =
        HostByte.ofCmd
          (RingCmd.MI_LOAD_REGISTER_IMM ((env.csTraits e).mmioBase + 0x2244) 0x00010000) i) ∧
    (s.engineInfoTable e).tailRCS ≠ 0 ∧
    ∃ stores : List HostStore,
      r.hostStores = s.hostStores ++ stores ∧ ∀ st ∈ stores, st.isLRI = false := by
  intro s1 s r
  have hBN : env.sizeofBBS + env.sizeofNOOP < 0x4000 := by omega
  have hfresh := construct_ringReady world hostMem lrcaMem taskCount deviceIndex
    localMemoryEnabled e
  have hr1 : RingReady s1 e :=
    (flush_ringReady env _ first.batchBuffer e first.allocationsForResidency hBN hfresh).1
  have hpos1 : (s1.engineInfoTable e).tailRCS ≠ 0 :=
    flush_tail_pos env _ first.batchBuffer e first.allocationsForResidency hfresh hBN hpos
  have hrs : RingReady s e := flushes_ringReady env e hBN later s1 hr1
  have hposs : (s.engineInfoTable e).tailRCS ≠ 0 := flushes_tail_pos env e hBN hpos later s1 hr1 hpos1
  have hsz1 := flushBeforeRing_size env
    (construct world hostMem lrcaMem taskCount deviceIndex localMemoryEnabled) first.batchBuffer e
    first.allocationsForResidency hfresh.1
  have ht1 : ((flushBeforeRing env
      (construct world hostMem lrcaMem taskCount deviceIndex localMemoryEnabled) first.batchBuffer e
      first.allocationsForResidency).engineInfoTable e).tailRCS = 0 :=
    flushBeforeRing_tail env _ first.batchBuffer e first.allocationsForResidency
  have hn1 : ¬ (((flushBeforeRing env
      (construct world hostMem lrcaMem taskCount deviceIndex localMemoryEnabled) first.batchBuffer e
      first.allocationsForResidency).engineInfoTable e).tailRCS +
      (env.sizeofBBS + env.sizeofNOOP + env.sizeofLRI) ≥ 0x4000) := by rw [ht1]; omega
  have hp : (s1.engineInfoTable e).pRCS =
      ((flushBeforeRing env
        (construct world hostMem lrcaMem taskCount deviceIndex localMemoryEnabled)
        first.batchBuffer e first.allocationsForResidency).engineInfoTable e).pRCS := by
    show ((flush env _ first.batchBuffer e first.allocationsForResidency).csr.engineInfoTable
      e).pRCS = _
    rw [(flush_fields env _ first.batchBuffer e first.allocationsForResidency).1,
      flushRing_engineInfo env _ e _ hsz1 (by rw [ht1]; decide) hBN]
  refine ⟨?_, ?_, hposs, ?_⟩
  · rw [hp]
    show (flush env _ first.batchBuffer e first.allocationsForResidency).csr.hostStores = _
    rw [(flush_fields env _ first.batchBuffer e first.allocationsForResidency).2.1,
      flushRing_hostStores env _ e _ hsz1 (by rw [ht1]; decide), if_neg hn1, if_pos ht1,
      (flushBeforeRing_frame env _ first.batchBuffer e first.allocationsForResidency).2.1]
    rfl
  · intro i hi
    rw [hp]
    show (flush env _ first.batchBuffer e first.allocationsForResidency).csr.hostMem _ = _
    rw [(flush_fields env _ first.batchBuffer e first.allocationsForResidency).2.2]
    simp only [flushRing, flushRingAppend, flushRingBranch, hsz1]
    rw [if_neg hn1, if_pos ht1]
    simp only [storeCmd, ht1, Nat.add_zero]
    rw [if_neg (by omega), if_neg (by omega), if_pos (by omega)]
    simp
  · have hsz := flushBeforeRing_size env s next.batchBuffer e next.allocationsForResidency hrs.1
    have ht := flushBeforeRing_tail env s next.batchBuffer e next.allocationsForResidency
    have hlt0 : ((flushBeforeRing env s next.batchBuffer e
        next.allocationsForResidency).engineInfoTable e).tailRCS < 0x4000 := by
      rw [ht]; exact hrs.2
    show ∃ stores : List HostStore,
      (flush env s next.batchBuffer e next.allocationsForResidency).csr.hostStores =
        s.hostStores ++ stores ∧ ∀ st ∈ stores, st.isLRI = false
    rw [(flush_fields env s next.batchBuffer e next.allocationsForResidency).2.1,
      flushRing_hostStores env _ e _ hsz hlt0,
      (flushBeforeRing_frame env s next.batchBuffer e next.allocationsForResidency).2.1]
    refine ⟨_, rfl, ?_⟩
    intro st hst
    rw [ht] at hst
    split_ifs at hst with h1 <;>
      simp only [List.mem_cons, List.mem_singleton, List.not_mem_nil, or_false] at hst <;>
      rcases hst with rfl | rfl | rfl <;> rfl

/-- C5 at the concrete receiver: three flushes, then a fourth. -/
theorem flushes_register_load_once_witness :
    refEnv.sizeofLRI + refEnv.sizeofBBS + refEnv.sizeofNOOP < 0x4000 ∧
    0 < refEnv.sizeofBBS + refEnv.sizeofNOOP ∧
    ((flushes refEnv (flush refEnv refCsr refCall.batchBuffer 0 refCall.allocationsForResidency).csr 0
      [refCall, refCall]).engineInfoTable 0).tailRCS ≠ 0 :=
  ⟨by decide, by decide,
    (flushes_register_load_once refEnv (by decide) (by decide) 0x100000
      (fun _ => HostByte.value 0xCD) (fun _ => []) 0 0 false 0 refCall [refCall, refCall]
      refCall).2.2.1⟩

/-! ## Only the new ring bytes are pushed -/

/-- C6: the ring-entry memory write of a `flush` covers exactly the ring bytes
`[previousTail, newTail)`: it is issued for the translation of
`ggttRCS + previousTail`, reads host memory from `pRCS + previousTail` and has
length `newTail - previousTail`, where `previousTail` is the pre-flush tail, or
0 after a wrap; `previousTail < newTail`, so the length is positive and does
not underflow, and it is shorter than the ring.  The only other ring bytes a
flush pushes are the pad of a wrap, `sizeRCS - t` bytes with `t > 0`, so no
flush pushes the whole ring.  The records after the ring-entry write are the
4-byte tail write, the four submission writes and the poll. -/
theorem flush_pushes_only_new_ring_bytes (env : Env W) (s : TbxCommandStreamReceiverHw W)
    (bb : BatchBuffer) (e : EngineType) (l : List GraphicsAllocation) (hready : RingReady s e)
    (hfam : env.sizeofLRI + env.sizeofBBS + env.sizeofNOOP < 0x4000)
    (hpos : 0 < env.sizeofBBS + env.sizeofNOOP) :
    let s0 := flushBeforeRing env s bb e l
    let cur := flushRingBranch env s0 e
    let r := (flush env s bb e l).csr
    let ei := r.engineInfoTable e
    let t := (s.engineInfoTable e).tailRCS
    let wrap := t + (env.sizeofBBS + env.sizeofNOOP + env.sizeofLRI) ≥ 0x4000
    cur.previousTail = (if wrap then 0 else t) ∧
    cur.previousTail < ei.tailRCS ∧
    ei.tailRCS - cur.previousTail < ei.sizeRCS ∧
    (wrap → 0 < t) ∧
    cur.csr.tbxStream = s0.tbxStream ++
      (if wrap then
        [ Record.addMemoryWrite
            (env.ggttMap s0.world (ei.ggttRCS + t) (ei.sizeRCS - t) env.getGTTBits
              (env.getBank s.deviceIndex)).1
            (Payload.bytes (ei.pRCS + t) (List.replicate (ei.sizeRCS - t) (HostByte.value 0)))
            (ei.sizeRCS - t) (env.getAddressSpace env.TraceCommandBuffer) env.TraceCommandBuffer]
       else []) ∧
    r.tbxStream = cur.csr.tbxStream ++
      [ Record.addMemoryWrite
          (env.ggttMap cur.csr.world (ei.ggttRCS + cur.previousTail)
            (ei.tailRCS - cur.previousTail) env.getGTTBits (env.getBank s.deviceIndex)).1
          (Payload.bytes (ei.pRCS + cur.previousTail)
            (readBytes r.hostMem (ei.pRCS + cur.previousTail) (ei.tailRCS - cur.previousTail)))
          (ei.tailRCS - cur.previousTail)
          (env.getAddressSpace env.TraceCommandBuffer) env.TraceCommandBuffer,
        Record.addMemoryWrite
          ((env.ggttMap
              (env.ggttMap cur.csr.world (ei.ggttRCS + cur.previousTail)
                (ei.tailRCS - cur.previousTail) env.getGTTBits (env.getBank s.deviceIndex)).2
              ei.ggttLRCA 4 env.getGTTBits (env.getBank s.deviceIndex)).1 + 0x101c)
          (Payload.tailRCS e ei.tailRCS) 4 (env.getAddressSpace env.TraceNotype) env.TraceNotype,
        Record.writeMMIO ((env.csTraits e).mmioBase + 0x2230) 0,
        Record.writeMMIO ((env.csTraits e).mmioBase + 0x2230) 0,
        Record.writeMMIO ((env.csTraits e).mmioBase + 0x2230)
          (env.ulData (flushContextDescriptor env ei) 1),
        Record.writeMMIO ((env.csTraits e).mmioBase + 0x2230)
          (env.ulData (flushContextDescriptor env ei) 0),
        Record.registerPoll ((env.csTraits e).mmioBase + 0x2234) 0x100 0x100 false
          TimeoutActionValues.Abort] := by
  intro s0 cur r ei t wrap
  have hsz : (s0.engineInfoTable e).sizeRCS = 0x4000 := flushBeforeRing_size env s bb e l hready.1
  have ht : (s0.engineInfoTable e).tailRCS = t := flushBeforeRing_tail env s bb e l
  have hlt : t < 0x4000 := hready.2
  have hdev : s0.deviceIndex = s.deviceIndex := (flushBeforeRing_frame env s bb e l).2.2.2.1
  have hr : r = pollForCompletion env
      (submitLRCA env (flushRing env s0 e (flushBatchBufferPtr bb)) e
        (flushContextDescriptor env
          ((flushRing env s0 e (flushBatchBufferPtr bb)).engineInfoTable e))) e := rfl
  have hmod : (0x4000 + 2 ^ 64 - t) % 2 ^ 64 = 0x4000 - t := by omega
  clear_value s0 t
  simp only [ei, cur, hr, wrap, pollForCompletion, submitLRCA, flushRing, flushRingAppend,
    flushRingBranch, hsz, ht, getMemoryBankForGtt, hdev]
  by_cases hw : t + (env.sizeofBBS + env.sizeofNOOP + env.sizeofLRI) ≥ 0x4000
  · simp only [if_pos hw, Function.update_same, hmod]
    have hlen : (s0.engineInfoTable e).pRCS + env.sizeofBBS + env.sizeofNOOP -
        (s0.engineInfoTable e).pRCS = env.sizeofBBS + env.sizeofNOOP := by omega
    have hm1 : (env.sizeofBBS + env.sizeofNOOP) % 2 ^ 32 = env.sizeofBBS + env.sizeofNOOP := by
      omega
    have hm2 : (env.sizeofBBS + env.sizeofNOOP + 2 ^ 32 - 0) % 2 ^ 32
        = env.sizeofBBS + env.sizeofNOOP - 0 := by omega
    simp only [hlen, hm1, hm2, readBytes_memset, List.append_assoc, List.cons_append,
      List.nil_append, List.singleton_append]
    refine ⟨trivial, hpos, by omega, fun _ => by omega, trivial, trivial⟩
  · simp only [if_neg hw]
    have hm1 : ∀ x, x < 0x4000 → x % 2 ^ 32 = x := by intro x hx; omega
    have hm2 : ∀ x, x < 0x4000 → t ≤ x → (x + 2 ^ 32 - t) % 2 ^ 32 = x - t := by
      intro x hx hxt; omega
    by_cases h0 : t = 0
    · have hlen : (s0.engineInfoTable e).pRCS + t + env.sizeofLRI + env.sizeofBBS + env.sizeofNOOP -
          (s0.engineInfoTable e).pRCS = t + env.sizeofLRI + env.sizeofBBS + env.sizeofNOOP := by
        omega
      simp only [if_pos h0, Function.update_same, hlen, hdev,
        hm1 (t + env.sizeofLRI + env.sizeofBBS + env.sizeofNOOP) (by omega),
        hm2 (t + env.sizeofLRI + env.sizeofBBS + env.sizeofNOOP) (by omega) (by omega),
        List.append_assoc, List.cons_append, List.nil_append, List.singleton_append,
        List.append_nil]
      refine ⟨trivial, by omega, by omega, fun h => absurd h hw, trivial, trivial⟩
    · have hlen : (s0.engineInfoTable e).pRCS + t + env.sizeofBBS + env.sizeofNOOP -
          (s0.engineInfoTable e).pRCS = t + env.sizeofBBS + env.sizeofNOOP := by
        omega
      simp only [if_neg h0, Function.update_same, hlen, hdev,
        hm1 (t + env.sizeofBBS + env.sizeofNOOP) (by omega),
        hm2 (t + env.sizeofBBS + env.sizeofNOOP) (by omega) (by omega),
        List.append_assoc, List.cons_append, List.nil_append, List.singleton_append,
        List.append_nil]
      refine ⟨trivial, by omega, by omega, fun h => absurd h hw, trivial, trivial⟩

/-- C6 at the second flush of the concrete receiver: the ring-entry write
starts at the pre-flush tail 28 and the new tail is 44. -/
theorem flush_pushes_only_new_ring_bytes_witness :
    RingReady (flushes refEnv refCsr 0 [refCall]) 0 ∧
    refEnv.sizeofLRI + refEnv.sizeofBBS + refEnv.sizeofNOOP < 0x4000 ∧
    0 < refEnv.sizeofBBS + refEnv.sizeofNOOP ∧
    (flushRingBranch refEnv
      (flushBeforeRing refEnv (flushes refEnv refCsr 0 [refCall]) refBatchBuffer 0 []) 0).previousTail <
      ((flush refEnv (flushes refEnv refCsr 0 [refCall]) refBatchBuffer 0 []).csr.engineInfoTable
        0).tailRCS :=
  ⟨by decide, by decide, by decide,
    (flush_pushes_only_new_ring_bytes refEnv (flushes refEnv refCsr 0 [refCall]) refBatchBuffer 0 []
      (by decide) (by decide) (by decide)).2.1⟩

/-! ## Submission port -/

/-- C7: for every engine type and every context descriptor, `submitLRCA`
appends exactly four register writes, all to `mmioBase + 0x2230`, with the
values 0, 0, `ulData[1]` (high dword), `ulData[0]` (low dword) in this order,
and changes nothing else of the receiver. -/
theorem submitLRCA_port_order (env : Env W) (s : TbxCommandStreamReceiverHw W) (e : EngineType)
    (contextDescriptor : MiContextDescriptorReg) :
    submitLRCA env s e contextDescriptor =
      { s with
        tbxStream := s.tbxStream ++
          [ Record.writeMMIO ((env.csTraits e).mmioBase + 0x2230) 0,
            Record.writeMMIO ((env.csTraits e).mmioBase + 0x2230) 0,
            Record.writeMMIO ((env.csTraits e).mmioBase + 0x2230) (env.ulData contextDescriptor 1),
            Record.writeMMIO ((env.csTraits e).mmioBase + 0x2230) (env.ulData contextDescriptor 0)] } :=
  rfl

/-! ## writeMemory -/

/-- C8: `writeMemory` returns false if and only if the size of the
allocation's underlying buffer is 0, and when it returns false the receiver is
unchanged: no page walk has touched the page tables and nothing was appended
to the stream. -/
theorem writeMemory_false_iff (env : Env W) (s : TbxCommandStreamReceiverHw W)
    (g : GraphicsAllocation) :
    ((writeMemory env s g).1 = false ↔ g.size = 0) ∧
    ((writeMemory env s g).1 = false → (writeMemory env s g).2 = s) := by
  unfold writeMemory
  by_cases h : g.size = 0 <;> simp [h]

/-- C8 at the zero-size allocation of the test. -/
theorem writeMemory_false_iff_witness :
    (writeMemory refEnv refCsr refEmptyAllocation).1 = false ∧
    (writeMemory refEnv refCsr refEmptyAllocation).2.tbxStream = [] :=
  ⟨by decide,
    congrArg TbxCommandStreamReceiverHw.tbxStream
      ((writeMemory_false_iff refEnv refCsr refEmptyAllocation).2 (by decide))⟩

/-- The runs of a page walk cover exactly the range. -/
theorem IsPageWalk.sum_sizes (pageSize : Nat) (runs : List PageRun) :
    ∀ vm size offset, IsPageWalk pageSize vm size offset runs →
      (runs.map (fun run => run.size)).sum = size := by
  induction runs with
  | nil =>
    intro vm size offset h
    unfold IsPageWalk at h
    simp [h]
  | cons run rest ih =>
    intro vm size offset h
    unfold IsPageWalk at h
    obtain ⟨_, _, hle, _, hrest⟩ := h
    have := ih _ _ _ hrest
    simp only [List.map_cons, List.sum_cons, this]
    omega

/-- C10 refuted: `writeMemory` on a 4-byte allocation whose type is
`ALLOCATION_TYPE_NON_AUB_WRITABLE` returns true and pushes its bytes. -/
theorem writeMemory_non_aub_writable_pushes :
    (writeMemory refEnv refCsr (refAllocation refEnv.ALLOCATION_TYPE_NON_AUB_WRITABLE)).1 = true ∧
    (writeMemory refEnv refCsr (refAllocation refEnv.ALLOCATION_TYPE_NON_AUB_WRITABLE)).2.tbxStream =
      [ Record.reserveAddressGGTTAndWriteMmeory 0x7000 0x7000 0x7000 4 0 7 false] := by
  decide

/-! ## Residency processing -/

/-- The allocations as `processResidency` leaves them: each one stamped, none
dropped, none reordered. -/
theorem processResidency_allocations (env : Env W) (l : List GraphicsAllocation) :
    ∀ s : TbxCommandStreamReceiverHw W,
      (processResidency env s l).2 =
        l.map (fun g =>
          { g with
            residencyTaskCount :=
              Function.update g.residencyTaskCount s.deviceIndex (s.taskCount + 1) }) := by
  induction l with
  | nil => intro s; rfl
  | cons g rest ih =>
    intro s
    obtain ⟨_, _, _, _, w5, w6, _⟩ := writeMemory_frame env s g
    simp only [processResidency, List.map_cons, ih, w5, w6]

/-- A zero-size allocation at the head of the container adds nothing. -/
theorem processResidency_cons_zero (env : Env W) (s : TbxCommandStreamReceiverHw W)
    (g : GraphicsAllocation) (rest : List GraphicsAllocation) (h : g.size = 0) :
    (processResidency env s (g :: rest)).1 = (processResidency env s rest).1 := by
  simp [processResidency, writeMemory, h]

/-- The records of `processResidency`: one chunk for each allocation of
non-zero size, in container order, each chunk the runs of a page walk of that
allocation. -/
theorem processResidency_stream (env : Env W) (l : List GraphicsAllocation) :
    ∀ s : TbxCommandStreamReceiverHw W,
      ∃ chunks : List (List Record),
        (processResidency env s l).1.tbxStream = s.tbxStream ++ chunks.flatten ∧
        List.Forall₂
          (fun (g : GraphicsAllocation) (chunk : List Record) =>
            ∃ w : W,
              chunk =
                (env.ppgttPageWalk w g.gpuAddress g.size 0 (getPPGTTAdditionalBits env)
                  (env.getMemoryBank g)).1.map
                  (fun run =>
                    Record.reserveAddressGGTTAndWriteMmeory g.gpuAddress g.cpuPtr run.physAddress
                      run.size run.offset (getPPGTTAdditionalBits env) s.localMemoryEnabled))
          (l.filter (fun g => decide (g.size ≠ 0))) chunks := by
  induction l with
  | nil =>
    intro s
    exact ⟨[], by simp [processResidency], by simp⟩
  | cons g rest ih =>
    intro s
    by_cases h : g.size = 0
    · obtain ⟨chunks, h1, h2⟩ := ih s
      refine ⟨chunks, ?_, ?_⟩
      · rw [processResidency_cons_zero env s g rest h]
        exact h1
      · simpa [List.filter_cons, h] using h2
    · obtain ⟨chunks, h1, h2⟩ := ih (writeMemory env s g).2
      have hl : (writeMemory env s g).2.localMemoryEnabled = s.localMemoryEnabled :=
        (writeMemory_frame env s g).2.2.2.2.2.2
      rw [hl] at h2
      refine ⟨(env.ppgttPageWalk s.world g.gpuAddress g.size 0 (getPPGTTAdditionalBits env)
          (env.getMemoryBank g)).1.map
          (fun run =>
            Record.reserveAddressGGTTAndWriteMmeory g.gpuAddress g.cpuPtr run.physAddress
              run.size run.offset (getPPGTTAdditionalBits env) s.localMemoryEnabled) :: chunks,
        ?_, ?_⟩
      · simp only [processResidency, h1]
        simp [writeMemory, h]
      · simp only [List.filter_cons, h, ne_eq, not_false_eq_true, decide_True, if_true]
        exact List.Forall₂.cons ⟨s.world, rfl⟩ h2

/-- C11: for every residency container, after `processResidency` every
allocation of the container, zero-size ones included, has
`residencyTaskCount[deviceIndex]` equal to the receiver's `taskCount + 1`
(the container keeps its length and order, each entry differing from the
original in that one counter only), and the receiver's `taskCount` is
unchanged. -/
theorem processResidency_stamps_all (env : Env W) (s : TbxCommandStreamReceiverHw W)
    (l : List GraphicsAllocation) :
    (processResidency env s l).1.taskCount = s.taskCount ∧
    (processResidency env s l).2 =
      l.map (fun g =>
        { g with
          residencyTaskCount :=
            Function.update g.residencyTaskCount s.deviceIndex (s.taskCount + 1) }) ∧
    (processResidency env s l).2.length = l.length ∧
    ∀ g ∈ (processResidency env s l).2, g.residencyTaskCount s.deviceIndex = s.taskCount + 1 := by
  have h := processResidency_allocations env l s
  refine ⟨(processResidency_frame env l s).2.2.2.2.2.1, h, ?_, ?_⟩
  · rw [h, List.length_map]
  · intro g hg
    rw [h, List.mem_map] at hg
    obtain ⟨g0, _, rfl⟩ := hg
    simp

/-- C11 at a container with a zero-size and a 4-byte allocation. -/
theorem processResidency_stamps_all_witness :
    refEmptyAllocation.residencyTaskCount refCsr.deviceIndex = 0 ∧
    ∀ g ∈ (processResidency refEnv refCsr [refEmptyAllocation, refAllocation 0]).2,
      g.residencyTaskCount refCsr.deviceIndex = refCsr.taskCount + 1 :=
  ⟨rfl, (processResidency_stamps_all refEnv refCsr [refEmptyAllocation, refAllocation 0]).2.2.2⟩

/-- C12: `processResidency` streams exactly the allocations of non-zero size,
in container order: the receiver it leaves is the one it leaves for the
container with the zero-size allocations removed, and the records it appends
are one chunk of page-walk runs per allocation of non-zero size, in order.  A
zero-size allocation makes `writeMemory` return false with a size of 0, so the
check of line 370 does not fire, and the loop goes on: every allocation of the
container is stamped.  For a container with one size-0 and one size-4096
allocation the appended records are those of the page walk of the 4096-byte
allocation alone, and both allocations are stamped. -/
theorem processResidency_skips_zero_size (env : Env W) (s : TbxCommandStreamReceiverHw W)
    (l : List GraphicsAllocation) :
    (processResidency env s l).1 =
      (processResidency env s (l.filter (fun g => decide (g.size ≠ 0)))).1 ∧
    (∃ chunks : List (List Record),
      (processResidency env s l).1.tbxStream = s.tbxStream ++ chunks.flatten ∧
      List.Forall₂
        (fun (g : GraphicsAllocation) (chunk : List Record) =>
          ∃ w : W,
            chunk =
              (env.ppgttPageWalk w g.gpuAddress g.size 0 (getPPGTTAdditionalBits env)
                (env.getMemoryBank g)).1.map
                (fun run =>
                  Record.reserveAddressGGTTAndWriteMmeory g.gpuAddress g.cpuPtr run.physAddress
                    run.size run.offset (getPPGTTAdditionalBits env) s.localMemoryEnabled))
        (l.filter (fun g => decide (g.size ≠ 0))) chunks) ∧
    (∀ (s' : TbxCommandStreamReceiverHw W) (g : GraphicsAllocation),
      (writeMemory env s' g).1 = false → g.size = 0) ∧
    (processResidency env s l).2.length = l.length ∧
    (∀ g0 g1 : GraphicsAllocation, g0.size = 0 → g1.size = 4096 →
      (processResidency env s [g0, g1]).1.tbxStream =
        s.tbxStream ++
          (env.ppgttPageWalk s.world g1.gpuAddress 4096 0 (getPPGTTAdditionalBits env)
            (env.getMemoryBank g1)).1.map
            (fun run =>
              Record.reserveAddressGGTTAndWriteMmeory g1.gpuAddress g1.cpuPtr run.physAddress
                run.size run.offset (getPPGTTAdditionalBits env) s.localMemoryEnabled) ∧
      (processResidency env s [g0, g1]).2 =
        [{ g0 with
           residencyTaskCount :=
             Function.update g0.residencyTaskCount s.deviceIndex (s.taskCount + 1) },
         { g1 with
           residencyTaskCount :=
             Function.update g1.residencyTaskCount s.deviceIndex (s.taskCount + 1) }]) := by
  refine ⟨?_, processResidency_stream env l s, ?_, ?_, ?_⟩
  · induction l generalizing s with
    | nil => rfl
    | cons g rest ih =>
      by_cases h : g.size = 0
      · rw [processResidency_cons_zero env s g rest h, ih s]
        simp [List.filter_cons, h]
      · simp only [List.filter_cons, h, ne_eq, not_false_eq_true, decide_True, if_true,
          processResidency]
        exact ih _
  · intro s' g hfalse
    unfold writeMemory at hfalse
    by_cases h : g.size = 0
    · exact h
    · simp [h] at hfalse
  · rw [processResidency_allocations, List.length_map]
  · intro g0 g1 h0 h1
    refine ⟨?_, processResidency_allocations env [g0, g1] s⟩
    simp [processResidency, writeMemory, h0, h1]

/-- C12 at the container with `refEmptyAllocation` (size 0) and
`refPageAllocation` (size 4096): exactly one record is pushed. -/
theorem processResidency_skips_zero_size_witness :
    refEmptyAllocation.size = 0 ∧ refPageAllocation.size = 4096 ∧
    (processResidency refEnv refCsr [refEmptyAllocation, refPageAllocation]).1.tbxStream =
      [ Record.reserveAddressGGTTAndWriteMmeory 0x9000 0x9000 0x9000 4096 0 7 false] :=
  ⟨rfl, rfl,
    ((processResidency_skips_zero_size refEnv refCsr
      [refEmptyAllocation, refPageAllocation]).2.2.2.2 refEmptyAllocation
      refPageAllocation rfl rfl).1.trans (by decide)⟩

/-- C13: `processResidency` has no silent skip.  Called on an allocation of
non-zero size, and called again (with any `taskCount`, the same or a later
submission) on the allocation as the first call left it, whose residency task
count then already is the first call's `taskCount + 1`, it performs the page
walk and appends the walker's records both times. -/
theorem processResidency_pushes_again (env : Env W) (s : TbxCommandStreamReceiverHw W)
    (g : GraphicsAllocation) (laterTaskCount : Nat) (hsize : g.size ≠ 0) :
    let first := processResidency env s [g]
    let again := processResidency env { first.1 with taskCount := laterTaskCount } first.2
    first.2 =
      [{ g with
         residencyTaskCount :=
           Function.update g.residencyTaskCount s.deviceIndex (s.taskCount + 1) }] ∧
    first.1.tbxStream =
      s.tbxStream ++
        (env.ppgttPageWalk s.world g.gpuAddress g.size 0 (getPPGTTAdditionalBits env)
          (env.getMemoryBank g)).1.map
          (fun run =>
            Record.reserveAddressGGTTAndWriteMmeory g.gpuAddress g.cpuPtr run.physAddress run.size
              run.offset (getPPGTTAdditionalBits env) s.localMemoryEnabled) ∧
    first.1.world =
      (env.ppgttPageWalk s.world g.gpuAddress g.size 0 (getPPGTTAdditionalBits env)
        (env.getMemoryBank g)).2 ∧
    again.1.tbxStream =
      first.1.tbxStream ++
        (env.ppgttPageWalk first.1.world g.gpuAddress g.size 0 (getPPGTTAdditionalBits env)
          (env.getMemoryBank
            { g with
              residencyTaskCount :=
                Function.update g.residencyTaskCount s.deviceIndex (s.taskCount + 1) })).1.map
          (fun run =>
            Record.reserveAddressGGTTAndWriteMmeory g.gpuAddress g.cpuPtr run.physAddress run.size
              run.offset (getPPGTTAdditionalBits env) s.localMemoryEnabled) ∧
    again.1.world =
      (env.ppgttPageWalk first.1.world g.gpuAddress g.size 0 (getPPGTTAdditionalBits env)
        (env.getMemoryBank
          { g with
            residencyTaskCount :=
              Function.update g.residencyTaskCount s.deviceIndex (s.taskCount + 1) })).2 := by
  intro first again
  have hfirst : first.2 =
      [{ g with
         residencyTaskCount :=
           Function.update g.residencyTaskCount s.deviceIndex (s.taskCount + 1) }] :=
    processResidency_allocations env [g] s
  refine ⟨hfirst, ?_, ?_, ?_, ?_⟩
  · simp [first, processResidency, writeMemory, hsize]
  · simp [first, processResidency, writeMemory, hsize]
  · simp only [again, hfirst]
    simp [first, processResidency, writeMemory, hsize]
  · simp only [again, hfirst]
    simp [first, processResidency, writeMemory, hsize]

/-- C13 at the 4-byte allocation: after the two calls the stream holds its
record twice. -/
theorem processResidency_pushes_again_witness :
    (refAllocation 0).size ≠ 0 ∧
    (processResidency refEnv
      { (processResidency refEnv refCsr [refAllocation 0]).1 with taskCount := 0 }
      (processResidency refEnv refCsr [refAllocation 0]).2).1.tbxStream =
      [ Record.reserveAddressGGTTAndWriteMmeory 0x7000 0x7000 0x7000 4 0 7 false,
        Record.reserveAddressGGTTAndWriteMmeory 0x7000 0x7000 0x7000 4 0 7 false] :=
  ⟨by decide,
    (processResidency_pushes_again refEnv refCsr (refAllocation 0) 0 (by decide)).2.2.2.1.trans
      (by decide)⟩

/-! ## Wrap condition -/

/-- The tail after one `flush`, branch by branch. -/
theorem flush_tail_step (env : Env W) (s : TbxCommandStreamReceiverHw W) (bb : BatchBuffer)
    (e : EngineType) (l : List GraphicsAllocation) (hready : RingReady s e)
    (hBN : env.sizeofBBS + env.sizeofNOOP < 0x4000) :
    ((flush env s bb e l).csr.engineInfoTable e).tailRCS =
      if (s.engineInfoTable e).tailRCS + (env.sizeofBBS + env.sizeofNOOP + env.sizeofLRI) ≥ 0x4000
      then env.sizeofBBS + env.sizeofNOOP
      else if (s.engineInfoTable e).tailRCS = 0
      then env.sizeofLRI + env.sizeofBBS + env.sizeofNOOP
      else (s.engineInfoTable e).tailRCS + env.sizeofBBS + env.sizeofNOOP := by
  have hsz := flushBeforeRing_size env s bb e l hready.1
  have ht := flushBeforeRing_tail env s bb e l
  have hlt0 : ((flushBeforeRing env s bb e l).engineInfoTable e).tailRCS < 0x4000 := by
    rw [ht]; exact hready.2
  rw [(flush_fields env s bb e l).1,
    flushRing_engineInfo env (flushBeforeRing env s bb e l) e (flushBatchBufferPtr bb) hsz hlt0 hBN,
    ht]

/-- With 12/12/4-byte commands, `n` flushes that stay clear of the end of the
ring advance a non-zero tail by 16 bytes each. -/
theorem flushes_tail_linear (env : Env W) (hL : env.sizeofLRI = 12) (hB : env.sizeofBBS = 12)
    (hN : env.sizeofNOOP = 4) (e : EngineType) (calls : List FlushCall) :
    ∀ s : TbxCommandStreamReceiverHw W, RingReady s e → (s.engineInfoTable e).tailRCS ≠ 0 →
      (s.engineInfoTable e).tailRCS + 16 * calls.length + 12 < 0x4000 →
      ((flushes env s e calls).engineInfoTable e).tailRCS =
        (s.engineInfoTable e).tailRCS + 16 * calls.length := by
  induction calls with
  | nil => intro s _ _ _; rfl
  | cons c rest ih =>
    intro s hr h0 hfit
    have hBN : env.sizeofBBS + env.sizeofNOOP < 0x4000 := by rw [hB, hN]; decide
    simp only [List.length_cons] at hfit
    have hstep := flush_tail_step env s c.batchBuffer e c.allocationsForResidency hr hBN
    rw [hL, hB, hN, if_neg (by omega), if_neg h0] at hstep
    have hr' := (flush_ringReady env s c.batchBuffer e c.allocationsForResidency hBN hr).1
    have := ih _ hr' (by rw [hstep]; omega) (by rw [hstep]; omega)
    simp only [flushes, List.length_cons, this, hstep]
    omega

/-- The ring stage up to the branch of lines 234-257: the pad write, the tail
and `previousTail`, for an engine record ready for a flush. -/
theorem flushRingBranch_cases (env : Env W) (s0 : TbxCommandStreamReceiverHw W) (e : EngineType)
    (hsz : (s0.engineInfoTable e).sizeRCS = 0x4000)
    (ht : (s0.engineInfoTable e).tailRCS < 0x4000) :
    (flushRingBranch env s0 e).previousTail =
      (if (s0.engineInfoTable e).tailRCS + (env.sizeofBBS + env.sizeofNOOP + env.sizeofLRI) ≥ 0x4000
       then 0 else (s0.engineInfoTable e).tailRCS) ∧
    ((flushRingBranch env s0 e).csr.engineInfoTable e).tailRCS =
      (if (s0.engineInfoTable e).tailRCS + (env.sizeofBBS + env.sizeofNOOP + env.sizeofLRI) ≥ 0x4000
       then 0 else (s0.engineInfoTable e).tailRCS) ∧
    (flushRingBranch env s0 e).csr.tbxStream =
      s0.tbxStream ++
        (if (s0.engineInfoTable e).tailRCS + (env.sizeofBBS + env.sizeofNOOP + env.sizeofLRI) ≥ 0x4000
         then
          [ Record.addMemoryWrite
              (env.ggttMap s0.world ((s0.engineInfoTable e).ggttRCS + (s0.engineInfoTable e).tailRCS)
                (0x4000 - (s0.engineInfoTable e).tailRCS) env.getGTTBits
                (env.getBank s0.deviceIndex)).1
              (Payload.bytes ((s0.engineInfoTable e).pRCS + (s0.engineInfoTable e).tailRCS)
                (List.replicate (0x4000 - (s0.engineInfoTable e).tailRCS) (HostByte.value 0)))
              (0x4000 - (s0.engineInfoTable e).tailRCS)
              (env.getAddressSpace env.TraceCommandBuffer) env.TraceCommandBuffer]
         else []) := by
  have hmod : (0x4000 + 2 ^ 64 - (s0.engineInfoTable e).tailRCS) % 2 ^ 64
      = 0x4000 - (s0.engineInfoTable e).tailRCS := by omega
  unfold flushRingBranch
  simp only [hsz]
  split_ifs with h1 h2
  · simp only [Function.update_same, hmod, readBytes_memset, getMemoryBankForGtt]
    exact ⟨trivial, trivial, trivial⟩
  · simp [h2]
  · simp

/-- The concrete receiver after 1022 flushes is ready for a flush and has its
tail at 16364. -/
theorem refCsrNearEnd_tail :
    RingReady refCsrNearEnd 0 ∧ (refCsrNearEnd.engineInfoTable 0).tailRCS = 16364 := by
  have hfresh : RingReady refCsr 0 := by decide
  have hr1 := (flush_ringReady refEnv refCsr refCall.batchBuffer 0
    refCall.allocationsForResidency (by decide) hfresh).1
  have h1 : ((flush refEnv refCsr refCall.batchBuffer 0
      refCall.allocationsForResidency).csr.engineInfoTable 0).tailRCS = 28 :=
    flush_fresh_tail refEnv rfl rfl rfl _ _ _ _ _ _ _ _ _
  have hlin := flushes_tail_linear refEnv rfl rfl rfl 0 (List.replicate 1021 refCall) _ hr1
    (by rw [h1]; decide) (by rw [h1, List.length_replicate]; decide)
  rw [h1, List.length_replicate] at hlin
  unfold refCsrNearEnd
  refine ⟨flushes_ringReady refEnv 0 (by decide) _ refCsr hfresh, ?_⟩
  rw [flushes]
  exact hlin

/-- C14 refuted: after 1022 flushes of a fresh receiver with 12/12/4-byte
commands the tail is 16364, so 20 bytes of the ring remain and the 16-byte
entry (batch buffer start plus no-op) fits; yet the next `flush` pads the 20
bytes with zeroes, records `previousTail = 0` and ends with the tail at 16. -/
theorem flush_wraps_although_entry_fits :
    (refCsrNearEnd.engineInfoTable 0).tailRCS = 16364 ∧
    refEnv.sizeofBBS + refEnv.sizeofNOOP ≤ 0x4000 - (refCsrNearEnd.engineInfoTable 0).tailRCS ∧
    (flushRingBranch refEnv (flushBeforeRing refEnv refCsrNearEnd refBatchBuffer 0 []) 0).previousTail
      = 0 ∧
    ((flush refEnv refCsrNearEnd refBatchBuffer 0 []).csr.engineInfoTable 0).tailRCS = 16 ∧
    HostStore.memset
        (((flushBeforeRing refEnv refCsrNearEnd refBatchBuffer 0 []).engineInfoTable 0).pRCS + 16364)
        0 20 ∈
      (flush refEnv refCsrNearEnd refBatchBuffer 0 []).csr.hostStores := by
  obtain ⟨hr, ht⟩ := refCsrNearEnd_tail
  have hsz := flushBeforeRing_size refEnv refCsrNearEnd refBatchBuffer 0 [] hr.1
  have ht0 := flushBeforeRing_tail refEnv refCsrNearEnd refBatchBuffer 0 []
  rw [ht] at ht0
  have hcases := flushRingBranch_cases refEnv _ 0 hsz (by rw [ht0]; decide)
  have hstep := flush_tail_step refEnv refCsrNearEnd refBatchBuffer 0 [] hr (by decide)
  have hstores := flushRing_hostStores refEnv _ 0 (flushBatchBufferPtr refBatchBuffer) hsz
    (by rw [ht0]; decide)
  rw [ht0] at hstores hcases
  rw [ht] at hstep
  refine ⟨ht, by rw [ht]; decide, ?_, ?_, ?_⟩
  · rw [hcases.1]
    decide
  · rw [hstep]
    decide
  · rw [(flush_fields refEnv refCsrNearEnd refBatchBuffer 0 []).2.1, hstores,
      if_pos (by decide)]
    simp

/-- C14 as amended: `flush` pads and wraps the ring exactly when
`tail + sizeof(BBS) + sizeof(NOOP) + sizeof(LRI) ≥ sizeRCS`, that is when the
remaining ring space `sizeRCS - tail` is at most the size of a batch buffer
start, a no-op and a register load together, whether or not this flush stores
a register load.  On that path the pad is written, `previousTail` is 0 and the
tail is reset to 0 before the entry is stored; otherwise no pad record is
written, no `memset` is made and the tail is not reset. -/
theorem flush_wrap_condition (env : Env W) (s : TbxCommandStreamReceiverHw W) (bb : BatchBuffer)
    (e : EngineType) (l : List GraphicsAllocation) (hready : RingReady s e) :
    let s0 := flushBeforeRing env s bb e l
    let cur := flushRingBranch env s0 e
    let t := (s.engineInfoTable e).tailRCS
    let sizeNeeded := env.sizeofBBS + env.sizeofNOOP + env.sizeofLRI
    (t + sizeNeeded ≥ (s0.engineInfoTable e).sizeRCS ↔
      (s0.engineInfoTable e).sizeRCS - t ≤ sizeNeeded) ∧
    (t + sizeNeeded ≥ (s0.engineInfoTable e).sizeRCS →
      cur.previousTail = 0 ∧ (cur.csr.engineInfoTable e).tailRCS = 0 ∧
      cur.csr.tbxStream =
        s0.tbxStream ++
          [ Record.addMemoryWrite
              (env.ggttMap s0.world ((s0.engineInfoTable e).ggttRCS + t)
                ((s0.engineInfoTable e).sizeRCS - t) env.getGTTBits
                (env.getBank s0.deviceIndex)).1
              (Payload.bytes ((s0.engineInfoTable e).pRCS + t)
                (List.replicate ((s0.engineInfoTable e).sizeRCS - t) (HostByte.value 0)))
              ((s0.engineInfoTable e).sizeRCS - t)
              (env.getAddressSpace env.TraceCommandBuffer) env.TraceCommandBuffer] ∧
      ∃ stores : List HostStore,
        (flush env s bb e l).csr.hostStores =
          s.hostStores ++
            HostStore.memset ((s0.engineInfoTable e).pRCS + t) 0
              ((s0.engineInfoTable e).sizeRCS - t) :: stores) ∧
    (¬ t + sizeNeeded ≥ (s0.engineInfoTable e).sizeRCS →
      cur.previousTail = t ∧ (cur.csr.engineInfoTable e).tailRCS = t ∧
      cur.csr.tbxStream = s0.tbxStream ∧
      ∃ stores : List HostStore,
        (flush env s bb e l).csr.hostStores = s.hostStores ++ stores ∧
        ∀ st ∈ stores, ∀ p v n, st ≠ HostStore.memset p v n) := by
  intro s0 cur t sizeNeeded
  have hsz : (s0.engineInfoTable e).sizeRCS = 0x4000 := flushBeforeRing_size env s bb e l hready.1
  have ht : (s0.engineInfoTable e).tailRCS = t := flushBeforeRing_tail env s bb e l
  have hlt : t < 0x4000 := hready.2
  have hst : s0.hostStores = s.hostStores := (flushBeforeRing_frame env s bb e l).2.1
  have hcases := flushRingBranch_cases env s0 e hsz (by rw [ht]; exact hlt)
  have hstores := flushRing_hostStores env s0 e (flushBatchBufferPtr bb) hsz (by rw [ht]; exact hlt)
  rw [ht] at hcases hstores
  rw [hsz]
  refine ⟨by omega, ?_, ?_⟩
  · intro hw
    have hw' : t + (env.sizeofBBS + env.sizeofNOOP + env.sizeofLRI) ≥ 0x4000 := hw
    simp only [if_pos hw'] at hcases hstores
    refine ⟨hcases.1, hcases.2.1, hcases.2.2, ?_⟩
    rw [(flush_fields env s bb e l).2.1, hstores, hst]
    exact ⟨_, rfl⟩
  · intro hw
    have hw' : ¬ t + (env.sizeofBBS + env.sizeofNOOP + env.sizeofLRI) ≥ 0x4000 := hw
    simp only [if_neg hw'] at hcases hstores
    refine ⟨hcases.1, hcases.2.1, by simpa using hcases.2.2, ?_⟩
    rw [(flush_fields env s bb e l).2.1, hstores, hst]
    refine ⟨_, rfl, ?_⟩
    intro st hmem p v n
    split_ifs at hmem <;>
      simp only [List.mem_cons, List.mem_singleton, List.not_mem_nil, or_false] at hmem <;>
      rcases hmem with rfl | rfl | rfl <;> simp

/-- C14 as amended, at the concrete receiver with the tail pre-advanced to
`sizeRCS - 16`: the flush takes the wrap path. -/
theorem flush_wrap_condition_witness :
    RingReady (refCsrAt (0x4000 - 16)) 0 ∧
    (flushRingBranch refEnv (flushBeforeRing refEnv (refCsrAt (0x4000 - 16)) refBatchBuffer 0 [])
      0).previousTail = 0 :=
  ⟨by decide,
    ((flush_wrap_condition refEnv (refCsrAt (0x4000 - 16)) refBatchBuffer 0 [] (by decide)).2.1
      (by decide)).1⟩

/-! ## The records of one flush -/

/-- The branch of lines 234-257 changes nothing of the receiver's engine table
but the tail of the target engine. -/
theorem flushRingBranch_fields (env : Env W) (s0 : TbxCommandStreamReceiverHw W) (e : EngineType) :
    EngineInfo.sameAddresses ((flushRingBranch env s0 e).csr.engineInfoTable e)
      (s0.engineInfoTable e) ∧
    (flushRingBranch env s0 e).csr.deviceIndex = s0.deviceIndex ∧
    ∀ e', e' ≠ e → (flushRingBranch env s0 e).csr.engineInfoTable e' = s0.engineInfoTable e' := by
  unfold flushRingBranch EngineInfo.sameAddresses
  simp only
  split_ifs with h1 h2
  · refine ⟨by simp, rfl, ?_⟩
    intro e' he
    simp [Function.update_noteq he]
  · exact ⟨⟨rfl, rfl, rfl, rfl, rfl, rfl, rfl⟩, rfl, fun _ _ => rfl⟩
  · exact ⟨⟨rfl, rfl, rfl, rfl, rfl, rfl, rfl⟩, rfl, fun _ _ => rfl⟩

/-- The ring stage changes nothing of the receiver's engine table but the tail
of the target engine. -/
theorem flushRing_fields (env : Env W) (s0 : TbxCommandStreamReceiverHw W) (e : EngineType)
    (p : Nat) :
    EngineInfo.sameAddresses ((flushRing env s0 e p).engineInfoTable e) (s0.engineInfoTable e) ∧
    ∀ e', e' ≠ e → (flushRing env s0 e p).engineInfoTable e' = s0.engineInfoTable e' := by
  obtain ⟨h1, _, h3⟩ := flushRingBranch_fields env s0 e
  unfold flushRing flushRingAppend
  constructor
  · simp only [Function.update_same]
    exact h1
  · intro e' he
    simp only [Function.update_noteq he]
    exact h3 e' he

/-- Initialising engine `e` leaves the records of the other engines alone. -/
theorem flushEnsureInitialized_other (env : Env W) (s : TbxCommandStreamReceiverHw W)
    (e e' : EngineType) (he : e' ≠ e) :
    (flushEnsureInitialized env s e).engineInfoTable e' = s.engineInfoTable e' := by
  unfold flushEnsureInitialized
  by_cases h : (s.engineInfoTable e).pLRCA = 0
  · simp [h, initializeEngine, Function.update_noteq he]
  · simp [h]

/-- One `flush` on engine `e`: the record of `e` keeps the addresses it has
after the initialisation stage, the records of the other engines are unchanged. -/
theorem flush_engineInfo_fields (env : Env W) (s : TbxCommandStreamReceiverHw W) (bb : BatchBuffer)
    (e : EngineType) (l : List GraphicsAllocation) :
    EngineInfo.sameAddresses ((flush env s bb e l).csr.engineInfoTable e)
      ((flushEnsureInitialized env s e).engineInfoTable e) ∧
    ∀ e', e' ≠ e → (flush env s bb e l).csr.engineInfoTable e' = s.engineInfoTable e' := by
  obtain ⟨h1, h2⟩ := flushRing_fields env (flushBeforeRing env s bb e l) e (flushBatchBufferPtr bb)
  have hT := (flushBeforeRing_frame env s bb e l).1
  rw [(flush_fields env s bb e l).1]
  constructor
  · rw [← hT]; exact h1
  · intro e' he
    rw [h2 e' he, hT]
    exact flushEnsureInitialized_other env s e e' he

/-- The records of a `flush` from the ring-entry write on, as the code
computes them. -/
theorem flush_stream_after_branch (env : Env W) (s : TbxCommandStreamReceiverHw W)
    (bb : BatchBuffer) (e : EngineType) (l : List GraphicsAllocation) :
    (flush env s bb e l).csr.tbxStream =
      (flushRingBranch env (flushBeforeRing env s bb e l) e).csr.tbxStream ++
        [ Record.addMemoryWrite
            (env.ggttMap (flushRingBranch env (flushBeforeRing env s bb e l) e).csr.world
              (((flush env s bb e l).csr.engineInfoTable e).ggttRCS +
                (flushRingBranch env (flushBeforeRing env s bb e l) e).previousTail)
              ((((flush env s bb e l).csr.engineInfoTable e).tailRCS + 2 ^ 32 -
                (flushRingBranch env (flushBeforeRing env s bb e l) e).previousTail) % 2 ^ 32)
              env.getGTTBits (env.getBank s.deviceIndex)).1
            (Payload.bytes
              (((flush env s bb e l).csr.engineInfoTable e).pRCS +
                (flushRingBranch env (flushBeforeRing env s bb e l) e).previousTail)
              (readBytes (flush env s bb e l).csr.hostMem
                (((flush env s bb e l).csr.engineInfoTable e).pRCS +
                  (flushRingBranch env (flushBeforeRing env s bb e l) e).previousTail)
                ((((flush env s bb e l).csr.engineInfoTable e).tailRCS + 2 ^ 32 -
                  (flushRingBranch env (flushBeforeRing env s bb e l) e).previousTail) % 2 ^ 32)))
            ((((flush env s bb e l).csr.engineInfoTable e).tailRCS + 2 ^ 32 -
              (flushRingBranch env (flushBeforeRing env s bb e l) e).previousTail) % 2 ^ 32)
            (env.getAddressSpace env.TraceCommandBuffer) env.TraceCommandBuffer,
          Record.addMemoryWrite
            ((env.ggttMap
                (env.ggttMap (flushRingBranch env (flushBeforeRing env s bb e l) e).csr.world
                  (((flush env s bb e l).csr.engineInfoTable e).ggttRCS +
                    (flushRingBranch env (flushBeforeRing env s bb e l) e).previousTail)
                  ((((flush env s bb e l).csr.engineInfoTable e).tailRCS + 2 ^ 32 -
                    (flushRingBranch env (flushBeforeRing env s bb e l) e).previousTail) % 2 ^ 32)
                  env.getGTTBits (env.getBank s.deviceIndex)).2
                ((flush env s bb e l).csr.engineInfoTable e).ggttLRCA 4 env.getGTTBits
                (env.getBank s.deviceIndex)).1 + 0x101c)
            (Payload.tailRCS e ((flush env s bb e l).csr.engineInfoTable e).tailRCS) 4
            (env.getAddressSpace env.TraceNotype) env.TraceNotype,
          Record.writeMMIO ((env.csTraits e).mmioBase + 0x2230) 0,
          Record.writeMMIO ((env.csTraits e).mmioBase + 0x2230) 0,
          Record.writeMMIO ((env.csTraits e).mmioBase + 0x2230)
            (env.ulData (flushContextDescriptor env ((flush env s bb e l).csr.engineInfoTable e)) 1),
          Record.writeMMIO ((env.csTraits e).mmioBase + 0x2230)
            (env.ulData (flushContextDescriptor env ((flush env s bb e l).csr.engineInfoTable e)) 0),
          Record.registerPoll ((env.csTraits e).mmioBase + 0x2234) 0x100 0x100 false
            TimeoutActionValues.Abort] := by
  have hdev : (flushRingBranch env (flushBeforeRing env s bb e l) e).csr.deviceIndex = s.deviceIndex :=
    (flushRingBranch_fields env _ e).2.1.trans (flushBeforeRing_frame env s bb e l).2.2.2.1
  rw [flush_csr]
  simp only [pollForCompletion, submitLRCA, flushRing, flushRingAppend, Function.update_same,
    getMemoryBankForGtt, hdev, List.append_assoc, List.cons_append, List.nil_append,
    List.singleton_append]

/-- Register writes are not polls. -/
theorem writeMMIOs_not_poll (l : List (Nat × Nat)) :
    ∀ rec ∈ writeMMIOs l, rec.isRegisterPoll = false := by
  intro rec h
  unfold writeMMIOs at h
  rw [List.mem_map] at h
  obtain ⟨_, _, rfl⟩ := h
  rfl

/-- The initialisation stage appends no poll, and nothing at all for an engine
that has a context area. -/
theorem flushEnsureInitialized_stream (env : Env W) (s : TbxCommandStreamReceiverHw W)
    (e : EngineType) :
    ∃ added : List Record,
      (flushEnsureInitialized env s e).tbxStream = s.tbxStream ++ added ∧
      (∀ rec ∈ added, rec.isRegisterPoll = false) ∧
      ((s.engineInfoTable e).pLRCA ≠ 0 → added = []) := by
  unfold flushEnsureInitialized
  by_cases h : (s.engineInfoTable e).pLRCA = 0
  · simp only [h, if_true, initializeEngine, initEngineMMIO, List.append_assoc]
    refine ⟨_, rfl, ?_, fun hne => absurd rfl hne⟩
    intro rec hrec
    simp only [List.mem_append, List.mem_cons, List.mem_singleton, List.not_mem_nil,
      or_false] at hrec
    rcases hrec with h1 | h1 | h1 | h1 | h1 | h1
    · exact writeMMIOs_not_poll _ rec h1
    · exact writeMMIOs_not_poll _ rec h1
    · exact writeMMIOs_not_poll _ rec h1
    · rcases h1 with rfl | rfl <;> rfl
    · subst h1; rfl
    · rcases h1 with rfl | rfl <;> rfl
  · exact ⟨[], by simp [h], by simp, fun _ => rfl⟩

/-- Residency processing appends no poll. -/
theorem processResidency_not_poll (env : Env W) (l : List GraphicsAllocation) :
    ∀ s : TbxCommandStreamReceiverHw W,
      ∃ added : List Record,
        (processResidency env s l).1.tbxStream = s.tbxStream ++ added ∧
        ∀ rec ∈ added, rec.isRegisterPoll = false := by
  induction l with
  | nil => intro s; exact ⟨[], by simp [processResidency], by simp⟩
  | cons g rest ih =>
    intro s
    by_cases h : g.size = 0
    · rw [processResidency_cons_zero env s g rest h]
      exact ih s
    · obtain ⟨added, h1, h2⟩ := ih (writeMemory env s g).2
      simp only [processResidency, h1]
      simp only [writeMemory, h, if_false, List.append_assoc]
      refine ⟨_, rfl, ?_⟩
      intro rec hrec
      rcases List.mem_append.mp hrec with hr | hr
      · rw [List.mem_map] at hr
        obtain ⟨_, _, rfl⟩ := hr
        rfl
      · exact h2 rec hr

/-- The branch of lines 234-257 appends no poll. -/
theorem flushRingBranch_not_poll (env : Env W) (s0 : TbxCommandStreamReceiverHw W)
    (e : EngineType) :
    ∃ added : List Record,
      (flushRingBranch env s0 e).csr.tbxStream = s0.tbxStream ++ added ∧
      ∀ rec ∈ added, rec.isRegisterPoll = false := by
  unfold flushRingBranch
  simp only
  split_ifs with h1 h2
  · refine ⟨_, rfl, ?_⟩
    intro rec hrec
    simp only [List.mem_singleton] at hrec
    subst hrec
    rfl
  · exact ⟨[], by simp, by simp⟩
  · exact ⟨[], by simp, by simp⟩

/-- C15: the records that one `flush` on an already initialised engine (with
an engine record ready for a flush) appends to the stream are, in this order:
the batch-buffer reservation and the primary batch buffer memory write; the
records of residency processing, one chunk of page-walk runs per allocation of
non-zero size in container order; the pad write, on the wrap path only; the
ring-entry write; the 4-byte tail write into the logical context area; the four
submission-port register writes; the completion poll, as the last record. -/
theorem flush_record_order (env : Env W) (s : TbxCommandStreamReceiverHw W) (bb : BatchBuffer)
    (e : EngineType) (l : List GraphicsAllocation)
    (hinit : (s.engineInfoTable e).pLRCA ≠ 0) (hready : RingReady s e) :
    let r := (flush env s bb e l).csr
    let ei := r.engineInfoTable e
    let t := (s.engineInfoTable e).tailRCS
    let s0 := (processResidency env (flushWriteBatchBuffer env s bb) l).1
    let cur := flushRingBranch env s0 e
    let pBatchBuffer := flushBatchBufferPtr bb
    let sizeBatchBuffer := (bb.usedSize + 2 ^ 64 - bb.startOffset) % 2 ^ 64
    let physBatchBuffer :=
      (env.ppgttMap s.world pBatchBuffer sizeBatchBuffer (getPPGTTAdditionalBits env)
        (env.getMemoryBank bb.commandBufferAllocation)).1
    let dumpLength := (ei.tailRCS + 2 ^ 32 - cur.previousTail) % 2 ^ 32
    let physDumpStart :=
      env.ggttMap cur.csr.world (ei.ggttRCS + cur.previousTail) dumpLength env.getGTTBits
        (env.getBank s.deviceIndex)
    ∃ chunks : List (List Record),
      List.Forall₂
        (fun (g : GraphicsAllocation) (chunk : List Record) =>
          ∃ w : W,
            chunk =
              (env.ppgttPageWalk w g.gpuAddress g.size 0 (getPPGTTAdditionalBits env)
                (env.getMemoryBank g)).1.map
                (fun run =>
                  Record.reserveAddressGGTTAndWriteMmeory g.gpuAddress g.cpuPtr run.physAddress
                    run.size run.offset (getPPGTTAdditionalBits env) s.localMemoryEnabled))
        (l.filter (fun g => decide (g.size ≠ 0))) chunks ∧
      r.tbxStream =
        s.tbxStream ++
          [ Record.reserveAddressPPGTT pBatchBuffer sizeBatchBuffer physBatchBuffer
              (getPPGTTAdditionalBits env) s.localMemoryEnabled,
            Record.addMemoryWrite physBatchBuffer (Payload.external pBatchBuffer) sizeBatchBuffer
              (env.getAddressSpace env.TraceBatchBufferPrimary) env.TraceBatchBufferPrimary] ++
          chunks.flatten ++
          (if t + (env.sizeofBBS + env.sizeofNOOP + env.sizeofLRI) ≥ 0x4000 then
            [ Record.addMemoryWrite
                (env.ggttMap s0.world (ei.ggttRCS + t) (0x4000 - t) env.getGTTBits
                  (env.getBank s.deviceIndex)).1
                (Payload.bytes (ei.pRCS + t) (List.replicate (0x4000 - t) (HostByte.value 0)))
                (0x4000 - t) (env.getAddressSpace env.TraceCommandBuffer) env.TraceCommandBuffer]
           else []) ++
          [ Record.addMemoryWrite physDumpStart.1
              (Payload.bytes (ei.pRCS + cur.previousTail)
                (readBytes r.hostMem (ei.pRCS + cur.previousTail) dumpLength))
              dumpLength (env.getAddressSpace env.TraceCommandBuffer) env.TraceCommandBuffer,
            Record.addMemoryWrite
              ((env.ggttMap physDumpStart.2 ei.ggttLRCA 4 env.getGTTBits
                (env.getBank s.deviceIndex)).1 + 0x101c)
              (Payload.tailRCS e ei.tailRCS) 4 (env.getAddressSpace env.TraceNotype)
              env.TraceNotype,
            Record.writeMMIO ((env.csTraits e).mmioBase + 0x2230) 0,
            Record.writeMMIO ((env.csTraits e).mmioBase + 0x2230) 0,
            Record.writeMMIO ((env.csTraits e).mmioBase + 0x2230)
              (env.ulData (flushContextDescriptor env ei) 1),
            Record.writeMMIO ((env.csTraits e).mmioBase + 0x2230)
              (env.ulData (flushContextDescriptor env ei) 0),
            Record.registerPoll ((env.csTraits e).mmioBase + 0x2234) 0x100 0x100 false
              TimeoutActionValues.Abort] := by
  intro r ei t s0 cur pBatchBuffer sizeBatchBuffer physBatchBuffer dumpLength physDumpStart
  have hE : flushEnsureInitialized env s e = s := by simp [flushEnsureInitialized, hinit]
  have hs0 : flushBeforeRing env s bb e l = s0 := by simp only [flushBeforeRing, hE, s0]
  have hsz : (s0.engineInfoTable e).sizeRCS = 0x4000 := by
    rw [← hs0]; exact flushBeforeRing_size env s bb e l hready.1
  have ht : (s0.engineInfoTable e).tailRCS = t := by
    rw [← hs0]; exact flushBeforeRing_tail env s bb e l
  have hdev : s0.deviceIndex = s.deviceIndex := by
    rw [← hs0]; exact (flushBeforeRing_frame env s bb e l).2.2.2.1
  have hsame : EngineInfo.sameAddresses ei (s0.engineInfoTable e) := by
    have h : EngineInfo.sameAddresses ei ((flushBeforeRing env s bb e l).engineInfoTable e) :=
      (flushRing_fields env (flushBeforeRing env s bb e l) e (flushBatchBufferPtr bb)).1
    rw [hs0] at h
    exact h
  obtain ⟨_, _, _, _, hp, hg, _⟩ := hsame
  have hl : (flushWriteBatchBuffer env s bb).localMemoryEnabled = s.localMemoryEnabled := rfl
  obtain ⟨chunks, hc1, hc2⟩ := processResidency_stream env l (flushWriteBatchBuffer env s bb)
  rw [hl] at hc2
  have hbranch := (flushRingBranch_cases env s0 e hsz (by rw [ht]; exact hready.2)).2.2
  rw [ht, hdev, ← hp, ← hg] at hbranch
  have hafter := flush_stream_after_branch env s bb e l
  rw [hs0] at hafter
  refine ⟨chunks, hc2, ?_⟩
  show (flush env s bb e l).csr.tbxStream = _
  rw [hafter, hbranch]
  show (processResidency env (flushWriteBatchBuffer env s bb) l).1.tbxStream ++ _ ++ _ = _
  rw [hc1]
  simp only [flushWriteBatchBuffer, List.append_assoc]

/-- C15 at the second flush of the concrete receiver, with the zero-size and
the 4096-byte allocation in the residency container. -/
theorem flush_record_order_witness :
    ((flushes refEnv refCsr 0 [refCall]).engineInfoTable 0).pLRCA ≠ 0 ∧
    RingReady (flushes refEnv refCsr 0 [refCall]) 0 ∧
    (flush refEnv (flushes refEnv refCsr 0 [refCall]) refBatchBuffer 0
      [refEmptyAllocation, refPageAllocation]).csr.tbxStream.length =
      (flushes refEnv refCsr 0 [refCall]).tbxStream.length + 10 := by
  refine ⟨by decide, by decide, ?_⟩
  obtain ⟨chunks, _, h⟩ := flush_record_order refEnv (flushes refEnv refCsr 0 [refCall])
    refBatchBuffer 0 [refEmptyAllocation, refPageAllocation] (by decide) (by decide)
  decide

/-- Moving two records from the front of a suffix to the end of a prefix. -/
theorem append_cons_cons {α : Type} (xs : List α) (a b : α) (ys : List α) :
    xs ++ a :: b :: ys = (xs ++ [a, b]) ++ ys := by
  simp

/-- Splitting the last of seven records off. -/
theorem append_seven {α : Type} (xs : List α) (a b c d e f g : α) :
    xs ++ [a, b, c, d, e, f, g] = xs ++ [a, b, c, d, e, f] ++ [g] := by
  simp

/-- The batch buffer stage appends no poll. -/
theorem flushWriteBatchBuffer_not_poll (env : Env W) (s : TbxCommandStreamReceiverHw W)
    (bb : BatchBuffer) :
    ∃ added : List Record,
      (flushWriteBatchBuffer env s bb).tbxStream = s.tbxStream ++ added ∧
      ∀ rec ∈ added, rec.isRegisterPoll = false := by
  refine ⟨_, rfl, ?_⟩
  intro rec hrec
  simp only [List.mem_cons, List.mem_singleton, List.not_mem_nil, or_false] at hrec
  rcases hrec with rfl | rfl <;> rfl

/-- From the ring-entry write on, a `flush` appends six records that are not
polls, and then the poll. -/
theorem flush_after_branch_not_poll (env : Env W) (s : TbxCommandStreamReceiverHw W)
    (bb : BatchBuffer) (e : EngineType) (l : List GraphicsAllocation) :
    ∃ added : List Record,
      (flush env s bb e l).csr.tbxStream =
        (flushRingBranch env (flushBeforeRing env s bb e l) e).csr.tbxStream ++ added ++
          [ Record.registerPoll ((env.csTraits e).mmioBase + 0x2234) 0x100 0x100 false
              TimeoutActionValues.Abort] ∧
      ∀ rec ∈ added, rec.isRegisterPoll = false := by
  rw [flush_stream_after_branch env s bb e l, append_seven]
  refine ⟨_, rfl, ?_⟩
  intro rec hrec
  simp only [List.mem_cons, List.mem_singleton, List.not_mem_nil, or_false] at hrec
  rcases hrec with rfl | rfl | rfl | rfl | rfl | rfl <;> rfl

/-- C18: every `flush` issues, directly after the ring-entry memory write, one
memory write of exactly 4 bytes at `P + 0x101c`, where `P` is what the global
table returns for the engine's `ggttLRCA` (mapped right after the ring-entry
range), with the engine's new `tailRCS` as payload; the four submission writes
and the poll follow, so it is the only such write of the flush. -/
theorem flush_writes_tail_field (env : Env W) (s : TbxCommandStreamReceiverHw W)
    (bb : BatchBuffer) (e : EngineType) (l : List GraphicsAllocation) :
    let r := (flush env s bb e l).csr
    let ei := r.engineInfoTable e
    let cur := flushRingBranch env (flushBeforeRing env s bb e l) e
    let dumpLength := (ei.tailRCS + 2 ^ 32 - cur.previousTail) % 2 ^ 32
    let physDumpStart :=
      env.ggttMap cur.csr.world (ei.ggttRCS + cur.previousTail) dumpLength env.getGTTBits
        (env.getBank s.deviceIndex)
    let physLRCA :=
      (env.ggttMap physDumpStart.2 ei.ggttLRCA 4 env.getGTTBits (env.getBank s.deviceIndex)).1
    r.tbxStream =
      cur.csr.tbxStream ++
        [ Record.addMemoryWrite physDumpStart.1
            (Payload.bytes (ei.pRCS + cur.previousTail)
              (readBytes r.hostMem (ei.pRCS + cur.previousTail) dumpLength))
            dumpLength (env.getAddressSpace env.TraceCommandBuffer) env.TraceCommandBuffer,
          Record.addMemoryWrite (physLRCA + 0x101c) (Payload.tailRCS e ei.tailRCS) 4
            (env.getAddressSpace env.TraceNotype) env.TraceNotype,
          Record.writeMMIO ((env.csTraits e).mmioBase + 0x2230) 0,
          Record.writeMMIO ((env.csTraits e).mmioBase + 0x2230) 0,
          Record.writeMMIO ((env.csTraits e).mmioBase + 0x2230)
            (env.ulData (flushContextDescriptor env ei) 1),
          Record.writeMMIO ((env.csTraits e).mmioBase + 0x2230)
            (env.ulData (flushContextDescriptor env ei) 0),
          Record.registerPoll ((env.csTraits e).mmioBase + 0x2234) 0x100 0x100 false
            TimeoutActionValues.Abort] := by
  intro r ei cur dumpLength physDumpStart physLRCA
  exact flush_stream_after_branch env s bb e l

/-- C19: the context descriptor that every `flush` builds and submits has
`Valid = 1`, `ForcePageDirRestore = 0`, `ForceRestore = 0`, `Legacy = 1`,
`FaultSupport = 0`, `PrivilegeAccessOrPPGTT = 1`, `ADor64bitSupport = 1`
exactly when `addressingBits > 32`, `LogicalRingCtxAddress = ggttLRCA / 4096`
for the engine's `ggttLRCA` (the one it has once the engine is initialised) and
`ContextID = 0`.  It is the same for every batch buffer and residency
container, and its two dwords are the values of the third and fourth
submission write. -/
theorem flush_submits_descriptor (env : Env W) (s : TbxCommandStreamReceiverHw W)
    (bb : BatchBuffer) (e : EngineType) (l : List GraphicsAllocation) :
    flushContextDescriptor env ((flush env s bb e l).csr.engineInfoTable e) =
      { Valid := 1
        ForcePageDirRestore := 0
        ForceRestore := 0
        Legacy := 1
        FaultSupport := 0
        PrivilegeAccessOrPPGTT := 1
        ADor64bitSupport := if env.addressingBits > 32 then 1 else 0
        LogicalRingCtxAddress := ((flushEnsureInitialized env s e).engineInfoTable e).ggttLRCA / 4096
        ContextID := 0 } ∧
    ((flushContextDescriptor env ((flush env s bb e l).csr.engineInfoTable e)).ADor64bitSupport = 1 ↔
      env.addressingBits > 32) ∧
    (∀ (bb' : BatchBuffer) (l' : List GraphicsAllocation),
      flushContextDescriptor env ((flush env s bb' e l').csr.engineInfoTable e) =
        flushContextDescriptor env ((flush env s bb e l).csr.engineInfoTable e)) ∧
    ∃ before : List Record,
      (flush env s bb e l).csr.tbxStream =
        before ++
          [ Record.writeMMIO ((env.csTraits e).mmioBase + 0x2230) 0,
            Record.writeMMIO ((env.csTraits e).mmioBase + 0x2230) 0,
            Record.writeMMIO ((env.csTraits e).mmioBase + 0x2230)
              (env.ulData (flushContextDescriptor env ((flush env s bb e l).csr.engineInfoTable e)) 1),
            Record.writeMMIO ((env.csTraits e).mmioBase + 0x2230)
              (env.ulData (flushContextDescriptor env ((flush env s bb e l).csr.engineInfoTable e)) 0),
            Record.registerPoll ((env.csTraits e).mmioBase + 0x2234) 0x100 0x100 false
              TimeoutActionValues.Abort] := by
  have hd : ∀ (bb' : BatchBuffer) (l' : List GraphicsAllocation),
      flushContextDescriptor env ((flush env s bb' e l').csr.engineInfoTable e) =
        { Valid := 1
          ForcePageDirRestore := 0
          ForceRestore := 0
          Legacy := 1
          FaultSupport := 0
          PrivilegeAccessOrPPGTT := 1
          ADor64bitSupport := if env.addressingBits > 32 then 1 else 0
          LogicalRingCtxAddress :=
            ((flushEnsureInitialized env s e).engineInfoTable e).ggttLRCA / 4096
          ContextID := 0 } := by
    intro bb' l'
    have h := (flush_engineInfo_fields env s bb' e l').1.2.1
    simp only [flushContextDescriptor, h]
  refine ⟨hd bb l, ?_, fun bb' l' => (hd bb' l').trans (hd bb l).symm, ?_⟩
  · rw [hd bb l]
    by_cases h : env.addressingBits > 32 <;> simp [h]
  · rw [flush_stream_after_branch env s bb e l]
    exact ⟨_, append_cons_cons _ _ _ _⟩

/-- C20: every `flush` ends with a register poll on `mmioBase + 0x2234` of the
target engine with mask `0x100`, value `0x100`, `pollNotEqual = false` and
timeout action `Abort`, and none of the records it appends before that one is a
register poll. -/
theorem flush_ends_with_one_poll (env : Env W) (s : TbxCommandStreamReceiverHw W)
    (bb : BatchBuffer) (e : EngineType) (l : List GraphicsAllocation) :
    ∃ added : List Record,
      (flush env s bb e l).csr.tbxStream =
        s.tbxStream ++ added ++
          [ Record.registerPoll ((env.csTraits e).mmioBase + 0x2234) 0x100 0x100 false
              TimeoutActionValues.Abort] ∧
      ∀ rec ∈ added, rec.isRegisterPoll = false := by
  obtain ⟨a1, h1, n1, _⟩ := flushEnsureInitialized_stream env s e
  obtain ⟨a2, h2, n2⟩ := flushWriteBatchBuffer_not_poll env (flushEnsureInitialized env s e) bb
  obtain ⟨a3, h3, n3⟩ := processResidency_not_poll env l
    (flushWriteBatchBuffer env (flushEnsureInitialized env s e) bb)
  obtain ⟨a4, h4, n4⟩ := flushRingBranch_not_poll env (flushBeforeRing env s bb e l) e
  obtain ⟨a5, h5, n5⟩ := flush_after_branch_not_poll env s bb e l
  have h0 : (flushBeforeRing env s bb e l).tbxStream =
      (processResidency env (flushWriteBatchBuffer env (flushEnsureInitialized env s e) bb)
        l).1.tbxStream := rfl
  refine ⟨a1 ++ a2 ++ a3 ++ a4 ++ a5, ?_, ?_⟩
  · rw [h5, h4, h0, h3, h2, h1]
    simp only [List.append_assoc]
  · intro rec hrec
    simp only [List.mem_append] at hrec
    rcases hrec with (((hr | hr) | hr) | hr) | hr
    · exact n1 rec hr
    · exact n2 rec hr
    · exact n3 rec hr
    · exact n4 rec hr
    · exact n5 rec hr

/-- C17: `flush` returns the flush stamp 0 whatever its arguments, so of two
successive `flush` calls on the same receiver the later one returns a stamp
greater than or equal to the earlier one's. -/
theorem flush_stamp_monotone (env : Env W) (s : TbxCommandStreamReceiverHw W)
    (bb1 bb2 : BatchBuffer) (e1 e2 : EngineType) (l1 l2 : List GraphicsAllocation) :
    (flush env s bb1 e1 l1).flushStamp = 0 ∧
    (flush env s bb1 e1 l1).flushStamp ≤
      (flush env (flush env s bb1 e1 l1).csr bb2 e2 l2).flushStamp :=
  ⟨rfl, Nat.le_refl 0⟩

/-- C19 at the first flush of the concrete receiver (48 addressing bits): the
descriptor has `ADor64bitSupport = 1` and its low dword is `0x101119`. -/
theorem flush_submits_descriptor_witness :
    refEnv.addressingBits > 32 ∧
    (flushContextDescriptor refEnv
      ((flush refEnv refCsr refBatchBuffer 0 []).csr.engineInfoTable 0)).ADor64bitSupport = 1 ∧
    refEnv.ulData
      (flushContextDescriptor refEnv
        ((flush refEnv refCsr refBatchBuffer 0 []).csr.engineInfoTable 0)) 0 = 0x101119 :=
  ⟨by decide,
    (flush_submits_descriptor refEnv refCsr refBatchBuffer 0 []).2.1.mpr (by decide),
    by decide⟩

/-- C20 at the first flush of the concrete receiver. -/
theorem flush_ends_with_one_poll_witness :
    ∃ added : List Record,
      (flush refEnv refCsr refBatchBuffer 0 []).csr.tbxStream =
        refCsr.tbxStream ++ added ++
          [ Record.registerPoll (0x2000 + 0x2234) 0x100 0x100 false TimeoutActionValues.Abort] ∧
      ∀ rec ∈ added, rec.isRegisterPoll = false :=
  flush_ends_with_one_poll refEnv refCsr refBatchBuffer 0 []

/-! ## Lazy engine initialisation -/

/-- An engine that has a context area keeps it, and its addresses, through a
`flush` on any engine. -/
theorem flush_keeps_addresses (env : Env W) (s : TbxCommandStreamReceiverHw W) (bb : BatchBuffer)
    (e e' : EngineType) (l : List GraphicsAllocation) (h : (s.engineInfoTable e).pLRCA ≠ 0) :
    EngineInfo.sameAddresses ((flush env s bb e' l).csr.engineInfoTable e) (s.engineInfoTable e) := by
  by_cases he : e = e'
  · subst he
    have hE : flushEnsureInitialized env s e = s := by simp [flushEnsureInitialized, h]
    have := (flush_engineInfo_fields env s bb e l).1
    rw [hE] at this
    exact this
  · rw [(flush_engineInfo_fields env s bb e' l).2 e he]
    exact ⟨rfl, rfl, rfl, rfl, rfl, rfl, rfl⟩

/-- When `alignedMalloc` does not fail, a `flush` on engine `e` leaves `e`
with a context area. -/
theorem flush_initializes (env : Env W)
    (hmalloc : ∀ w size alignment, (env.alignedMalloc w size alignment).1 ≠ 0)
    (s : TbxCommandStreamReceiverHw W) (bb : BatchBuffer) (e : EngineType)
    (l : List GraphicsAllocation) :
    ((flush env s bb e l).csr.engineInfoTable e).pLRCA ≠ 0 := by
  rw [(flush_engineInfo_fields env s bb e l).1.1]
  unfold flushEnsureInitialized
  by_cases h : (s.engineInfoTable e).pLRCA = 0
  · simp only [h, if_true, initializeEngine, Function.update_same]
    exact hmalloc _ _ _
  · simp [h]

/-- An engine that no call of the sequence targets keeps its record. -/
theorem flushSequence_untouched (env : Env W) (e : EngineType)
    (calls : List (EngineType × FlushCall)) :
    ∀ s : TbxCommandStreamReceiverHw W, (∀ c ∈ calls, c.1 ≠ e) →
      (flushSequence env s calls).engineInfoTable e = s.engineInfoTable e := by
  induction calls with
  | nil => intro s _; rfl
  | cons c rest ih =>
    intro s h
    have hc : e ≠ c.1 := fun h' => h c (List.mem_cons_self _ _) h'.symm
    simp only [flushSequence]
    rw [ih _ (fun c' hc' => h c' (List.mem_cons_of_mem _ hc'))]
    exact (flush_engineInfo_fields env s _ c.1 _).2 e hc

/-- An engine with a context area keeps it along a sequence of flushes. -/
theorem flushSequence_keeps_initialized (env : Env W) (e : EngineType)
    (calls : List (EngineType × FlushCall)) :
    ∀ s : TbxCommandStreamReceiverHw W, (s.engineInfoTable e).pLRCA ≠ 0 →
      ((flushSequence env s calls).engineInfoTable e).pLRCA ≠ 0 := by
  induction calls with
  | nil => intro s h; exact h
  | cons c rest ih =>
    intro s h
    simp only [flushSequence]
    apply ih
    rw [(flush_keeps_addresses env s _ e c.1 _ h).1]
    exact h

/-- When `alignedMalloc` does not fail, an engine that some call of the
sequence targets has a context area afterwards. -/
theorem flushSequence_initialized (env : Env W)
    (hmalloc : ∀ w size alignment, (env.alignedMalloc w size alignment).1 ≠ 0)
    (e : EngineType) (calls : List (EngineType × FlushCall)) :
    ∀ s : TbxCommandStreamReceiverHw W, (∃ c ∈ calls, c.1 = e) →
      ((flushSequence env s calls).engineInfoTable e).pLRCA ≠ 0 := by
  induction calls with
  | nil => intro s h; obtain ⟨_, hc, _⟩ := h; simp at hc
  | cons c rest ih =>
    intro s h
    simp only [flushSequence]
    by_cases hc : c.1 = e
    · apply flushSequence_keeps_initialized
      rw [← hc]
      exact flush_initializes env hmalloc s _ c.1 _
    · apply ih
      obtain ⟨c', hc', he⟩ := h
      rcases List.mem_cons.mp hc' with rfl | hmem
      · exact absurd he hc
      · exact ⟨c', hmem, he⟩

/-- C16: take any sequence of `flush` calls on a freshly constructed receiver,
each on an engine of its own choice, with an `alignedMalloc` that does not
fail.  If no call of the sequence targets engine `e`, then `pLRCA` of `e` is
still null, so the next flush on `e` runs `initializeEngine`, and `pLRCA` is
non-null afterwards.  If some call targeted `e`, then `pLRCA` of `e` is
non-null: the next flush on `e` does not run `initializeEngine` (the
initialisation stage leaves the receiver, its stream included, as it is), and
a flush on any engine keeps the ring, context-area and status-page pointers of
`e`, their global-table addresses and the ring size. -/
theorem flushSequence_initializes_once (env : Env W)
    (hmalloc : ∀ w size alignment, (env.alignedMalloc w size alignment).1 ≠ 0)
    (world : W) (hostMem : Nat → HostByte) (lrcaMem : Nat → List LrcaOp)
    (taskCount deviceIndex : Nat) (localMemoryEnabled : Bool)
    (calls : List (EngineType × FlushCall)) (e : EngineType) :
    let s := flushSequence env
      (construct world hostMem lrcaMem taskCount deviceIndex localMemoryEnabled) calls
    ((∀ c ∈ calls, c.1 ≠ e) →
      (s.engineInfoTable e).pLRCA = 0 ∧
      flushEnsureInitialized env s e = initializeEngine env s e ∧
      ((flushEnsureInitialized env s e).engineInfoTable e).pLRCA ≠ 0 ∧
      ∀ bb l, ((flush env s bb e l).csr.engineInfoTable e).pLRCA ≠ 0) ∧
    ((∃ c ∈ calls, c.1 = e) →
      (s.engineInfoTable e).pLRCA ≠ 0 ∧
      flushEnsureInitialized env s e = s ∧
      ∀ bb e' l,
        EngineInfo.sameAddresses ((flush env s bb e' l).csr.engineInfoTable e)
          (s.engineInfoTable e)) := by
  intro s
  constructor
  · intro h
    have h0 : (s.engineInfoTable e).pLRCA = 0 := by
      show ((flushSequence env _ calls).engineInfoTable e).pLRCA = 0
      rw [flushSequence_untouched env e calls _ h]
      rfl
    have hrun : flushEnsureInitialized env s e = initializeEngine env s e := by
      simp [flushEnsureInitialized, h0]
    refine ⟨h0, hrun, ?_, fun bb l => flush_initializes env hmalloc s bb e l⟩
    rw [hrun]
    simp only [initializeEngine, Function.update_same]
    exact hmalloc _ _ _
  · intro h
    have hne : (s.engineInfoTable e).pLRCA ≠ 0 := flushSequence_initialized env hmalloc e calls _ h
    refine ⟨hne, by simp [flushEnsureInitialized, hne], ?_⟩
    intro bb e' l
    exact flush_keeps_addresses env s bb e e' l hne

/-- C16 at the concrete receiver with a non-failing allocator, after a flush
on engine 0 and one on engine 1: engine 0 has a context area. -/
theorem flushSequence_initializes_once_witness :
    (∀ w size alignment, (refEnvNonNull.alignedMalloc w size alignment).1 ≠ 0) ∧
    (∃ c ∈ [((0 : EngineType), refCall), (1, refCall)], c.1 = 0) ∧
    ((flushSequence refEnvNonNull refCsr [(0, refCall), (1, refCall)]).engineInfoTable 0).pLRCA
      ≠ 0 :=
  ⟨fun w _ _ => Nat.succ_ne_zero w, ⟨(0, refCall), List.mem_cons_self _ _, rfl⟩,
    ((flushSequence_initializes_once refEnvNonNull (fun w _ _ => Nat.succ_ne_zero w) 0x100000
      (fun _ => HostByte.value 0xCD) (fun _ => []) 0 0 false [(0, refCall), (1, refCall)] 0).2
      ⟨(0, refCall), List.mem_cons_self _ _, rfl⟩).1⟩

/-! ## Read-back -/

/-- A run of `readMemory` calls: the records appended, and what they leave alone. -/
theorem foldl_tbxReadMemory (device : TbxDevice) (cpuAddress : Nat) (runs : List PageRun) :
    ∀ acc : TbxCommandStreamReceiverHw W,
      (runs.foldl
        (fun acc run =>
          tbxReadMemory device acc run.physAddress (cpuAddress + run.offset) run.size) acc).tbxStream =
        acc.tbxStream ++
          runs.map (fun run =>
            Record.readMemory run.physAddress (cpuAddress + run.offset) run.size) ∧
      (runs.foldl
        (fun acc run =>
          tbxReadMemory device acc run.physAddress (cpuAddress + run.offset) run.size) acc).world =
        acc.world ∧
      (runs.foldl
        (fun acc run =>
          tbxReadMemory device acc run.physAddress (cpuAddress + run.offset) run.size)
          acc).engineInfoTable = acc.engineInfoTable ∧
      ∀ a, (∀ run ∈ runs, ¬ (cpuAddress + run.offset ≤ a ∧ a < cpuAddress + run.offset + run.size)) →
        (runs.foldl
          (fun acc run =>
            tbxReadMemory device acc run.physAddress (cpuAddress + run.offset) run.size)
          acc).hostMem a = acc.hostMem a := by
  induction runs with
  | nil => intro acc; simp
  | cons run rest ih =>
    intro acc
    obtain ⟨h1, h2, h3, h4⟩ :=
      ih (tbxReadMemory device acc run.physAddress (cpuAddress + run.offset) run.size)
    simp only [List.foldl_cons, List.map_cons]
    refine ⟨?_, ?_, ?_, ?_⟩
    · rw [h1]; simp [tbxReadMemory]
    · rw [h2]; rfl
    · rw [h3]; rfl
    · intro a ha
      rw [h4 a (fun r hr => ha r (List.mem_cons_of_mem _ hr))]
      have := ha run (List.mem_cons_self _ _)
      simp only [tbxReadMemory, if_neg this]

/-- C21: `makeCoherent` issues no read for an allocation of length 0 and leaves
the receiver as it is.  For a length greater than 0 it walks
`[gpuAddress, gpuAddress + length)` in the per-context table from offset 0 with
entry bits 0, and appends exactly one `readMemory` per run of the walk, in walk
order, each for the run's physical address, the host address
`cpuAddress + run offset` and the run's size; host memory outside those
destination ranges and the engine records are unchanged. -/
theorem makeCoherent_reads_page_walk (env : Env W) (device : TbxDevice)
    (s : TbxCommandStreamReceiverHw W) (g : GraphicsAllocation) :
    (g.size = 0 → makeCoherent env device s g = s) ∧
    (g.size ≠ 0 →
      (makeCoherent env device s g).tbxStream =
        s.tbxStream ++
          (env.ppgttPageWalk s.world g.gpuAddress g.size 0 0 (env.getMemoryBank g)).1.map
            (fun run => Record.readMemory run.physAddress (g.cpuPtr + run.offset) run.size) ∧
      (makeCoherent env device s g).world =
        (env.ppgttPageWalk s.world g.gpuAddress g.size 0 0 (env.getMemoryBank g)).2 ∧
      (makeCoherent env device s g).engineInfoTable = s.engineInfoTable ∧
      ∀ a,
        (∀ run ∈ (env.ppgttPageWalk s.world g.gpuAddress g.size 0 0 (env.getMemoryBank g)).1,
          ¬ (g.cpuPtr + run.offset ≤ a ∧ a < g.cpuPtr + run.offset + run.size)) →
        (makeCoherent env device s g).hostMem a = s.hostMem a) := by
  constructor
  · intro h
    simp [makeCoherent, h]
  · intro h
    obtain ⟨h1, h2, h3, h4⟩ := foldl_tbxReadMemory device g.cpuPtr
      (env.ppgttPageWalk s.world g.gpuAddress g.size 0 0 (env.getMemoryBank g)).1
      { s with world := (env.ppgttPageWalk s.world g.gpuAddress g.size 0 0 (env.getMemoryBank g)).2 }
    simp only [makeCoherent, h, ne_eq, not_false_eq_true, if_true]
    exact ⟨h1, h2, h3, h4⟩

/-- C21 at the allocation of `0x2020` bytes that touches four pages: four reads. -/
theorem makeCoherent_reads_page_walk_witness :
    ({ refAllocation 0 with gpuAddress := 0x7ff0, cpuPtr := 0x7ff0, size := 0x2020 } :
      GraphicsAllocation).size ≠ 0 ∧
    (makeCoherent refEnv refDevice refCsrZeroed
      { refAllocation 0 with gpuAddress := 0x7ff0, cpuPtr := 0x7ff0, size := 0x2020 }).tbxStream =
      [ Record.readMemory 0x7ff0 0x7ff0 16, Record.readMemory 0x8000 0x8000 4096,
        Record.readMemory 0x9000 0x9000 4096, Record.readMemory 0xa000 0xa000 16] :=
  ⟨by decide,
    ((makeCoherent_reads_page_walk refEnv refDevice refCsrZeroed
      { refAllocation 0 with gpuAddress := 0x7ff0, cpuPtr := 0x7ff0, size := 0x2020 }).2
      (by decide)).1.trans (by decide)⟩

/-- The loop returns after `k` calls of `makeCoherent` when the `k`-th is the
first to leave the tag at or above `latestFlushedTaskCount`. -/
theorem waitLoop_iterate (env : Env W) (device : TbxDevice) (tagValue : (Nat → HostByte) → Nat)
    (latest : Nat) (allocation : GraphicsAllocation) (k : Nat) :
    ∀ (fuel : Nat) (s : TbxCommandStreamReceiverHw W), k < fuel →
      (∀ i, i < k →
        tagValue ((fun x => makeCoherent env device x allocation)^[i] s).hostMem < latest) →
      ¬ tagValue ((fun x => makeCoherent env device x allocation)^[k] s).hostMem < latest →
      waitLoop env device tagValue latest allocation fuel s =
        some ((fun x => makeCoherent env device x allocation)^[k] s) := by
  induction k with
  | zero =>
    intro fuel s hf _ hk
    obtain ⟨f, rfl⟩ : ∃ f, fuel = f + 1 := ⟨fuel - 1, by omega⟩
    simp only [Function.iterate_zero, id_eq] at hk
    simp [waitLoop, hk]
  | succ k ih =>
    intro fuel s hf hlt hk
    obtain ⟨f, rfl⟩ : ∃ f, fuel = f + 1 := ⟨fuel - 1, by omega⟩
    have h0 : tagValue s.hostMem < latest := hlt 0 (by omega)
    simp only [waitLoop, h0, if_true, Function.iterate_succ_apply]
    apply ih f _ (by omega)
    · intro i hi
      have := hlt (i + 1) (by omega)
      rwa [Function.iterate_succ_apply] at this
    · rwa [Function.iterate_succ_apply] at hk

/-- Whenever the loop returns, it has made some number `k` of `makeCoherent`
calls, the tag was below `latestFlushedTaskCount` before each of them, and is
not below it at the end. -/
theorem waitLoop_returns (env : Env W) (device : TbxDevice) (tagValue : (Nat → HostByte) → Nat)
    (latest : Nat) (allocation : GraphicsAllocation) (fuel : Nat) :
    ∀ (s r : TbxCommandStreamReceiverHw W),
      waitLoop env device tagValue latest allocation fuel s = some r →
      latest ≤ tagValue r.hostMem ∧
      ∃ k, k < fuel ∧ r = (fun x => makeCoherent env device x allocation)^[k] s ∧
        ∀ i, i < k →
          tagValue ((fun x => makeCoherent env device x allocation)^[i] s).hostMem < latest := by
  induction fuel with
  | zero => intro s r h; simp [waitLoop] at h
  | succ f ih =>
    intro s r h
    by_cases h0 : tagValue s.hostMem < latest
    · simp only [waitLoop, h0, if_true] at h
      obtain ⟨hr, k, hk, hrk, hlt⟩ := ih _ _ h
      refine ⟨hr, k + 1, by omega, ?_, ?_⟩
      · rw [Function.iterate_succ_apply]; exact hrk
      · intro i hi
        cases i with
        | zero => exact h0
        | succ j =>
          rw [Function.iterate_succ_apply]
          exact hlt j (by omega)
    · simp only [waitLoop, h0, if_false, Option.some.injEq] at h
      subst h
      exact ⟨by omega, 0, by omega, rfl, fun i hi => absurd hi (by omega)⟩

/-- C22: `waitBeforeMakingNonResidentWhenRequired` fails unrecoverably when
there is no tag allocation.  With a tag allocation it returns at once, without
any read-back, when the tag is already at or above `latestFlushedTaskCount`;
when the tag stays below it for the first `k` read-backs and not after the
`k`-th, it returns after exactly `k` calls of `makeCoherent` on the tag
allocation (for every fuel above `k`); and whenever it returns, the tag is at
or above `latestFlushedTaskCount` and the state is the entry state after some
number of `makeCoherent` calls, the tag having been below before each. -/
theorem waitBeforeMakingNonResidentWhenRequired_spec (env : Env W) (device : TbxDevice)
    (tagValue : (Nat → HostByte) → Nat) (latest : Nat) (s : TbxCommandStreamReceiverHw W) :
    (∀ fuel, waitBeforeMakingNonResidentWhenRequired env device tagValue none latest fuel s =
      WaitResult.unrecoverable) ∧
    (∀ allocation fuel, latest ≤ tagValue s.hostMem →
      waitBeforeMakingNonResidentWhenRequired env device tagValue (some allocation) latest
        (fuel + 1) s = WaitResult.returned s) ∧
    (∀ allocation k fuel, k < fuel →
      (∀ i, i < k →
        tagValue ((fun x => makeCoherent env device x allocation)^[i] s).hostMem < latest) →
      latest ≤ tagValue ((fun x => makeCoherent env device x allocation)^[k] s).hostMem →
      waitBeforeMakingNonResidentWhenRequired env device tagValue (some allocation) latest fuel s =
        WaitResult.returned ((fun x => makeCoherent env device x allocation)^[k] s)) ∧
    (∀ allocation fuel r,
      waitBeforeMakingNonResidentWhenRequired env device tagValue (some allocation) latest fuel s =
        WaitResult.returned r →
      latest ≤ tagValue r.hostMem ∧
      ∃ k, k < fuel ∧ r = (fun x => makeCoherent env device x allocation)^[k] s ∧
        ∀ i, i < k →
          tagValue ((fun x => makeCoherent env device x allocation)^[i] s).hostMem < latest) := by
  refine ⟨fun _ => rfl, ?_, ?_, ?_⟩
  · intro allocation fuel h
    have := waitLoop_iterate env device tagValue latest allocation 0 (fuel + 1) s (by omega)
      (fun i hi => absurd hi (by omega)) (by simpa using h)
    simp only [waitBeforeMakingNonResidentWhenRequired, this, Function.iterate_zero, id_eq]
  · intro allocation k fuel hk hlt hge
    have := waitLoop_iterate env device tagValue latest allocation k fuel s hk hlt (by omega)
    simp only [waitBeforeMakingNonResidentWhenRequired, this]
  · intro allocation fuel r h
    cases hw : waitLoop env device tagValue latest allocation fuel s with
    | none => simp [waitBeforeMakingNonResidentWhenRequired, hw] at h
    | some r0 =>
      simp only [waitBeforeMakingNonResidentWhenRequired, hw, WaitResult.returned.injEq] at h
      subst h
      exact waitLoop_returns env device tagValue latest allocation fuel s r0 hw

/-- C22 on the reference device, whose tag reads 0, then 1, then 2: waiting for
2 returns after two read-backs. -/
theorem waitBeforeMakingNonResidentWhenRequired_spec_witness :
    (2 : Nat) < 5 ∧
    (∀ i, i < 2 →
      refTagValue ((fun x => makeCoherent refEnv refDevice x (refAllocation 0))^[i]
        refCsrZeroed).hostMem < 2) ∧
    2 ≤ refTagValue ((fun x => makeCoherent refEnv refDevice x (refAllocation 0))^[2]
      refCsrZeroed).hostMem ∧
    waitBeforeMakingNonResidentWhenRequired refEnv refDevice refTagValue
        (some (refAllocation 0)) 2 5 refCsrZeroed =
      WaitResult.returned ((fun x => makeCoherent refEnv refDevice x (refAllocation 0))^[2]
        refCsrZeroed) ∧
    ((fun x => makeCoherent refEnv refDevice x (refAllocation 0))^[2] refCsrZeroed).tbxStream =
      [ Record.readMemory 0x7000 0x7000 4, Record.readMemory 0x7000 0x7000 4] :=
  have h1 : ∀ i, i < 2 →
      refTagValue ((fun x => makeCoherent refEnv refDevice x (refAllocation 0))^[i]
        refCsrZeroed).hostMem < 2 := by
    intro i hi
    interval_cases i <;> decide
  have h2 : 2 ≤ refTagValue ((fun x => makeCoherent refEnv refDevice x (refAllocation 0))^[2]
      refCsrZeroed).hostMem := by decide
  ⟨by decide, h1, h2,
    (waitBeforeMakingNonResidentWhenRequired_spec refEnv refDevice refTagValue 2
      refCsrZeroed).2.2.1 (refAllocation 0) 2 5 (by decide) h1 h2,
    by decide⟩

/-! ## Engine initialisation -/

/-- Splitting the last of two appended records off. -/
theorem append_pair_last {α : Type} (xs ys : List α) (a b : α) :
    ∃ added, xs ++ (ys ++ [a, b]) = xs ++ added ++ [b] :=
  ⟨ys ++ [a], by simp⟩

/-- The records `initializeEngine` appends: register writes, the three
reservations and, last, the write of the context area with its image. -/
theorem initializeEngine_stream (env : Env W) (s : TbxCommandStreamReceiverHw W)
    (e : EngineType) :
    ∃ physHWSP physRCS physLRCA,
      (initializeEngine env s e).tbxStream =
        s.tbxStream ++
          (writeMMIOs ( Env.globalMMIO env) ++ writeMMIOs ( Env.perEngineMMIO env e) ++
            writeMMIOs ( Env.additionalMMIO env) ++
            [ Record.reserveAddressGGTT ((initializeEngine env s e).engineInfoTable e).ggttHWSP
                0x1000 physHWSP (getGTTData physHWSP),
              Record.writeMMIO ((env.csTraits e).mmioBase + 0x2080)
                ((initializeEngine env s e).engineInfoTable e).ggttHWSP,
              Record.reserveAddressGGTT ((initializeEngine env s e).engineInfoTable e).ggttRCS
                0x4000 physRCS (getGTTData physRCS)] ++
            [ Record.reserveAddressGGTT ((initializeEngine env s e).engineInfoTable e).ggttLRCA
                (env.csTraits e).sizeLRCA physLRCA (getGTTData physLRCA),
              Record.addMemoryWrite physLRCA
                (Payload.lrca ((initializeEngine env s e).engineInfoTable e).pLRCA
                  ((initializeEngine env s e).lrcaMem
                    ((initializeEngine env s e).engineInfoTable e).pLRCA))
                (env.csTraits e).sizeLRCA (env.getAddressSpace (env.csTraits e).aubHintLRCA)
                (env.csTraits e).aubHintLRCA]) := by
  simp only [initializeEngine, initEngineMMIO, Function.update_same, List.append_assoc,
    List.cons_append, List.nil_append, List.singleton_append]
  exact ⟨_, _, _, rfl⟩

/-- C23: `initializeEngine` sets the ring size of the engine to `0x4000` bytes and
does not touch `tailRCS`, which is therefore 0 for an engine that no flush has
targeted since construction.  The context area receives, after its
initialisation, ring head 0, ring tail 0, ring base `ggttRCS` and ring control
`0x3001`, and the write of the context area is the last record of the call and
carries the image with these four fields. -/
theorem initializeEngine_empty_ring (env : Env W) (s : TbxCommandStreamReceiverHw W)
    (e : EngineType) :
    ((initializeEngine env s e).engineInfoTable e).sizeRCS = 0x4000 ∧
    ((initializeEngine env s e).engineInfoTable e).tailRCS = (s.engineInfoTable e).tailRCS ∧
    (∀ (world : W) (hostMem : Nat → HostByte) (lrcaMem : Nat → List LrcaOp)
      (taskCount deviceIndex : Nat) (localMemoryEnabled : Bool)
      (calls : List (EngineType × FlushCall)),
      (∀ c ∈ calls, c.1 ≠ e) →
      ((initializeEngine env
        (flushSequence env
          (construct world hostMem lrcaMem taskCount deviceIndex localMemoryEnabled) calls)
        e).engineInfoTable e).tailRCS = 0) ∧
    (initializeEngine env s e).lrcaMem ((initializeEngine env s e).engineInfoTable e).pLRCA =
      s.lrcaMem ((initializeEngine env s e).engineInfoTable e).pLRCA ++
        [LrcaOp.initializeContext, LrcaOp.setRingHead 0, LrcaOp.setRingTail 0,
          LrcaOp.setRingBase ((initializeEngine env s e).engineInfoTable e).ggttRCS,
          LrcaOp.setRingCtrl 0x3001] ∧
    ∃ added physLRCA,
      (initializeEngine env s e).tbxStream =
        s.tbxStream ++ added ++
          [ Record.addMemoryWrite physLRCA
              (Payload.lrca ((initializeEngine env s e).engineInfoTable e).pLRCA
                (s.lrcaMem ((initializeEngine env s e).engineInfoTable e).pLRCA ++
                  [LrcaOp.initializeContext, LrcaOp.setRingHead 0, LrcaOp.setRingTail 0,
                    LrcaOp.setRingBase ((initializeEngine env s e).engineInfoTable e).ggttRCS,
                    LrcaOp.setRingCtrl 0x3001]))
              (env.csTraits e).sizeLRCA (env.getAddressSpace (env.csTraits e).aubHintLRCA)
              (env.csTraits e).aubHintLRCA] := by
  have himg : (initializeEngine env s e).lrcaMem
      ((initializeEngine env s e).engineInfoTable e).pLRCA =
      s.lrcaMem ((initializeEngine env s e).engineInfoTable e).pLRCA ++
        [LrcaOp.initializeContext, LrcaOp.setRingHead 0, LrcaOp.setRingTail 0,
          LrcaOp.setRingBase ((initializeEngine env s e).engineInfoTable e).ggttRCS,
          LrcaOp.setRingCtrl 0x3001] := by
    simp only [initializeEngine, Function.update_same, List.append_assoc, List.singleton_append]
    rfl
  refine ⟨?_, ?_, ?_, himg, ?_⟩
  · simp [initializeEngine]
  · simp [initializeEngine]
  · intro world hostMem lrcaMem taskCount deviceIndex localMemoryEnabled calls h
    have h1 := flushSequence_untouched env e calls
      (construct world hostMem lrcaMem taskCount deviceIndex localMemoryEnabled) h
    simp only [initializeEngine, Function.update_same, h1]
    rfl
  · obtain ⟨physHWSP, physRCS, physLRCA, hs⟩ := initializeEngine_stream env s e
    rw [himg] at hs
    rw [hs]
    obtain ⟨added, ha⟩ := append_pair_last s.tbxStream
      (writeMMIOs ( Env.globalMMIO env) ++ writeMMIOs ( Env.perEngineMMIO env e) ++
        writeMMIOs ( Env.additionalMMIO env) ++
        [ Record.reserveAddressGGTT ((initializeEngine env s e).engineInfoTable e).ggttHWSP
            0x1000 physHWSP (getGTTData physHWSP),
          Record.writeMMIO ((env.csTraits e).mmioBase + 0x2080)
            ((initializeEngine env s e).engineInfoTable e).ggttHWSP,
          Record.reserveAddressGGTT ((initializeEngine env s e).engineInfoTable e).ggttRCS
            0x4000 physRCS (getGTTData physRCS)])
      (Record.reserveAddressGGTT ((initializeEngine env s e).engineInfoTable e).ggttLRCA
        (env.csTraits e).sizeLRCA physLRCA (getGTTData physLRCA))
      (Record.addMemoryWrite physLRCA
        (Payload.lrca ((initializeEngine env s e).engineInfoTable e).pLRCA
          (s.lrcaMem ((initializeEngine env s e).engineInfoTable e).pLRCA ++
            [LrcaOp.initializeContext, LrcaOp.setRingHead 0, LrcaOp.setRingTail 0,
              LrcaOp.setRingBase ((initializeEngine env s e).engineInfoTable e).ggttRCS,
              LrcaOp.setRingCtrl 0x3001]))
        (env.csTraits e).sizeLRCA (env.getAddressSpace (env.csTraits e).aubHintLRCA)
        (env.csTraits e).aubHintLRCA)
    exact ⟨added, physLRCA, ha⟩

/-- C23 on the concrete receiver: engine 1 after a flush on engine 0. -/
theorem initializeEngine_empty_ring_witness :
    (∀ c ∈ [((0 : EngineType), refCall)], c.1 ≠ 1) ∧
    ((initializeEngine refEnv (flushSequence refEnv refCsr [(0, refCall)]) 1).engineInfoTable
      1).tailRCS = 0 ∧
    ((initializeEngine refEnv (flushSequence refEnv refCsr [(0, refCall)]) 1).engineInfoTable
      1).sizeRCS = 0x4000 :=
  have h : ∀ c ∈ [((0 : EngineType), refCall)], c.1 ≠ 1 := by
    intro c hc
    simp only [List.mem_singleton] at hc
    subst hc
    decide
  ⟨h,
    (initializeEngine_empty_ring refEnv refCsr 1).2.2.1 0x100000 (fun _ => HostByte.value 0xCD)
      (fun _ => []) 0 0 false [(0, refCall)] h,
    by decide⟩

/-- C25: `processResidency` hands back the allocations in the given order, each
with the same host pointer, GPU address, size and allocation type, and with the
residency task count unchanged for every device other than this one; host
memory is not written.  In particular allocations whose type does not carry the
non-AUB-writable classification do not carry it afterwards. -/
theorem processResidency_keeps_allocation_fields (env : Env W)
    (s : TbxCommandStreamReceiverHw W) (l : List GraphicsAllocation) :
    List.Forall₂
      (fun g g' =>
        g'.cpuPtr = g.cpuPtr ∧ g'.gpuAddress = g.gpuAddress ∧ g'.size = g.size ∧
          g'.allocationType = g.allocationType ∧
          ∀ d, d ≠ s.deviceIndex → g'.residencyTaskCount d = g.residencyTaskCount d)
      l (processResidency env s l).2 ∧
    (processResidency env s l).1.hostMem = s.hostMem ∧
    ((∀ g ∈ l, g.allocationType &&& env.ALLOCATION_TYPE_NON_AUB_WRITABLE = 0) →
      ∀ g' ∈ (processResidency env s l).2,
        g'.allocationType &&& env.ALLOCATION_TYPE_NON_AUB_WRITABLE = 0) := by
  rw [processResidency_allocations]
  refine ⟨?_, (processResidency_frame env l s).2.2.1, ?_⟩
  · rw [List.forall₂_map_right_iff]
    apply List.forall₂_same.mpr
    intro g _
    exact ⟨rfl, rfl, rfl, rfl, fun d hd => Function.update_noteq hd _ _⟩
  · intro h g' hg'
    rw [List.mem_map] at hg'
    obtain ⟨g, hg, rfl⟩ := hg'
    exact h g hg

/-- C25 on a default-typed 4-byte allocation. -/
theorem processResidency_keeps_allocation_fields_witness :
    (∀ g ∈ [refAllocation 0], g.allocationType &&& refEnv.ALLOCATION_TYPE_NON_AUB_WRITABLE = 0) ∧
    (∀ g' ∈ (processResidency refEnv refCsr [refAllocation 0]).2,
      g'.allocationType &&& refEnv.ALLOCATION_TYPE_NON_AUB_WRITABLE = 0) ∧
    (processResidency refEnv refCsr [refAllocation 0]).2.map
      (fun g => (g.cpuPtr, g.gpuAddress, g.size, g.allocationType, g.residencyTaskCount 0)) =
      [(0x7000, 0x7000, 4, 0, 1)] :=
  have h : ∀ g ∈ [refAllocation 0],
      g.allocationType &&& refEnv.ALLOCATION_TYPE_NON_AUB_WRITABLE = 0 := by
    intro g hg
    simp only [List.mem_singleton] at hg
    subst hg
    decide
  ⟨h, (processResidency_keeps_allocation_fields refEnv refCsr [refAllocation 0]).2.2 h,
    by decide⟩

/-- C26: a `flush` on engine `e` leaves the record of every other engine as it
was, and after any sequence of flushes of a freshly constructed receiver an
engine that none of them targeted still has the cleared record of the
constructor: null pointers, addresses 0, ring size 0 and tail 0. -/
theorem flush_engine_isolation (env : Env W) :
    (∀ (s : TbxCommandStreamReceiverHw W) (bb : BatchBuffer) (e : EngineType)
      (l : List GraphicsAllocation) (e' : EngineType), e' ≠ e →
      (flush env s bb e l).csr.engineInfoTable e' = s.engineInfoTable e') ∧
    (∀ (world : W) (hostMem : Nat → HostByte) (lrcaMem : Nat → List LrcaOp)
      (taskCount deviceIndex : Nat) (localMemoryEnabled : Bool)
      (calls : List (EngineType × FlushCall)) (e : EngineType),
      (∀ c ∈ calls, c.1 ≠ e) →
      (flushSequence env
        (construct world hostMem lrcaMem taskCount deviceIndex localMemoryEnabled)
        calls).engineInfoTable e = EngineInfo.cleared) := by
  constructor
  · intro s bb e l e' he
    exact (flush_engineInfo_fields env s bb e l).2 e' he
  · intro world hostMem lrcaMem taskCount deviceIndex localMemoryEnabled calls e h
    rw [flushSequence_untouched env e calls _ h]
    rfl

/-- C26 on the concrete receiver: flushes on engines 0 and 2 leave engine 1
cleared, and one flush on engine 0 leaves engine 1 as it was. -/
theorem flush_engine_isolation_witness :
    (1 : EngineType) ≠ 0 ∧
    (∀ c ∈ [((0 : EngineType), refCall), (2, refCall)], c.1 ≠ 1) ∧
    (flush refEnv refCsr refBatchBuffer 0 []).csr.engineInfoTable 1 =
      refCsr.engineInfoTable 1 ∧
    (flushSequence refEnv refCsr [(0, refCall), (2, refCall)]).engineInfoTable 1 =
      EngineInfo.cleared ∧
    ((flushSequence refEnv refCsr [(0, refCall), (2, refCall)]).engineInfoTable 0).pLRCA ≠ 0 :=
  have h : ∀ c ∈ [((0 : EngineType), refCall), (2, refCall)], c.1 ≠ 1 := by
    intro c hc
    simp only [List.mem_cons, List.mem_singleton, List.not_mem_nil, or_false] at hc
    rcases hc with rfl | rfl <;> decide
  ⟨by decide, h,
    (flush_engine_isolation refEnv).1 refCsr refBatchBuffer 0 [] 1 (by decide),
    (flush_engine_isolation refEnv).2 0x100000 (fun _ => HostByte.value 0xCD) (fun _ => [])
      0 0 false [(0, refCall), (2, refCall)] 1 h,
    by decide⟩

/-! ## Allocation type and residency processing -/

/-- C10 (amended): `writeMemory` does not read the allocation type.  On an
allocation whose type carries `ALLOCATION_TYPE_NON_AUB_WRITABLE` it returns
false, leaving the receiver unchanged, only when the size is 0; for a non-zero
size it returns true and appends one record per run of the page walk, and it
does the same whatever type the allocation has (the memory bank being the
same).  Residency processing does not suppress the write either: from any
receiver state `processResidency` appends the runs of such an allocation of
non-zero size and hands it back with the same size and the same type, so every
later call pushes it again; two calls in a row append its runs twice. -/
theorem writeMemory_ignores_allocationType (env : Env W) (s : TbxCommandStreamReceiverHw W)
    (g : GraphicsAllocation)
    (hty : g.allocationType &&& env.ALLOCATION_TYPE_NON_AUB_WRITABLE ≠ 0) :
    ((writeMemory env s g).1 = false ↔ g.size = 0) ∧
    (g.size = 0 → (writeMemory env s g).2 = s) ∧
    (g.size ≠ 0 →
      (writeMemory env s g).2.tbxStream =
        s.tbxStream ++
          (env.ppgttPageWalk s.world g.gpuAddress g.size 0 (getPPGTTAdditionalBits env)
            (env.getMemoryBank g)).1.map
            (fun run =>
              Record.reserveAddressGGTTAndWriteMmeory g.gpuAddress g.cpuPtr run.physAddress
                run.size run.offset (getPPGTTAdditionalBits env) s.localMemoryEnabled)) ∧
    (∀ t, env.getMemoryBank { g with allocationType := t } = env.getMemoryBank g →
      writeMemory env s { g with allocationType := t } = writeMemory env s g) ∧
    (g.size ≠ 0 → ∀ s' : TbxCommandStreamReceiverHw W,
      (processResidency env s' [g]).1.tbxStream =
        s'.tbxStream ++
          (env.ppgttPageWalk s'.world g.gpuAddress g.size 0 (getPPGTTAdditionalBits env)
            (env.getMemoryBank g)).1.map
            (fun run =>
              Record.reserveAddressGGTTAndWriteMmeory g.gpuAddress g.cpuPtr run.physAddress
                run.size run.offset (getPPGTTAdditionalBits env) s'.localMemoryEnabled) ∧
      ∃ g', (processResidency env s' [g]).2 = [g'] ∧ g'.size = g.size ∧ g'.size ≠ 0 ∧
        g'.cpuPtr = g.cpuPtr ∧ g'.gpuAddress = g.gpuAddress ∧
        g'.allocationType = g.allocationType ∧
        g'.allocationType &&& env.ALLOCATION_TYPE_NON_AUB_WRITABLE ≠ 0) ∧
    (g.size ≠ 0 → ∀ laterTaskCount : Nat,
      (processResidency env
        { (processResidency env s [g]).1 with taskCount := laterTaskCount }
        (processResidency env s [g]).2).1.tbxStream =
        s.tbxStream ++
          (env.ppgttPageWalk s.world g.gpuAddress g.size 0 (getPPGTTAdditionalBits env)
            (env.getMemoryBank g)).1.map
            (fun run =>
              Record.reserveAddressGGTTAndWriteMmeory g.gpuAddress g.cpuPtr run.physAddress
                run.size run.offset (getPPGTTAdditionalBits env) s.localMemoryEnabled) ++
          (env.ppgttPageWalk (processResidency env s [g]).1.world g.gpuAddress g.size 0
            (getPPGTTAdditionalBits env)
            (env.getMemoryBank
              { g with
                residencyTaskCount :=
                  Function.update g.residencyTaskCount s.deviceIndex (s.taskCount + 1) })).1.map
            (fun run =>
              Record.reserveAddressGGTTAndWriteMmeory g.gpuAddress g.cpuPtr run.physAddress
                run.size run.offset (getPPGTTAdditionalBits env) s.localMemoryEnabled)) := by
  refine ⟨?_, ?_, ?_, ?_, ?_, ?_⟩
  · unfold writeMemory
    by_cases h : g.size = 0 <;> simp [h]
  · intro h
    simp [writeMemory, h]
  · intro h
    simp [writeMemory, h]
  · intro t ht
    simp only [writeMemory, ht]
  · intro h s'
    refine ⟨by simp [processResidency, writeMemory, h], _, processResidency_allocations env [g] s',
      rfl, h, rfl, rfl, rfl, hty⟩
  · intro h laterTaskCount
    rw [processResidency_allocations env [g] s]
    simp [processResidency, writeMemory, h]

/-- C10 (amended) at the non-AUB-writable 4-byte allocation: `writeMemory` does
not return false, and two residency passes push its record twice. -/
theorem writeMemory_ignores_allocationType_witness :
    (refAllocation refEnv.ALLOCATION_TYPE_NON_AUB_WRITABLE).allocationType &&&
        refEnv.ALLOCATION_TYPE_NON_AUB_WRITABLE ≠ 0 ∧
    (refAllocation refEnv.ALLOCATION_TYPE_NON_AUB_WRITABLE).size ≠ 0 ∧
    ¬ (writeMemory refEnv refCsr (refAllocation refEnv.ALLOCATION_TYPE_NON_AUB_WRITABLE)).1 = false ∧
    (processResidency refEnv
      { (processResidency refEnv refCsr
          [refAllocation refEnv.ALLOCATION_TYPE_NON_AUB_WRITABLE]).1 with taskCount := 1 }
      (processResidency refEnv refCsr
        [refAllocation refEnv.ALLOCATION_TYPE_NON_AUB_WRITABLE]).2).1.tbxStream =
      [ Record.reserveAddressGGTTAndWriteMmeory 0x7000 0x7000 0x7000 4 0 7 false,
        Record.reserveAddressGGTTAndWriteMmeory 0x7000 0x7000 0x7000 4 0 7 false] :=
  ⟨by decide, by decide,
    fun h =>
      absurd
        ((writeMemory_ignores_allocationType refEnv refCsr
          (refAllocation refEnv.ALLOCATION_TYPE_NON_AUB_WRITABLE) (by decide)).1.mp h)
        (by decide),
    ((writeMemory_ignores_allocationType refEnv refCsr
      (refAllocation refEnv.ALLOCATION_TYPE_NON_AUB_WRITABLE) (by decide)).2.2.2.2.2
      (by decide) 1).trans (by decide)⟩

end OCLRT
